import Mathlib

/-! # Kernel dispatch entry points of `paddle/phi/api/lib/api_custom_impl.cc`

A shallow embedding of the thirteen hand-written dispatch entry points
(`conv2d_impl` … `meshgrid_grad_impl`).  Every entry point is a straight-line
orchestration of external collaborators (key parsing, the kernel registry, the
data preparer, the meta-inference functions, the output binder, the device
context pool and the kernel itself).  The collaborators live in headers that are
not part of the sources at hand, so they are supplied by an environment `Env`;
the embedding records every call made to a collaborator, with its arguments, in
an ordered trace, and keeps the tensor objects the call touches in an explicit
object store addressed by natural numbers (the model of C++ pointers).
-/

namespace Paddle

set_option maxHeartbeats 1600000

/-! ## Descriptor types -/

/-- Modelled from the spec: the `Backend` enumeration (`phi/common/backend.h`, not
among the sources).  The code names only the `UNDEFINED` sentinel and `GPU`; the spec
adds the CPU; every further backend is represented by a numeric code. -/
inductive Backend where
  | UNDEFINED
  | CPU
  | GPU
  | other (code : Nat)
  deriving DecidableEq

/-- Modelled from the spec: the `DataLayout` enumeration (`phi/common/layout.h`, not
among the sources).  The code names only the `UNDEFINED` sentinel. -/
inductive DataLayout where
  | UNDEFINED
  | NHWC
  | NCHW
  | other (code : Nat)
  deriving DecidableEq

/-- Modelled from the spec: the `DataType` enumeration (`phi/common/data_type.h`, not
among the sources).  The code names only the `UNDEFINED` sentinel; the spec speaks of
real types and their complex counterparts. -/
inductive DataType where
  | UNDEFINED
  | FLOAT32
  | FLOAT64
  | COMPLEX64
  | COMPLEX128
  | other (code : Nat)
  deriving DecidableEq

/-- Modelled from the spec: `phi::Place` (`phi/common/place.h`), the target device of
`copy_to_impl`. -/
inductive Place where
  | UNDEFINED
  | CPU
  | GPU (device : Nat)
  | other (kind device : Nat)
  deriving DecidableEq

/-- The triple `phi::KernelKey{backend, layout, dtype}`. -/
structure KernelKey where
  backend : Backend
  layout : DataLayout
  dtype : DataType
  deriving DecidableEq

/-- Modelled from the spec: `BackendSet`, "a bitset over available backends". -/
structure BackendSet where
  bitset : Nat
  deriving DecidableEq

/-- Modelled from the spec: the bit a backend occupies in a `BackendSet`; the
`UNDEFINED` sentinel occupies none. -/
def Backend.bit : Backend → Option Nat
  | .UNDEFINED => none
  | .CPU => some 0
  | .GPU => some 1
  | .other code => some (code + 2)

/-- Modelled from the spec: the constructor `BackendSet(backend)`, the singleton set of
one backend (the empty set for the `UNDEFINED` sentinel). -/
def BackendSet.ofBackend (b : Backend) : BackendSet :=
  match b.bit with
  | none => { bitset := 0 }
  | some i => { bitset := 2 ^ i }

/-- Modelled from the spec: `operator|` on `BackendSet`, the bitwise OR of the two
bitsets. -/
def BackendSet.or (a b : BackendSet) : BackendSet :=
  { bitset := a.bitset ||| b.bitset }

/-- The `KernelKeySet` filled by `ParseKernelKeyByInputArgs`; `copy_to_impl` assigns
to its field `backend_set` directly. -/
structure KernelKeySet where
  backend_set : BackendSet
  layout : DataLayout
  dtype : DataType
  deriving DecidableEq

/-- The `phi::TensorArgDef` a kernel registers for one input position; `conv2d_impl`
assigns to its field `backend`. -/
structure TensorArgDef where
  backend : Backend
  layout : DataLayout
  dtype : DataType
  deriving DecidableEq

/-! ## Tensors and the object store -/

/-- An address of the object store (a C++ pointer to a tensor implementation). -/
abbrev Addr := Nat

/-- The shape/type/layout fields a `phi::MetaTensor` reads and writes. -/
structure DenseTensorMeta where
  dims : List Int
  dtype : DataType
  layout : DataLayout
  deriving DecidableEq

/-- A tensor implementation object (`phi::TensorBase`): a `DenseTensor` or a
`SelectedRows`, tagged with the backend it lives on and its metadata.  Data buffers
are outside the embedding. -/
structure TensorImpl where
  selected_rows : Bool
  backend : Backend
  meta : DenseTensorMeta
  deriving DecidableEq

/-- The object store: the tensor implementations alive during a call, by address. -/
abbrev Heap := List TensorImpl

/-- The API-level `paddle::experimental::Tensor`: a shared pointer `impl_` to a tensor
implementation, null for a default-constructed tensor. -/
structure Tensor where
  impl : Option Addr
  deriving DecidableEq

/-- The default-constructed `Tensor` (`Tensor api_output;`). -/
def Tensor.empty : Tensor := { impl := none }

/-- `phi::IntArray`; `GetData()` returns the vector of 64-bit signed values. -/
structure IntArray where
  GetData : List Int
  deriving DecidableEq

/-- `phi::Scalar`: an integer value (an axis) or a floating-point value, the latter
carried as its bit pattern. -/
inductive Scalar where
  | int (value : Int)
  | double (bits : Nat)
  deriving DecidableEq

/-- An attribute value handed through to meta inference and to the kernel.  A C++
`float` is carried as its bit pattern (no arithmetic is done on it here). -/
inductive Attr where
  | ints (v : List Int)
  | str (s : String)
  | int (i : Int)
  | bool (b : Bool)
  | float (bits : Nat)
  | intArray (a : IntArray)
  | scalar (s : Scalar)
  | place (p : Place)
  deriving DecidableEq

/-- One argument of `ParseKernelKeyByInputArgs`: a tensor or a vector of tensors. -/
inductive KeyArg where
  | tensor (t : Tensor)
  | tensors (ts : List Tensor)
  deriving DecidableEq

/-- An input argument of a meta-inference function: a `MetaTensor` view over the
tensor at an address, a vector of such views, a `MetaTensor` over a call-local
tensor carrying the given fields, or `paddle::none`. -/
inductive MetaArg where
  | view (a : Addr)
  | views (as : List Addr)
  | loc (m : DenseTensorMeta)
  | none
  deriving DecidableEq

/-- An input argument of a kernel: a dense tensor, a vector of dense tensors or an
optional dense tensor, each by address. -/
inductive KArg where
  | tensor (a : Addr)
  | tensors (as : List Addr)
  | optional (a : Option Addr)
  deriving DecidableEq

/-- An output argument of a meta-inference function or a kernel: one pointer
(possibly null) or a vector of pointers. -/
inductive OutArg where
  | ptr (a : Option Addr)
  | ptrs (as : List Addr)
  deriving DecidableEq

/-- The addresses an output argument refers to. -/
def OutArg.addrs : OutArg → List Addr
  | .ptr none => []
  | .ptr (some a) => [a]
  | .ptrs as => as

/-! ## Errors, kernels and the trace of collaborator calls -/

/-- Modelled from the spec: the error kinds of the dispatch layer, plus the
dereference of a null pointer (undefined behaviour in C++, an abort here). -/
inductive Err where
  | KeyResolutionError
  | KernelNotFoundError
  | UnsupportedTransformError
  | ShapeInferenceError
  | AllocationError
  | NullPointer
  | other (code : Nat)
  deriving DecidableEq

/-- Modelled from the spec: a `phi::Kernel` selected from the registry: the identity
of its callable and the `TensorArgDef` it registers for each input position. -/
structure Kernel where
  fn : Nat
  InputAt : Nat → TensorArgDef

/-- Modelled from the spec: what the Data Preparer does with one tensor: it yields no
tensor (null input), hands back the same tensor (the input already satisfies the
descriptor), or produces a new owned tensor holding the converted data. -/
inductive Prepared where
  | null
  | same
  | fresh (obj : TensorImpl)
  deriving DecidableEq

/-- One call made to a collaborator, with its arguments and, where a later step uses
it, what the call returned (`none` when the call raised). -/
inductive Event where
  | ParseDataType (t : Tensor) (r : DataType)
  | ParseBackend (t : Tensor) (r : Backend)
  | ParseKernelKeyByInputArgs (args : List KeyArg) (r : KernelKeySet)
  | GetHighestPriorityKernelKey (s : KernelKeySet) (r : KernelKey)
  | SelectKernelOrThrowError (name : String) (key : KernelKey) (use_gpudnn : Bool)
      (r : Option Nat)
  | GetDeviceContextByBackend (backend : Backend) (r : Nat)
  | PrepareData (input : Tensor) (target : TensorArgDef) (r : Option (Option Addr))
  | PrepareDataOptional (input : Option Tensor) (target : TensorArgDef)
      (r : Option (Option Addr))
  | PrepareDataVector (inputs : List Tensor) (target : TensorArgDef)
      (r : Option (List Addr))
  | TensorToDenseTensor (t : Tensor) (r : Option Addr)
  | SetKernelOutput (backend : Backend) (r : Addr)
  | SetKernelOutputVector (out_size : Nat) (backend : Backend) (r : List Addr)
  | InferMeta (fn : String) (heap : Heap) (inputs : List MetaArg) (attrs : List Attr)
      (outputs : List OutArg) (r : Option (List DenseTensorMeta))
  | KernelFn (fn : Nat) (dev_ctx : Nat) (inputs : List KArg) (attrs : List Attr)
      (outputs : List OutArg) (returned : Bool)
  deriving DecidableEq

/-- The collaborators of the dispatch entry points whose code is not among the
sources: each is a parameter.  Those reading tensors are given the object store. -/
structure Env where
  ParseDataType : Heap → Tensor → DataType
  ParseBackend : Heap → Tensor → Backend
  ParseKernelKeyByInputArgs : Heap → List KeyArg → KernelKeySet
  GetHighestPriorityKernelKey : KernelKeySet → KernelKey
  TransToPhiBackend : Place → Backend
  ToComplex : DataType → DataType
  SelectKernelOrThrowError : String → KernelKey → Bool → Except Err Kernel
  GetDeviceContextByBackend : Backend → Nat
  PrepareData : Heap → Tensor → TensorArgDef → Except Err Prepared
  InferMeta : String → Heap → List MetaArg → List Attr → List OutArg →
    Except Err (List DenseTensorMeta)
  KernelFn : Nat → Heap → Nat → List KArg → List Attr → List OutArg → Except Err Unit

/-- The state threaded through a call: the object store and the calls made so far. -/
structure World where
  heap : Heap
  trace : List Event

/-- A dispatch computation: it ends with a value or with a raised error, and in both
cases leaves the world it reached (so the trace of an aborted call is observable). -/
def Dispatch (α : Type) : Type := World → Except Err α × World

/-- Sequencing: a raised error aborts everything after it. -/
def Dispatch.bind {α β : Type} (m : Dispatch α) (f : α → Dispatch β) : Dispatch β :=
  fun w =>
    match m w with
    | (.ok a, w1) => f a w1
    | (.error e, w1) => (.error e, w1)

instance : Monad Dispatch where
  pure a := fun w => (.ok a, w)
  bind := Dispatch.bind

/-- Dereference a pointer (`*p`, `p->`): a null or dangling pointer aborts. -/
def deref (p : Option Addr) : Dispatch TensorImpl :=
  fun w =>
    match p with
    | none => (.error .NullPointer, w)
    | some a =>
      match w.heap[a]? with
      | none => (.error .NullPointer, w)
      | some obj => (.ok obj, w)

/-- Checked use of a pointer as a reference (`*p` passed on by reference). -/
def addrOf (p : Option Addr) : Dispatch Addr :=
  fun w =>
    match p with
    | none => (.error .NullPointer, w)
    | some a => (.ok a, w)

/-- Overwrite the metadata of the object at an address (a `MetaTensor` write). -/
def Heap.setMeta (h : Heap) (a : Addr) (m : DenseTensorMeta) : Heap :=
  h.modify (fun obj => { obj with meta := m }) a

/-- Write a list of metadata records through a list of output pointers, pairwise. -/
def Heap.setMetas (h : Heap) : List Addr → List DenseTensorMeta → Heap
  | a :: as, m :: ms => Heap.setMetas (h.setMeta a m) as ms
  | _, _ => h

/-! ## The collaborator calls, as dispatch computations -/

/-- `ParseDataType(t)`. -/
def ParseDataType (env : Env) (t : Tensor) : Dispatch DataType :=
  fun w =>
    (.ok (env.ParseDataType w.heap t),
      { w with trace := w.trace ++ [.ParseDataType t (env.ParseDataType w.heap t)] })

/-- `ParseBackend(t)`. -/
def ParseBackend (env : Env) (t : Tensor) : Dispatch Backend :=
  fun w =>
    (.ok (env.ParseBackend w.heap t),
      { w with trace := w.trace ++ [.ParseBackend t (env.ParseBackend w.heap t)] })

/-- `ParseKernelKeyByInputArgs(args...)`. -/
def ParseKernelKeyByInputArgs (env : Env) (args : List KeyArg) : Dispatch KernelKeySet :=
  fun w =>
    (.ok (env.ParseKernelKeyByInputArgs w.heap args),
      { w with trace := w.trace ++
          [.ParseKernelKeyByInputArgs args (env.ParseKernelKeyByInputArgs w.heap args)] })

/-- `kernel_key_set.GetHighestPriorityKernelKey()`. -/
def GetHighestPriorityKernelKey (env : Env) (s : KernelKeySet) : Dispatch KernelKey :=
  fun w =>
    (.ok (env.GetHighestPriorityKernelKey s),
      { w with trace := w.trace ++
          [.GetHighestPriorityKernelKey s (env.GetHighestPriorityKernelKey s)] })

/-- `phi::KernelFactory::Instance().SelectKernelOrThrowError(name, key, use_gpudnn)`:
the registry lookup, which raises when no kernel is registered. -/
def SelectKernelOrThrowError (env : Env) (name : String) (key : KernelKey)
    (use_gpudnn : Bool) : Dispatch Kernel :=
  fun w =>
    match env.SelectKernelOrThrowError name key use_gpudnn with
    | .error e =>
      (.error e,
        { w with trace := w.trace ++ [.SelectKernelOrThrowError name key use_gpudnn none] })
    | .ok kernel =>
      (.ok kernel,
        { w with trace := w.trace ++
            [.SelectKernelOrThrowError name key use_gpudnn (some kernel.fn)] })

/-- `GetDeviceContextByBackend(backend)`. -/
def GetDeviceContextByBackend (env : Env) (backend : Backend) : Dispatch Nat :=
  fun w =>
    (.ok (env.GetDeviceContextByBackend backend),
      { w with trace := w.trace ++
          [.GetDeviceContextByBackend backend (env.GetDeviceContextByBackend backend)] })

/-- The Data Preparer on one tensor: the (possibly null) pointer to the prepared
dense tensor and the object store after the call. -/
def prepareOne (env : Env) (h : Heap) (input : Tensor) (target : TensorArgDef) :
    Except Err (Option Addr × Heap) :=
  match env.PrepareData h input target with
  | .error e => .error e
  | .ok .null => .ok (none, h)
  | .ok .same => .ok (input.impl, h)
  | .ok (.fresh obj) => .ok (some h.length, h ++ [obj])

/-- `PrepareData(input, target, {})` on one tensor; the result is a shared pointer
to a dense tensor, possibly null. -/
def PrepareData (env : Env) (input : Tensor) (target : TensorArgDef) :
    Dispatch (Option Addr) :=
  fun w =>
    match prepareOne env w.heap input target with
    | .error e => (.error e, { w with trace := w.trace ++ [.PrepareData input target none] })
    | .ok (p, h1) =>
      (.ok p, { heap := h1, trace := w.trace ++ [.PrepareData input target (some p)] })

/-- The Data Preparer on an optional tensor: an absent input yields a null pointer. -/
def prepareOptional (env : Env) (h : Heap) (input : Option Tensor) (target : TensorArgDef) :
    Except Err (Option Addr × Heap) :=
  match input with
  | none => .ok (none, h)
  | some t => prepareOne env h t target

/-- `PrepareData(input, target, {})` on a `paddle::optional` tensor. -/
def PrepareDataOptional (env : Env) (input : Option Tensor) (target : TensorArgDef) :
    Dispatch (Option Addr) :=
  fun w =>
    match prepareOptional env w.heap input target with
    | .error e =>
      (.error e, { w with trace := w.trace ++ [.PrepareDataOptional input target none] })
    | .ok (p, h1) =>
      (.ok p, { heap := h1, trace := w.trace ++ [.PrepareDataOptional input target (some p)] })

/-- The Data Preparer on a vector of tensors: every element is prepared on its own
and stored, as a dense tensor object of the result vector, at a new address. -/
def prepareEach (env : Env) (target : TensorArgDef) :
    List Tensor → Heap → Except Err (List Addr × Heap)
  | [], h => .ok ([], h)
  | t :: ts, h =>
    match env.PrepareData h t target with
    | .error e => .error e
    | .ok .null => .error .NullPointer
    | .ok .same =>
      match t.impl with
      | none => .error .NullPointer
      | some a =>
        match h[a]? with
        | none => .error .NullPointer
        | some obj =>
          match prepareEach env target ts (h ++ [obj]) with
          | .error e => .error e
          | .ok (as, h1) => .ok (h.length :: as, h1)
    | .ok (.fresh obj) =>
      match prepareEach env target ts (h ++ [obj]) with
      | .error e => .error e
      | .ok (as, h1) => .ok (h.length :: as, h1)

/-- `PrepareData(inputs, target, {})` on a vector of tensors; the result is a vector
of dense tensors parallel to the input. -/
def PrepareDataVector (env : Env) (inputs : List Tensor) (target : TensorArgDef) :
    Dispatch (List Addr) :=
  fun w =>
    match prepareEach env target inputs w.heap with
    | .error e =>
      (.error e, { w with trace := w.trace ++ [.PrepareDataVector inputs target none] })
    | .ok (as, h1) =>
      (.ok as, { heap := h1, trace := w.trace ++ [.PrepareDataVector inputs target (some as)] })

/-- `TensorToDenseTensor(t)`: the implementation pointer of `t`, cast to a dense
tensor. -/
def TensorToDenseTensor (t : Tensor) : Dispatch (Option Addr) :=
  fun w => (.ok t.impl, { w with trace := w.trace ++ [.TensorToDenseTensor t t.impl] })

/-- Modelled from the spec: the tensor object the Output Binder allocates: a dense
tensor tagged to the backend, its metadata not yet inferred. -/
def TensorImpl.output (backend : Backend) : TensorImpl :=
  { selected_rows := false, backend := backend,
    meta := { dims := [], dtype := .UNDEFINED, layout := .UNDEFINED } }

/-- Modelled from the spec: `SetKernelOutput(backend, &out)` (`api_gen_utils.h`, not
among the sources): binds a result tensor tagged to the backend to `out` and returns
the pointer to it; an `out` that already has an implementation keeps it.  Returns the
pointer and `out` as it stands after the call. -/
def SetKernelOutput (backend : Backend) (out : Tensor) : Dispatch (Addr × Tensor) :=
  fun w =>
    match out.impl with
    | some a => (.ok (a, out), { w with trace := w.trace ++ [.SetKernelOutput backend a] })
    | none =>
      (.ok (w.heap.length, { impl := some w.heap.length }),
        { heap := w.heap ++ [TensorImpl.output backend],
          trace := w.trace ++ [.SetKernelOutput backend w.heap.length] })

/-- Modelled from the spec: `SetKernelOutput(out_size, backend, &out)` on an empty
vector `out`: allocates `out_size` result tensors tagged to the backend.  Returns the
pointers and the vector `out` as it stands after the call. -/
def SetKernelOutputVector (out_size : Nat) (backend : Backend) :
    Dispatch (List Addr × List Tensor) :=
  fun w =>
    (.ok (List.range' w.heap.length out_size,
        (List.range' w.heap.length out_size).map (fun a => { impl := some a })),
      { heap := w.heap ++ List.replicate out_size (TensorImpl.output backend),
        trace := w.trace ++
          [.SetKernelOutputVector out_size backend (List.range' w.heap.length out_size)] })

/-- All addresses a list of output arguments refers to, in order. -/
def outAddrs : List OutArg → List Addr
  | [] => []
  | o :: os => o.addrs ++ outAddrs os

/-- A meta-inference function other than the "unchanged" rules: the environment
computes the metadata of the outputs, which is written through the output views. -/
def InferMeta (env : Env) (fn : String) (inputs : List MetaArg) (attrs : List Attr)
    (outputs : List OutArg) : Dispatch Unit :=
  fun w =>
    match env.InferMeta fn w.heap inputs attrs outputs with
    | .error e =>
      (.error e,
        { w with trace := w.trace ++ [.InferMeta fn w.heap inputs attrs outputs none] })
    | .ok ms =>
      (.ok (),
        { heap := w.heap.setMetas (outAddrs outputs) ms,
          trace := w.trace ++ [.InferMeta fn w.heap inputs attrs outputs (some ms)] })

/-- The metadata of the objects at a list of addresses (`none` if one is missing). -/
def Heap.metas (h : Heap) : List Addr → Option (List DenseTensorMeta)
  | [] => some []
  | a :: as =>
    match h[a]?, Heap.metas h as with
    | some obj, some ms => some (obj.meta :: ms)
    | _, _ => none

/-- Modelled from the spec: `phi::UnchangedInferMeta(x, out)`: "output mirrors one
input's shape/type/layout exactly". -/
def UnchangedInferMeta (x : Addr) (out : Addr) : Dispatch Unit :=
  fun w =>
    match w.heap.metas [x] with
    | none =>
      (.error .NullPointer,
        { w with trace := w.trace ++
            [.InferMeta "UnchangedInferMeta" w.heap [.view x] [] [.ptr (some out)] none] })
    | some ms =>
      (.ok (),
        { heap := w.heap.setMetas [out] ms,
          trace := w.trace ++
            [.InferMeta "UnchangedInferMeta" w.heap [.view x] [] [.ptr (some out)]
              (some ms)] })

/-- Modelled from the spec: `phi::UnchangedMultiInferMeta(x, out)`: the "unchanged"
rule applied position by position. -/
def UnchangedMultiInferMeta (x : List Addr) (out : List Addr) : Dispatch Unit :=
  fun w =>
    match w.heap.metas x with
    | none =>
      (.error .NullPointer,
        { w with trace := w.trace ++
            [.InferMeta "UnchangedMultiInferMeta" w.heap [.views x] [] [.ptrs out] none] })
    | some ms =>
      (.ok (),
        { heap := w.heap.setMetas out ms,
          trace := w.trace ++
            [.InferMeta "UnchangedMultiInferMeta" w.heap [.views x] [] [.ptrs out]
              (some ms)] })

/-- `(*kernel_fn)(*dev_ctx, inputs..., attrs..., outputs...)`: the invocation of the
selected kernel.  What it writes goes to data buffers, outside the embedding. -/
def kernel_fn (env : Env) (kernel : Kernel) (dev_ctx : Nat) (inputs : List KArg)
    (attrs : List Attr) (outputs : List OutArg) : Dispatch Unit :=
  fun w =>
    match env.KernelFn kernel.fn w.heap dev_ctx inputs attrs outputs with
    | .error e =>
      (.error e,
        { w with trace := w.trace ++
            [.KernelFn kernel.fn dev_ctx inputs attrs outputs false] })
    | .ok _ =>
      (.ok (),
        { w with trace := w.trace ++
            [.KernelFn kernel.fn dev_ctx inputs attrs outputs true] })

/-- `for (i = 0; i < n; ++i) views.push_back(ptrs[i])`: the views over the first `n`
output pointers. -/
def viewsOf (n : Nat) (ptrs : List Addr) : List Addr :=
  ptrs.take n

/-- The conversion of a signed 64-bit value to `size_t` (64 bits wide). -/
def to_size_t (v : Int) : Nat :=
  (v % 2 ^ 64).toNat

/-! ## The entry points

Each definition follows its C++ function statement by statement.  A variable that
the C++ code assigns conditionally (`if (c) v = e;`) is rebound to
`if c then e else v`; a `*p` on a shared pointer is `addrOf p`; a member access
through a tensor's implementation pointer is `deref`. -/

/-- `conv2d_impl` (lines 38-138).  The dead initial store to `kernel_data_type`
(line 51) is overwritten by `ParseDataType(input)` (line 53). -/
def conv2d_impl (env : Env) (input filter : Tensor) (strides paddings : List Int)
    (paddding_algorithm : String) (groups : Int) (dilations : List Int)
    (data_format : String) (use_addto : Bool) (workspace_size_MB : Int)
    (exhaustive_search : Bool) : Dispatch Tensor := do
  let kernel_backend := Backend.UNDEFINED
  let kernel_layout := DataLayout.UNDEFINED
  let kernel_data_type ← ParseDataType env input
  let (kernel_backend, kernel_layout, kernel_data_type) ←
    if kernel_backend = Backend.UNDEFINED ∨ kernel_layout = DataLayout.UNDEFINED ∨
        kernel_data_type = DataType.UNDEFINED then do
      let kernel_key_set ← ParseKernelKeyByInputArgs env [.tensor input, .tensor filter]
      let kernel_key ← GetHighestPriorityKernelKey env kernel_key_set
      pure
        (if kernel_backend = Backend.UNDEFINED then kernel_key.backend else kernel_backend,
         if kernel_layout = DataLayout.UNDEFINED then kernel_key.layout else kernel_layout,
         if kernel_data_type = DataType.UNDEFINED then kernel_key.dtype
         else kernel_data_type)
    else pure (kernel_backend, kernel_layout, kernel_data_type)
  let kernel ← SelectKernelOrThrowError env "conv2d"
    { backend := kernel_backend, layout := kernel_layout, dtype := kernel_data_type } true
  let dev_ctx ← GetDeviceContextByBackend env kernel_backend
  let args0 := kernel.InputAt 0
  let args1 := kernel.InputAt 1
  let args0 := if kernel_backend = Backend.GPU then { args0 with backend := Backend.GPU }
    else args0
  let args1 := if kernel_backend = Backend.GPU then { args1 with backend := Backend.GPU }
    else args1
  let input_input ← PrepareData env input args0
  let input_filter ← PrepareData env filter args1
  let api_output := Tensor.empty
  let (kernel_out, api_output) ← SetKernelOutput kernel_backend api_output
  let meta_out := kernel_out
  let input_input_ref ← addrOf input_input
  let input_filter_ref ← addrOf input_filter
  InferMeta env "ConvInferMeta" [.view input_input_ref, .view input_filter_ref]
    [.ints strides, .ints paddings, .str paddding_algorithm, .int groups, .ints dilations,
      .str data_format, .bool use_addto, .int workspace_size_MB, .bool exhaustive_search]
    [.ptr (some meta_out)]
  kernel_fn env kernel dev_ctx [.tensor input_input_ref, .tensor input_filter_ref]
    [.ints strides, .ints paddings, .str paddding_algorithm, .int groups, .ints dilations,
      .str data_format, .bool use_addto, .int workspace_size_MB, .bool exhaustive_search]
    [.ptr (some kernel_out)]
  return api_output

/-- `conv2d_grad_impl` (lines 140-243). -/
def conv2d_grad_impl (env : Env) (input filter out_grad : Tensor)
    (strides paddings : List Int) (paddding_algorithm : String) (groups : Int)
    (dilations : List Int) (data_format : String) (use_addto : Bool)
    (workspace_size_MB : Int) (exhaustive_search : Bool) :
    Dispatch (List (List Tensor)) := do
  let kernel_backend := Backend.UNDEFINED
  let kernel_layout := DataLayout.UNDEFINED
  let kernel_data_type := DataType.UNDEFINED
  let (kernel_backend, kernel_layout, kernel_data_type) ←
    if kernel_backend = Backend.UNDEFINED ∨ kernel_layout = DataLayout.UNDEFINED ∨
        kernel_data_type = DataType.UNDEFINED then do
      let kernel_key_set ← ParseKernelKeyByInputArgs env [.tensor input, .tensor filter, .tensor out_grad]
      let kernel_key ← GetHighestPriorityKernelKey env kernel_key_set
      pure
        (if kernel_backend = Backend.UNDEFINED then kernel_key.backend else kernel_backend,
         if kernel_layout = DataLayout.UNDEFINED then kernel_key.layout else kernel_layout,
         if kernel_data_type = DataType.UNDEFINED then kernel_key.dtype
         else kernel_data_type)
    else pure (kernel_backend, kernel_layout, kernel_data_type)
  let kernel ← SelectKernelOrThrowError env "conv2d_grad"
    { backend := kernel_backend, layout := kernel_layout, dtype := kernel_data_type } true
  let dev_ctx ← GetDeviceContextByBackend env kernel_backend
  let args0 := kernel.InputAt 0
  let args1 := kernel.InputAt 1
  let args2 := kernel.InputAt 2
  let args0 := if kernel_backend = Backend.GPU then { args0 with backend := Backend.GPU }
    else args0
  let args1 := if kernel_backend = Backend.GPU then { args1 with backend := Backend.GPU }
    else args1
  let args2 := if kernel_backend = Backend.GPU then { args2 with backend := Backend.GPU }
    else args2
  let input_input ← PrepareData env input args0
  let input_filter ← PrepareData env filter args1
  let input_out_grad ← PrepareData env out_grad args2
  let (kernel_out_0, api_output_0_0) ← SetKernelOutput kernel_backend Tensor.empty
  let (kernel_out_1, api_output_1_0) ← SetKernelOutput kernel_backend Tensor.empty
  let meta_out_0 := kernel_out_0
  let meta_out_1 := kernel_out_1
  let input_input_ref ← addrOf input_input
  let input_filter_ref ← addrOf input_filter
  InferMeta env "GeneralBinaryGradInferMeta"
    [.view input_input_ref, .view input_filter_ref] []
    [.ptr (some meta_out_0), .ptr (some meta_out_1)]
  let input_out_grad_ref ← addrOf input_out_grad
  kernel_fn env kernel dev_ctx
    [.tensor input_input_ref, .tensor input_filter_ref, .tensor input_out_grad_ref]
    [.ints strides, .ints paddings, .str paddding_algorithm, .int groups, .ints dilations,
      .str data_format, .bool use_addto, .int workspace_size_MB, .bool exhaustive_search]
    [.ptr (some kernel_out_0), .ptr (some kernel_out_1)]
  return [[api_output_0_0], [api_output_1_0]]

/-- `copy_to_impl` (lines 245-276). -/
def copy_to_impl (env : Env) (x : Tensor) (place : Place) (blocking : Bool) :
    Dispatch Tensor := do
  let kernel_key_set ← ParseKernelKeyByInputArgs env [.tensor x]
  let kernel_key_set := { kernel_key_set with
    backend_set :=
      kernel_key_set.backend_set.or (BackendSet.ofBackend (env.TransToPhiBackend place)) }
  let kernel_key ← GetHighestPriorityKernelKey env kernel_key_set
  let kernel ← SelectKernelOrThrowError env "copy" kernel_key false
  let dev_ctx ← GetDeviceContextByBackend env kernel_key.backend
  let dense_x ← TensorToDenseTensor x
  let out := Tensor.empty
  let (kernel_out, out) ← SetKernelOutput kernel_key.backend out
  let meta_out := kernel_out
  let dense_x_ref ← addrOf dense_x
  UnchangedInferMeta dense_x_ref meta_out
  kernel_fn env kernel dev_ctx [.tensor dense_x_ref] [.place place, .bool blocking]
    [.ptr (some kernel_out)]
  return out

/-- `split_impl` (lines 278-333). -/
def split_impl (env : Env) (x : Tensor) (num_or_sections : IntArray) (axis : Scalar) :
    Dispatch (List Tensor) := do
  let kernel_key_set ← ParseKernelKeyByInputArgs env [.tensor x]
  let kernel_key ← GetHighestPriorityKernelKey env kernel_key_set
  let kernel_backend := kernel_key.backend
  let kernel_layout := kernel_key.layout
  let kernel_data_type := kernel_key.dtype
  let kernel ← SelectKernelOrThrowError env "split"
    { backend := kernel_backend, layout := kernel_layout, dtype := kernel_data_type } false
  let dev_ctx ← GetDeviceContextByBackend env kernel_backend
  let dense_x ← PrepareData env x (kernel.InputAt 0)
  let out_number : Nat :=
    if num_or_sections.GetData.length = 1 then to_size_t (num_or_sections.GetData.headD 0)
    else num_or_sections.GetData.length
  let (dense_outs, out) ← SetKernelOutputVector out_number kernel_backend
  let meta_out_ptrs := viewsOf out_number dense_outs
  let dense_x_ref ← addrOf dense_x
  InferMeta env "SplitInferMeta" [.view dense_x_ref]
    [.intArray num_or_sections, .scalar axis] [.ptrs meta_out_ptrs]
  kernel_fn env kernel dev_ctx [.tensor dense_x_ref]
    [.intArray num_or_sections, .scalar axis] [.ptrs dense_outs]
  return out

/-- `momentum_impl` (lines 335-476).  The three `float` attributes are carried as bit
patterns. -/
def momentum_impl (env : Env) (param grad velocity learning_rate : Tensor)
    (master_param : Option Tensor) (mu : Nat) (use_nesterov : Bool)
    (regularization_method : String) (regularization_coeff : Nat)
    (multi_precision : Bool) (rescale_grad : Nat) :
    Dispatch (Tensor × Tensor × Tensor) := do
  let kernel_backend := Backend.UNDEFINED
  let kernel_layout := DataLayout.UNDEFINED
  let kernel_data_type := DataType.UNDEFINED
  let (kernel_backend, kernel_layout, kernel_data_type) ←
    if kernel_backend = Backend.UNDEFINED ∨ kernel_layout = DataLayout.UNDEFINED ∨
        kernel_data_type = DataType.UNDEFINED then do
      let kernel_key_set ← ParseKernelKeyByInputArgs env [.tensor param]
      let kernel_key ← GetHighestPriorityKernelKey env kernel_key_set
      pure
        (if kernel_backend = Backend.UNDEFINED then kernel_key.backend else kernel_backend,
         if kernel_layout = DataLayout.UNDEFINED then kernel_key.layout else kernel_layout,
         if kernel_data_type = DataType.UNDEFINED then kernel_key.dtype
         else kernel_data_type)
    else pure (kernel_backend, kernel_layout, kernel_data_type)
  let grad_impl ← deref grad.impl
  let kernel_name :=
    if grad_impl.selected_rows then "momentum_dense_param_sparse_grad" else "momentum"
  let kernel ← SelectKernelOrThrowError env kernel_name
    { backend := kernel_backend, layout := kernel_layout, dtype := kernel_data_type } false
  let dev_ctx ← GetDeviceContextByBackend env kernel_backend
  let input_param ← PrepareData env param (kernel.InputAt 0)
  let input_grad ← PrepareData env grad (kernel.InputAt 1)
  let input_velocity ← PrepareData env velocity (kernel.InputAt 2)
  let input_learning_rate ← PrepareData env learning_rate (kernel.InputAt 3)
  let input_master_param_ptr ← PrepareDataOptional env master_param (kernel.InputAt 4)
  let api_output : Tensor × Tensor × Tensor := (Tensor.empty, Tensor.empty, Tensor.empty)
  let kernel_out_0 := input_param
  let kernel_out_1 := input_velocity
  let input_master_param : Option Addr :=
    if input_master_param_ptr.isSome then input_master_param_ptr else none
  let kernel_out_2 : Option Addr :=
    if input_master_param_ptr.isSome then input_master_param_ptr else none
  let input_meta_ref_master_param : MetaArg ←
    if input_master_param_ptr.isSome then do
      let master ← deref input_master_param_ptr
      pure (MetaArg.loc
        { dims := master.meta.dims, dtype := master.meta.dtype,
          layout := master.meta.layout })
    else pure MetaArg.none
  let meta_out_0 := kernel_out_0
  let meta_out_1 := kernel_out_1
  let input_param_ref ← addrOf input_param
  let input_grad_ref ← addrOf input_grad
  let input_velocity_ref ← addrOf input_velocity
  let input_learning_rate_ref ← addrOf input_learning_rate
  if kernel_out_2.isSome then
    let meta_out_2 := kernel_out_2
    InferMeta env "MomentumInferMeta"
      [.view input_param_ref, .view input_grad_ref, .view input_velocity_ref,
        .view input_learning_rate_ref, input_meta_ref_master_param]
      [.float mu, .bool use_nesterov, .str regularization_method,
        .float regularization_coeff, .bool multi_precision, .float rescale_grad]
      [.ptr meta_out_0, .ptr meta_out_1, .ptr meta_out_2]
  else
    InferMeta env "MomentumInferMeta"
      [.view input_param_ref, .view input_grad_ref, .view input_velocity_ref,
        .view input_learning_rate_ref, input_meta_ref_master_param]
      [.float mu, .bool use_nesterov, .str regularization_method,
        .float regularization_coeff, .bool multi_precision, .float rescale_grad]
      [.ptr meta_out_0, .ptr meta_out_1, .ptr none]
  kernel_fn env kernel dev_ctx
    [.tensor input_param_ref, .tensor input_grad_ref, .tensor input_velocity_ref,
      .tensor input_learning_rate_ref, .optional input_master_param]
    [.float mu, .bool use_nesterov, .str regularization_method,
      .float regularization_coeff, .bool multi_precision, .float rescale_grad]
    [.ptr kernel_out_0, .ptr kernel_out_1, .ptr kernel_out_2]
  return api_output

/-- The loop of `add_n_grad_impl` (lines 516-521): for every output pointer, the
"unchanged" inference from the prepared `out_grad`, then the `scale` kernel with
`Scalar(1.0)`, `0.0` and `true`. -/
def add_n_grad_loop (env : Env) (kernel : Kernel) (dev_ctx : Nat)
    (dense_out_grad : Option Addr) : List Addr → Dispatch Unit
  | [] => pure ()
  | dense_x_grad_t :: rest => do
    let meta_out := dense_x_grad_t
    let dense_out_grad_ref ← addrOf dense_out_grad
    UnchangedInferMeta dense_out_grad_ref meta_out
    kernel_fn env kernel dev_ctx [.tensor dense_out_grad_ref]
      [.scalar (.double 4607182418800017408), .float 0, .bool true]
      [.ptr (some dense_x_grad_t)]
    add_n_grad_loop env kernel dev_ctx dense_out_grad rest

/-- `add_n_grad_impl` (lines 485-524). -/
def add_n_grad_impl (env : Env) (x : List Tensor) (out_grad : Tensor) :
    Dispatch (List Tensor) := do
  let kernel_key_set ← ParseKernelKeyByInputArgs env [.tensor out_grad]
  let kernel_key ← GetHighestPriorityKernelKey env kernel_key_set
  let kernel_backend := kernel_key.backend
  let kernel_layout := kernel_key.layout
  let kernel_data_type := kernel_key.dtype
  let kernel ← SelectKernelOrThrowError env "scale"
    { backend := kernel_backend, layout := kernel_layout, dtype := kernel_data_type } false
  let dev_ctx ← GetDeviceContextByBackend env kernel_backend
  let dense_out_grad ← PrepareData env out_grad (kernel.InputAt 0)
  let out_number := x.length
  let (dense_x_grad, x_grad) ← SetKernelOutputVector out_number kernel_backend
  add_n_grad_loop env kernel dev_ctx dense_out_grad dense_x_grad
  return x_grad

/-- `batch_norm_impl` (lines 526-653).  The dead initial store to `kernel_data_type`
(line 541) is overwritten by `ParseDataType(x)` (line 543); the two `float`
attributes are carried as bit patterns. -/
def batch_norm_impl (env : Env) (x scale bias mean variance : Tensor) (momentum : Nat)
    (epsilon : Nat) (data_layout : String) (is_test : Bool) (use_global_stats : Bool)
    (trainable_statistics : Bool) (fuse_with_relu : Bool) :
    Dispatch (Tensor × Tensor × Tensor × Tensor × Tensor × Tensor) := do
  let kernel_backend := Backend.UNDEFINED
  let kernel_layout := DataLayout.UNDEFINED
  let kernel_data_type ← ParseDataType env x
  let (kernel_backend, kernel_layout, kernel_data_type) ←
    if kernel_backend = Backend.UNDEFINED ∨ kernel_layout = DataLayout.UNDEFINED ∨
        kernel_data_type = DataType.UNDEFINED then do
      let kernel_key_set ← ParseKernelKeyByInputArgs env [.tensor x]
      let kernel_key ← GetHighestPriorityKernelKey env kernel_key_set
      pure
        (if kernel_backend = Backend.UNDEFINED then kernel_key.backend else kernel_backend,
         if kernel_layout = DataLayout.UNDEFINED then kernel_key.layout else kernel_layout,
         if kernel_data_type = DataType.UNDEFINED then kernel_key.dtype
         else kernel_data_type)
    else pure (kernel_backend, kernel_layout, kernel_data_type)
  let kernel ← SelectKernelOrThrowError env "batch_norm"
    { backend := kernel_backend, layout := kernel_layout, dtype := kernel_data_type } false
  let dev_ctx ← GetDeviceContextByBackend env kernel_backend
  let input_x ← PrepareData env x (kernel.InputAt 0)
  let input_scale ← PrepareData env scale (kernel.InputAt 1)
  let input_bias ← PrepareData env bias (kernel.InputAt 2)
  let input_mean ← PrepareData env mean (kernel.InputAt 3)
  let input_variance ← PrepareData env variance (kernel.InputAt 4)
  let (kernel_out_0, api_output_0) ← SetKernelOutput kernel_backend Tensor.empty
  let api_output_1 : Tensor := { impl := mean.impl }
  let api_output_2 : Tensor := { impl := variance.impl }
  let (kernel_out_1, api_output_1) ← SetKernelOutput kernel_backend api_output_1
  let (kernel_out_2, api_output_2) ← SetKernelOutput kernel_backend api_output_2
  let (kernel_out_3, api_output_3) ← SetKernelOutput kernel_backend Tensor.empty
  let (kernel_out_4, api_output_4) ← SetKernelOutput kernel_backend Tensor.empty
  let (kernel_out_5, api_output_5) ← SetKernelOutput kernel_backend Tensor.empty
  let meta_out_0 := kernel_out_0
  let meta_out_1 := kernel_out_1
  let meta_out_2 := kernel_out_2
  let meta_out_3 := kernel_out_3
  let meta_out_4 := kernel_out_4
  let meta_out_5 := kernel_out_5
  let input_x_ref ← addrOf input_x
  let input_scale_ref ← addrOf input_scale
  let input_bias_ref ← addrOf input_bias
  let input_mean_ref ← addrOf input_mean
  let input_variance_ref ← addrOf input_variance
  InferMeta env "BatchNormInferMeta"
    [.view input_x_ref, .view input_scale_ref, .view input_bias_ref, .view input_mean_ref,
      .view input_variance_ref]
    [.float momentum, .float epsilon, .str data_layout, .bool is_test,
      .bool use_global_stats, .bool trainable_statistics, .bool fuse_with_relu]
    [.ptr (some meta_out_0), .ptr (some meta_out_1), .ptr (some meta_out_2),
      .ptr (some meta_out_3), .ptr (some meta_out_4), .ptr (some meta_out_5)]
  kernel_fn env kernel dev_ctx
    [.tensor input_x_ref, .tensor input_scale_ref, .tensor input_bias_ref,
      .tensor input_mean_ref, .tensor input_variance_ref]
    [.float momentum, .float epsilon, .str data_layout, .bool is_test,
      .bool use_global_stats, .bool trainable_statistics, .bool fuse_with_relu]
    [.ptr (some kernel_out_0), .ptr (some kernel_out_1), .ptr (some kernel_out_2),
      .ptr (some kernel_out_3), .ptr (some kernel_out_4), .ptr (some kernel_out_5)]
  return (api_output_0, api_output_1, api_output_2, api_output_3, api_output_4,
    api_output_5)

/-- `concat_grad_impl` (lines 655-718). -/
def concat_grad_impl (env : Env) (x : List Tensor) (out_grad : Tensor) (axis : Scalar) :
    Dispatch (List Tensor) := do
  let kernel_key_set ← ParseKernelKeyByInputArgs env [.tensor out_grad]
  let kernel_key ← GetHighestPriorityKernelKey env kernel_key_set
  let kernel_backend := kernel_key.backend
  let kernel_layout := kernel_key.layout
  let kernel_data_type := kernel_key.dtype
  let kernel ← SelectKernelOrThrowError env "concat_grad"
    { backend := kernel_backend, layout := kernel_layout, dtype := kernel_data_type } false
  let dev_ctx ← GetDeviceContextByBackend env kernel_backend
  let dense_x ← PrepareDataVector env x (kernel.InputAt 0)
  let dense_out_grad ← PrepareData env out_grad (kernel.InputAt 1)
  let out_number := x.length
  let (dense_x_grad, x_grad) ← SetKernelOutputVector out_number kernel_backend
  let meta_x_ptrs := dense_x
  let meta_x_grad_ptrs := viewsOf out_number dense_x_grad
  UnchangedMultiInferMeta meta_x_ptrs meta_x_grad_ptrs
  let dense_x_ptr := dense_x
  let dense_out_grad_ref ← addrOf dense_out_grad
  kernel_fn env kernel dev_ctx [.tensors dense_x_ptr, .tensor dense_out_grad_ref]
    [.scalar axis] [.ptrs dense_x_grad]
  return x_grad

/-- `imag_grad_impl` (lines 720-746).  The braced initializer of the key evaluates
`ParseBackend(out_grad)`, `out_grad.layout()` and `out_grad.dtype()` in this order. -/
def imag_grad_impl (env : Env) (out_grad : Tensor) : Dispatch Tensor := do
  let backend ← ParseBackend env out_grad
  let out_grad_impl ← deref out_grad.impl
  let kernel_key : KernelKey :=
    { backend := backend, layout := out_grad_impl.meta.layout,
      dtype := env.ToComplex out_grad_impl.meta.dtype }
  let kernel ← SelectKernelOrThrowError env "imag_grad" kernel_key false
  let dev_ctx ← GetDeviceContextByBackend env kernel_key.backend
  let dense_out_grad ← TensorToDenseTensor out_grad
  let out := Tensor.empty
  let (kernel_out, out) ← SetKernelOutput kernel_key.backend out
  let meta_out := kernel_out
  let dense_out_grad_ref ← addrOf dense_out_grad
  InferMeta env "RealAndImagGradInferMeta" [.view dense_out_grad_ref] []
    [.ptr (some meta_out)]
  kernel_fn env kernel dev_ctx [.tensor dense_out_grad_ref] [] [.ptr (some kernel_out)]
  return out

/-- `real_grad_impl` (lines 748-774). -/
def real_grad_impl (env : Env) (out_grad : Tensor) : Dispatch Tensor := do
  let backend ← ParseBackend env out_grad
  let out_grad_impl ← deref out_grad.impl
  let kernel_key : KernelKey :=
    { backend := backend, layout := out_grad_impl.meta.layout,
      dtype := env.ToComplex out_grad_impl.meta.dtype }
  let kernel ← SelectKernelOrThrowError env "real_grad" kernel_key false
  let dev_ctx ← GetDeviceContextByBackend env kernel_key.backend
  let dense_out_grad ← TensorToDenseTensor out_grad
  let out := Tensor.empty
  let (kernel_out, out) ← SetKernelOutput kernel_key.backend out
  let meta_out := kernel_out
  let dense_out_grad_ref ← addrOf dense_out_grad
  InferMeta env "RealAndImagGradInferMeta" [.view dense_out_grad_ref] []
    [.ptr (some meta_out)]
  kernel_fn env kernel dev_ctx [.tensor dense_out_grad_ref] [] [.ptr (some kernel_out)]
  return out

/-- `stack_grad_impl` (lines 776-819). -/
def stack_grad_impl (env : Env) (x : List Tensor) (out_grad : Tensor) (axis : Int) :
    Dispatch (List Tensor) := do
  let kernel_key_set ← ParseKernelKeyByInputArgs env [.tensor out_grad]
  let kernel_key ← GetHighestPriorityKernelKey env kernel_key_set
  let kernel_backend := kernel_key.backend
  let kernel_layout := kernel_key.layout
  let kernel_data_type := kernel_key.dtype
  let kernel ← SelectKernelOrThrowError env "stack_grad"
    { backend := kernel_backend, layout := kernel_layout, dtype := kernel_data_type } false
  let dev_ctx ← GetDeviceContextByBackend env kernel_backend
  let dense_out_grad ← PrepareData env out_grad (kernel.InputAt 0)
  let out_number := x.length
  let (dense_x_grad, x_grad) ← SetKernelOutputVector out_number kernel_backend
  let meta_x_grad_ptrs := viewsOf out_number dense_x_grad
  let dense_out_grad_ref ← addrOf dense_out_grad
  InferMeta env "StackGradInferMeta" [.view dense_out_grad_ref] [.int axis]
    [.ptrs meta_x_grad_ptrs]
  kernel_fn env kernel dev_ctx [.tensor dense_out_grad_ref] [.int axis]
    [.ptrs dense_x_grad]
  return x_grad

/-- `meshgrid_impl` (lines 821-885). -/
def meshgrid_impl (env : Env) (inputs : List Tensor) : Dispatch (List Tensor) := do
  let kernel_backend := Backend.UNDEFINED
  let kernel_layout := DataLayout.UNDEFINED
  let kernel_data_type := DataType.UNDEFINED
  let (kernel_backend, kernel_layout, kernel_data_type) ←
    if kernel_backend = Backend.UNDEFINED ∨ kernel_layout = DataLayout.UNDEFINED ∨
        kernel_data_type = DataType.UNDEFINED then do
      let kernel_key_set ← ParseKernelKeyByInputArgs env [.tensors inputs]
      let kernel_key ← GetHighestPriorityKernelKey env kernel_key_set
      pure
        (if kernel_backend = Backend.UNDEFINED then kernel_key.backend else kernel_backend,
         if kernel_layout = DataLayout.UNDEFINED then kernel_key.layout else kernel_layout,
         if kernel_data_type = DataType.UNDEFINED then kernel_key.dtype
         else kernel_data_type)
    else pure (kernel_backend, kernel_layout, kernel_data_type)
  let kernel ← SelectKernelOrThrowError env "meshgrid"
    { backend := kernel_backend, layout := kernel_layout, dtype := kernel_data_type } false
  let dev_ctx ← GetDeviceContextByBackend env kernel_backend
  let input_inputs_vec ← PrepareDataVector env inputs (kernel.InputAt 0)
  let input_inputs := input_inputs_vec
  let inputs_metas := input_inputs
  let out_number := inputs.length
  let (dense_outs, out) ← SetKernelOutputVector out_number kernel_backend
  let meta_out_ptrs := viewsOf out_number dense_outs
  InferMeta env "MeshgridInferMeta" [.views inputs_metas] [] [.ptrs meta_out_ptrs]
  kernel_fn env kernel dev_ctx [.tensors input_inputs] [] [.ptrs dense_outs]
  return out

/-- `meshgrid_grad_impl` (lines 887-967). -/
def meshgrid_grad_impl (env : Env) (inputs outputs_grad : List Tensor) :
    Dispatch (List Tensor) := do
  let kernel_backend := Backend.UNDEFINED
  let kernel_layout := DataLayout.UNDEFINED
  let kernel_data_type := DataType.UNDEFINED
  let (kernel_backend, kernel_layout, kernel_data_type) ←
    if kernel_backend = Backend.UNDEFINED ∨ kernel_layout = DataLayout.UNDEFINED ∨
        kernel_data_type = DataType.UNDEFINED then do
      let kernel_key_set ← ParseKernelKeyByInputArgs env [.tensors inputs, .tensors outputs_grad]
      let kernel_key ← GetHighestPriorityKernelKey env kernel_key_set
      pure
        (if kernel_backend = Backend.UNDEFINED then kernel_key.backend else kernel_backend,
         if kernel_layout = DataLayout.UNDEFINED then kernel_key.layout else kernel_layout,
         if kernel_data_type = DataType.UNDEFINED then kernel_key.dtype
         else kernel_data_type)
    else pure (kernel_backend, kernel_layout, kernel_data_type)
  let kernel ← SelectKernelOrThrowError env "meshgrid_grad"
    { backend := kernel_backend, layout := kernel_layout, dtype := kernel_data_type } false
  let dev_ctx ← GetDeviceContextByBackend env kernel_backend
  let input_inputs_vec ← PrepareDataVector env inputs (kernel.InputAt 0)
  let input_inputs := input_inputs_vec
  let input_outputs_grad_vec ← PrepareDataVector env outputs_grad (kernel.InputAt 1)
  let input_outputs_grad := input_outputs_grad_vec
  let out_number := inputs.length
  let (kernel_out, api_output) ← SetKernelOutputVector out_number kernel_backend
  let inputs_metas := input_inputs
  let outputs_grad_metas := input_outputs_grad
  let meta_out_ptrs := viewsOf out_number kernel_out
  InferMeta env "MeshgridGradInferMeta" [.views inputs_metas, .views outputs_grad_metas] []
    [.ptrs meta_out_ptrs]
  kernel_fn env kernel dev_ctx [.tensors input_inputs, .tensors input_outputs_grad] []
    [.ptrs kernel_out]
  return api_output

/-! ## Running an entry point -/

/-- Run a dispatch computation on an object store, from the empty trace. -/
def run {α : Type} (m : Dispatch α) (h : Heap) : Except Err α × World :=
  m { heap := h, trace := [] }

/-- A call of one of the thirteen entry points, with its arguments. -/
inductive Call where
  | conv2d (input filter : Tensor) (strides paddings : List Int)
      (paddding_algorithm : String) (groups : Int) (dilations : List Int)
      (data_format : String) (use_addto : Bool) (workspace_size_MB : Int)
      (exhaustive_search : Bool)
  | conv2d_grad (input filter out_grad : Tensor) (strides paddings : List Int)
      (paddding_algorithm : String) (groups : Int) (dilations : List Int)
      (data_format : String) (use_addto : Bool) (workspace_size_MB : Int)
      (exhaustive_search : Bool)
  | copy_to (x : Tensor) (place : Place) (blocking : Bool)
  | split (x : Tensor) (num_or_sections : IntArray) (axis : Scalar)
  | momentum (param grad velocity learning_rate : Tensor) (master_param : Option Tensor)
      (mu : Nat) (use_nesterov : Bool) (regularization_method : String)
      (regularization_coeff : Nat) (multi_precision : Bool) (rescale_grad : Nat)
  | add_n_grad (x : List Tensor) (out_grad : Tensor)
  | batch_norm (x scale bias mean variance : Tensor) (momentum : Nat) (epsilon : Nat)
      (data_layout : String) (is_test : Bool) (use_global_stats : Bool)
      (trainable_statistics : Bool) (fuse_with_relu : Bool)
  | concat_grad (x : List Tensor) (out_grad : Tensor) (axis : Scalar)
  | imag_grad (out_grad : Tensor)
  | real_grad (out_grad : Tensor)
  | stack_grad (x : List Tensor) (out_grad : Tensor) (axis : Int)
  | meshgrid (inputs : List Tensor)
  | meshgrid_grad (inputs outputs_grad : List Tensor)

/-- Forget the value a computation returns, keeping how it ended. -/
def Dispatch.discard {α : Type} (m : Dispatch α) : Dispatch Unit :=
  m >>= fun _ => pure ()

/-- The entry point a call stands for, run for its effects. -/
def Call.exec (env : Env) : Call → Dispatch Unit
  | .conv2d input filter strides paddings paddding_algorithm groups dilations data_format
      use_addto workspace_size_MB exhaustive_search =>
    (conv2d_impl env input filter strides paddings paddding_algorithm groups dilations
      data_format use_addto workspace_size_MB exhaustive_search).discard
  | .conv2d_grad input filter out_grad strides paddings paddding_algorithm groups dilations
      data_format use_addto workspace_size_MB exhaustive_search =>
    (conv2d_grad_impl env input filter out_grad strides paddings paddding_algorithm groups
      dilations data_format use_addto workspace_size_MB exhaustive_search).discard
  | .copy_to x place blocking => (copy_to_impl env x place blocking).discard
  | .split x num_or_sections axis => (split_impl env x num_or_sections axis).discard
  | .momentum param grad velocity learning_rate master_param mu use_nesterov
      regularization_method regularization_coeff multi_precision rescale_grad =>
    (momentum_impl env param grad velocity learning_rate master_param mu use_nesterov
      regularization_method regularization_coeff multi_precision rescale_grad).discard
  | .add_n_grad x out_grad => (add_n_grad_impl env x out_grad).discard
  | .batch_norm x scale bias mean variance momentum_ epsilon data_layout is_test
      use_global_stats trainable_statistics fuse_with_relu =>
    (batch_norm_impl env x scale bias mean variance momentum_ epsilon data_layout is_test
      use_global_stats trainable_statistics fuse_with_relu).discard
  | .concat_grad x out_grad axis => (concat_grad_impl env x out_grad axis).discard
  | .imag_grad out_grad => (imag_grad_impl env out_grad).discard
  | .real_grad out_grad => (real_grad_impl env out_grad).discard
  | .stack_grad x out_grad axis => (stack_grad_impl env x out_grad axis).discard
  | .meshgrid inputs => (meshgrid_impl env inputs).discard
  | .meshgrid_grad inputs outputs_grad =>
    (meshgrid_grad_impl env inputs outputs_grad).discard

/-- The calls an entry point makes to its collaborators, in order. -/
def Call.trace (env : Env) (h : Heap) (c : Call) : List Event :=
  (run (c.exec env) h).2.trace

/-- How a call ends: normally, or with a raised error. -/
def Call.result (env : Env) (h : Heap) (c : Call) : Except Err Unit :=
  (run (c.exec env) h).1

/-! ## A concrete environment

The theorems below hold for every environment.  Concrete instances are evaluated in
the following one. -/

/-- The object a tensor handle refers to, if it has one. -/
def Heap.obj? (h : Heap) (t : Tensor) : Option TensorImpl :=
  match t.impl with
  | none => none
  | some a => h[a]?

/-- The tensors of a list of key arguments, in order. -/
def keyArgTensors : List KeyArg → List Tensor
  | [] => []
  | .tensor t :: rest => t :: keyArgTensors rest
  | .tensors ts :: rest => ts ++ keyArgTensors rest

/-- Modelled from the spec: key parsing (section 4.1, steps 1 and 3): starting from the
empty backend set, union in each input's backend; the layout and the data type are
those of the first input that carries a defined one. -/
def testParseKeySet (h : Heap) : List Tensor → KernelKeySet
  | [] => { backend_set := { bitset := 0 }, layout := .UNDEFINED, dtype := .UNDEFINED }
  | t :: ts =>
    match h.obj? t with
    | none => testParseKeySet h ts
    | some obj =>
      { backend_set := (BackendSet.ofBackend obj.backend).or (testParseKeySet h ts).backend_set,
        layout :=
          if obj.meta.layout = .UNDEFINED then (testParseKeySet h ts).layout
          else obj.meta.layout,
        dtype :=
          if obj.meta.dtype = .UNDEFINED then (testParseKeySet h ts).dtype
          else obj.meta.dtype }

/-- The position of the highest set bit of a bitset among the lowest `n` bits. -/
def highestBit (bitset : Nat) : Nat → Option Nat
  | 0 => none
  | n + 1 => if bitset / 2 ^ n % 2 = 1 then some n else highestBit bitset n

/-- Modelled from the spec: the backend of highest priority in a backend set
("accelerator backends outrank CPU"): the one at the highest bit of the 64-bit set,
`UNDEFINED` for the empty set. -/
def BackendSet.highest (s : BackendSet) : Backend :=
  match highestBit s.bitset 64 with
  | none => .UNDEFINED
  | some 0 => .CPU
  | some 1 => .GPU
  | some (n + 2) => .other n

/-- The metadata the first input of a meta-inference call carries. -/
def firstMeta (h : Heap) : List MetaArg → Option DenseTensorMeta
  | .view a :: _ => (h[a]?).map (fun obj => obj.meta)
  | .views (a :: _) :: _ => (h[a]?).map (fun obj => obj.meta)
  | .loc m :: _ => some m
  | _ => none

/-- Modelled from the spec: a concrete environment.  Key parsing and priority follow
section 4.1; the registry holds a kernel for every operation name at every key without
an undefined field and raises `KernelNotFoundError` otherwise (4.2); the Data Preparer
returns the same tensor when it already lives on the required backend and a transferred
copy otherwise (4.3); the complex counterpart of a real type is `COMPLEX64` resp.
`COMPLEX128`; meta inference is a stand-in that gives every output the metadata of the
first input; kernels succeed. -/
def testEnv : Env where
  ParseDataType h t :=
    match h.obj? t with
    | none => .UNDEFINED
    | some obj => obj.meta.dtype
  ParseBackend h t :=
    match h.obj? t with
    | none => .UNDEFINED
    | some obj => obj.backend
  ParseKernelKeyByInputArgs h args := testParseKeySet h (keyArgTensors args)
  GetHighestPriorityKernelKey s :=
    { backend := s.backend_set.highest, layout := s.layout, dtype := s.dtype }
  TransToPhiBackend p :=
    match p with
    | .UNDEFINED => .UNDEFINED
    | .CPU => .CPU
    | .GPU _ => .GPU
    | .other kind _ => .other kind
  ToComplex t :=
    match t with
    | .FLOAT32 => .COMPLEX64
    | .FLOAT64 => .COMPLEX128
    | t => t
  SelectKernelOrThrowError name key _ :=
    if key.backend = .UNDEFINED ∨ key.layout = .UNDEFINED ∨ key.dtype = .UNDEFINED then
      .error .KernelNotFoundError
    else
      .ok { fn := name.length,
            InputAt := fun _ =>
              { backend := key.backend, layout := key.layout, dtype := key.dtype } }
  GetDeviceContextByBackend b :=
    match b.bit with
    | none => 0
    | some i => i + 1
  PrepareData h t target :=
    match h.obj? t with
    | none => .ok .null
    | some obj =>
      if obj.backend = target.backend then .ok .same
      else .ok (.fresh { obj with backend := target.backend })
  InferMeta _ h inputs _ outputs :=
    match firstMeta h inputs with
    | none => .error .ShapeInferenceError
    | some m => .ok ((outAddrs outputs).map (fun _ => m))
  KernelFn _ _ _ _ _ _ := .ok ()

/-- A dense tensor object on a backend with the given shape, `FLOAT32`, `NCHW`. -/
def denseF32 (backend : Backend) (dims : List Int) : TensorImpl :=
  { selected_rows := false, backend := backend,
    meta := { dims := dims, dtype := .FLOAT32, layout := .NCHW } }

/-- The handle of the tensor stored at an address. -/
def tensorAt (a : Addr) : Tensor := { impl := some a }

/-! ## Observations on a trace -/

/-- The step of the dispatch sequence a collaborator call belongs to:
0 key resolution, 1 registry lookup, 2 execution-context fetch, 3 input preparation,
4 output binding, 5 meta inference, 6 kernel invocation. -/
def Event.step : Event → Nat
  | .ParseDataType _ _ => 0
  | .ParseBackend _ _ => 0
  | .ParseKernelKeyByInputArgs _ _ => 0
  | .GetHighestPriorityKernelKey _ _ => 0
  | .SelectKernelOrThrowError _ _ _ _ => 1
  | .GetDeviceContextByBackend _ _ => 2
  | .PrepareData _ _ _ => 3
  | .PrepareDataOptional _ _ _ => 3
  | .PrepareDataVector _ _ _ => 3
  | .TensorToDenseTensor _ _ => 3
  | .SetKernelOutput _ _ => 4
  | .SetKernelOutputVector _ _ _ => 4
  | .InferMeta _ _ _ _ _ _ => 5
  | .KernelFn _ _ _ _ _ _ => 6

/-- The position of a collaborator call in the sequence as specification section 4.6
lists it: 0 resolve the key, 1 look up the kernel, 2 prepare the inputs, 3 run meta
inference into the bound outputs (binding and inference), 4 fetch the execution
context, 5 invoke the kernel. -/
def Event.specStep : Event → Nat
  | .ParseDataType _ _ => 0
  | .ParseBackend _ _ => 0
  | .ParseKernelKeyByInputArgs _ _ => 0
  | .GetHighestPriorityKernelKey _ _ => 0
  | .SelectKernelOrThrowError _ _ _ _ => 1
  | .PrepareData _ _ _ => 2
  | .PrepareDataOptional _ _ _ => 2
  | .PrepareDataVector _ _ _ => 2
  | .TensorToDenseTensor _ _ => 2
  | .SetKernelOutput _ _ => 3
  | .SetKernelOutputVector _ _ _ => 3
  | .InferMeta _ _ _ _ _ _ => 3
  | .GetDeviceContextByBackend _ _ => 4
  | .KernelFn _ _ _ _ _ _ => 5

/-- The operation name and key of a registry lookup. -/
def Event.lookup? : Event → Option (String × KernelKey)
  | .SelectKernelOrThrowError name key _ _ => some (name, key)
  | _ => none

/-- The registry lookups of a trace: operation name and key, in order. -/
def lookups (tr : List Event) : List (String × KernelKey) :=
  tr.filterMap Event.lookup?

/-- The arguments of a `ParseKernelKeyByInputArgs` call. -/
def Event.parsed? : Event → Option (List KeyArg)
  | .ParseKernelKeyByInputArgs args _ => some args
  | _ => none

/-- The argument lists handed to `ParseKernelKeyByInputArgs` in a trace, in order. -/
def parsedArgs (tr : List Event) : List (List KeyArg) :=
  tr.filterMap Event.parsed?

/-- The key set a `GetHighestPriorityKernelKey` call selects from. -/
def Event.keySet? : Event → Option KernelKeySet
  | .GetHighestPriorityKernelKey s _ => some s
  | _ => none

/-- The key sets from which a key is selected in a trace, in order. -/
def keySetsUsed (tr : List Event) : List KernelKeySet :=
  tr.filterMap Event.keySet?

/-- A kernel key without an undefined field. -/
def KernelKey.defined (k : KernelKey) : Prop :=
  k.backend ≠ .UNDEFINED ∧ k.layout ≠ .UNDEFINED ∧ k.dtype ≠ .UNDEFINED

/-- The tensors handed to `ParseKernelKeyByInputArgs` in a trace. -/
def parsedTensors : List Event → List Tensor
  | [] => []
  | .ParseKernelKeyByInputArgs args _ :: es => keyArgTensors args ++ parsedTensors es
  | _ :: es => parsedTensors es

/-- Step `b` directly after step `a` respects the order of the dispatch sequence:
`b` is the same or a later step, or it is the meta inference (5) that opens the next
round of a per-output loop after a kernel invocation (6); and a kernel invocation comes
directly after a meta inference. -/
def mayFollow (a b : Nat) : Prop :=
  (a ≤ b ∨ (a = 6 ∧ b = 5)) ∧ (b = 6 → a = 5)

instance : DecidableRel mayFollow :=
  fun a b => inferInstanceAs (Decidable ((a ≤ b ∨ (a = 6 ∧ b = 5)) ∧ (b = 6 → a = 5)))

/-- A checker for `List.Chain' mayFollow`. -/
def followCheck : List Nat → Bool
  | a :: b :: rest => decide (mayFollow a b) && followCheck (b :: rest)
  | _ => true

/-- The steps of a trace, in order. -/
def steps (tr : List Event) : List Nat :=
  tr.map Event.step

/-- Every input tensor of a call: each tensor argument, each element of each
tensor-list argument, and the optional tensor when present. -/
def Call.tensorArgs : Call → List Tensor
  | .conv2d input filter _ _ _ _ _ _ _ _ _ => [input, filter]
  | .conv2d_grad input filter out_grad _ _ _ _ _ _ _ _ _ => [input, filter, out_grad]
  | .copy_to x _ _ => [x]
  | .split x _ _ => [x]
  | .momentum param grad velocity learning_rate master_param _ _ _ _ _ _ =>
    [param, grad, velocity, learning_rate] ++ master_param.toList
  | .add_n_grad x out_grad => x ++ [out_grad]
  | .batch_norm x scale bias mean variance _ _ _ _ _ _ _ => [x, scale, bias, mean, variance]
  | .concat_grad x out_grad _ => x ++ [out_grad]
  | .imag_grad out_grad => [out_grad]
  | .real_grad out_grad => [out_grad]
  | .stack_grad x out_grad _ => x ++ [out_grad]
  | .meshgrid inputs => inputs
  | .meshgrid_grad inputs outputs_grad => inputs ++ outputs_grad

/-- The inputs each entry point designates for key parsing: the argument list of its
`ParseKernelKeyByInputArgs` call (none for `imag_grad_impl` and `real_grad_impl`,
which build the key from `ParseBackend(out_grad)` and the tensor's own fields). -/
def Call.keyInputs : Call → List (List KeyArg)
  | .conv2d input filter _ _ _ _ _ _ _ _ _ => [[.tensor input, .tensor filter]]
  | .conv2d_grad input filter out_grad _ _ _ _ _ _ _ _ _ =>
    [[.tensor input, .tensor filter, .tensor out_grad]]
  | .copy_to x _ _ => [[.tensor x]]
  | .split x _ _ => [[.tensor x]]
  | .momentum param _ _ _ _ _ _ _ _ _ _ => [[.tensor param]]
  | .add_n_grad _ out_grad => [[.tensor out_grad]]
  | .batch_norm x _ _ _ _ _ _ _ _ _ _ _ => [[.tensor x]]
  | .concat_grad _ out_grad _ => [[.tensor out_grad]]
  | .imag_grad _ => []
  | .real_grad _ => []
  | .stack_grad _ out_grad _ => [[.tensor out_grad]]
  | .meshgrid inputs => [[.tensors inputs]]
  | .meshgrid_grad inputs outputs_grad => [[.tensors inputs, .tensors outputs_grad]]

/-- Whether a call is a call of `add_n_grad_impl`, the one entry point with a
per-output loop. -/
def Call.isAddNGrad : Call → Bool
  | .add_n_grad _ _ => true
  | _ => false

/-- The number of output tensors an output-binding call binds. -/
def Event.boundCount? : Event → Option Nat
  | .SetKernelOutput _ _ => some 1
  | .SetKernelOutputVector _ _ r => some r.length
  | _ => none

/-- The number of output views a meta-inference call is given. -/
def Event.inferCount? : Event → Option Nat
  | .InferMeta _ _ _ _ outputs _ => some (outAddrs outputs).length
  | _ => none

/-- The number of output pointers a kernel invocation is given. -/
def Event.kernelCount? : Event → Option Nat
  | .KernelFn _ _ _ _ outputs _ => some (outAddrs outputs).length
  | _ => none

/-- The numbers of outputs bound by the output-binding calls of a trace. -/
def boundCounts (tr : List Event) : List Nat :=
  tr.filterMap Event.boundCount?

/-- The numbers of output views given to the meta-inference calls of a trace. -/
def inferCounts (tr : List Event) : List Nat :=
  tr.filterMap Event.inferCount?

/-- The numbers of output pointers given to the kernel invocations of a trace. -/
def kernelCounts (tr : List Event) : List Nat :=
  tr.filterMap Event.kernelCount?

/-- The pointer an optional-input preparation returned. -/
def Event.preparedOptional? : Event → Option (Option Addr)
  | .PrepareDataOptional _ _ (some p) => some p
  | _ => none

/-- The pointers returned by the optional-input preparations of a trace. -/
def preparedOptional (tr : List Event) : List (Option Addr) :=
  tr.filterMap Event.preparedOptional?

/-- The key a `GetHighestPriorityKernelKey` call returned. -/
def Event.resolvedKey? : Event → Option KernelKey
  | .GetHighestPriorityKernelKey _ r => some r
  | _ => none

/-- The highest-priority keys resolved in a trace, in order. -/
def resolvedKeys (tr : List Event) : List KernelKey :=
  tr.filterMap Event.resolvedKey?

/-- The tensor and the result of a `ParseBackend` call. -/
def Event.parsedBackend? : Event → Option (Tensor × Backend)
  | .ParseBackend t r => some (t, r)
  | _ => none

/-- The `ParseBackend` calls of a trace: tensor and backend returned, in order. -/
def parsedBackends (tr : List Event) : List (Tensor × Backend) :=
  tr.filterMap Event.parsedBackend?

/-- The arguments of a registry lookup. -/
def Event.lookupArgs? : Event → Option (String × KernelKey × Bool)
  | .SelectKernelOrThrowError name key use_gpudnn _ => some (name, key, use_gpudnn)
  | _ => none

/-- The registry lookups of a trace with all their arguments, in order. -/
def lookupArgs (tr : List Event) : List (String × KernelKey × Bool) :=
  tr.filterMap Event.lookupArgs?


/-- What a meta-inference call is given at the position of the optional fifth input
and of the third output, with the object store at the time of the call. -/
def Event.inferMaster? : Event → Option (Heap × Option MetaArg × Option OutArg)
  | .InferMeta _ heap inputs _ outputs _ => some (heap, inputs[4]?, outputs[2]?)
  | _ => none

/-- The fifth input and third output of the meta-inference calls of a trace. -/
def inferMasters (tr : List Event) : List (Heap × Option MetaArg × Option OutArg) :=
  tr.filterMap Event.inferMaster?

/-- What a kernel invocation is given at the position of the optional fifth input and
of the third output. -/
def Event.kernelMaster? : Event → Option (Option KArg × Option OutArg)
  | .KernelFn _ _ inputs _ outputs _ => some (inputs[4]?, outputs[2]?)
  | _ => none

/-- The fifth input and third output of the kernel invocations of a trace. -/
def kernelMasters (tr : List Event) : List (Option KArg × Option OutArg) :=
  tr.filterMap Event.kernelMaster?

/-! ## Concrete inputs -/

/-- Object store of the convolution scenario: input `[1,3,8,8]`, filter `[4,3,3,3]`. -/
def convHeap : Heap := [denseF32 .CPU [1, 3, 8, 8], denseF32 .CPU [4, 3, 3, 3]]

/-- The convolution scenario: stride 1, padding 0, dilation 1, one group. -/
def convCall : Call :=
  .conv2d (tensorAt 0) (tensorAt 1) [1, 1] [0, 0] "EXPLICIT" 1 [1, 1] "NCHW" false 512 false

/-- Object store with one CPU tensor of shape `[10]`. -/
def vecHeap : Heap := [denseF32 .CPU [10]]

/-- Object store with one tensor of shape `[10]` whose data type is undefined. -/
def untypedHeap : Heap :=
  [{ selected_rows := false, backend := .CPU,
     meta := { dims := [10], dtype := .UNDEFINED, layout := .NCHW } }]

/-- Object store with one `FLOAT32` tensor of shape `[4]` whose layout is undefined. -/
def noLayoutHeap : Heap :=
  [{ selected_rows := false, backend := .CPU,
     meta := { dims := [4], dtype := .FLOAT32, layout := .UNDEFINED } }]

/-- Object store of the optimizer scenario: parameter, gradient, velocity, learning
rate, and a master parameter of zero size. -/
def momentumHeap : Heap :=
  [denseF32 .CPU [2, 2], denseF32 .CPU [2, 2], denseF32 .CPU [2, 2], denseF32 .CPU [1],
    denseF32 .CPU [0]]

/-- The run of a momentum update with the zero-sized master parameter present. -/
def momentumMasterRun : Except Err (Tensor × Tensor × Tensor) × World :=
  run (momentum_impl testEnv (tensorAt 0) (tensorAt 1) (tensorAt 2) (tensorAt 3)
    (some (tensorAt 4)) 0 false "" 0 true 0) momentumHeap

/-- A momentum update without master parameter. -/
def momentumCall : Call :=
  .momentum (tensorAt 0) (tensorAt 1) (tensorAt 2) (tensorAt 3) none 0 false "" 0 false 0

/-! ## Further observations on a trace -/

/-- The backend a call to the registry, to the device-context pool or to the Output
Binder is made for. -/
def Event.backendUsed? : Event → Option Backend
  | .SelectKernelOrThrowError _ key _ _ => some key.backend
  | .GetDeviceContextByBackend b _ => some b
  | .SetKernelOutput b _ => some b
  | .SetKernelOutputVector _ b _ => some b
  | _ => none

/-- The backends the lookup, the context fetch and the output bindings of a trace are
made for, in order. -/
def backendsUsed (tr : List Event) : List Backend :=
  tr.filterMap Event.backendUsed?

/-- The output views a meta-inference call is given. -/
def Event.inferOutputs? : Event → Option (List OutArg)
  | .InferMeta _ _ _ _ outputs _ => some outputs
  | _ => none

/-- The output views given to the meta-inference calls of a trace, call by call. -/
def inferOutputs (tr : List Event) : List (List OutArg) :=
  tr.filterMap Event.inferOutputs?

/-- The output pointers a kernel invocation is given. -/
def Event.kernelOutputs? : Event → Option (List OutArg)
  | .KernelFn _ _ _ _ outputs _ => some outputs
  | _ => none

/-- The output pointers given to the kernel invocations of a trace, call by call. -/
def kernelOutputs (tr : List Event) : List (List OutArg) :=
  tr.filterMap Event.kernelOutputs?

/-- The input arguments a kernel invocation is given. -/
def Event.kernelInputs? : Event → Option (List KArg)
  | .KernelFn _ _ inputs _ _ _ => some inputs
  | _ => none

/-- The input arguments given to the kernel invocations of a trace, call by call. -/
def kernelInputs (tr : List Event) : List (List KArg) :=
  tr.filterMap Event.kernelInputs?

/-- The tensor a single-tensor preparation is made for and the descriptor it is made
against. -/
def Event.prepareCall? : Event → Option (Tensor × TensorArgDef)
  | .PrepareData input target _ => some (input, target)
  | _ => none

/-- The single-tensor preparations of a trace: tensor and descriptor, in order. -/
def prepareCalls (tr : List Event) : List (Tensor × TensorArgDef) :=
  tr.filterMap Event.prepareCall?

/-- Whether a call is a call of `conv2d_impl` or `conv2d_grad_impl`, the two entry
points that override the backend of the registered descriptors. -/
def Call.isConv2d : Call → Bool
  | .conv2d _ _ _ _ _ _ _ _ _ _ _ => true
  | .conv2d_grad _ _ _ _ _ _ _ _ _ _ _ _ => true
  | _ => false

/-- What a successful preparation hands on as a kernel input: a dense tensor, an
optional dense tensor or a vector of dense tensors.  A preparation that raised, or
that returned a null pointer for a required tensor, hands on nothing. -/
def Event.preparedArg? : Event → Option KArg
  | .PrepareData _ _ (some (some a)) => some (.tensor a)
  | .PrepareDataOptional _ _ (some p) => some (.optional p)
  | .PrepareDataVector _ _ (some as) => some (.tensors as)
  | _ => none

/-- The prepared inputs of a trace, in the order of their preparation. -/
def preparedArgs (tr : List Event) : List KArg :=
  tr.filterMap Event.preparedArg?

/-- The descriptor a preparation (of a tensor, an optional tensor or a vector) is made
against. -/
def Event.prepareTarget? : Event → Option TensorArgDef
  | .PrepareData _ target _ => some target
  | .PrepareDataOptional _ target _ => some target
  | .PrepareDataVector _ target _ => some target
  | _ => none

/-- The descriptors the preparations of a trace are made against, in order. -/
def prepareTargets (tr : List Event) : List TensorArgDef :=
  tr.filterMap Event.prepareTarget?

/-- Whether a call is a call of `copy_to_impl`, `imag_grad_impl` or `real_grad_impl`,
the entry points that hand the kernel the input's own dense tensor
(`TensorToDenseTensor`). -/
def Call.usesDenseInput : Call → Bool
  | .copy_to _ _ _ => true
  | .imag_grad _ => true
  | .real_grad _ => true
  | _ => false

/-- Every element of a list stands in the relation `R` to its position, counted from
`i`. -/
def forallFrom {α : Type} (R : Nat → α → Prop) : Nat → List α → Prop
  | _, [] => True
  | i, d :: ds => R i d ∧ forallFrom R (i + 1) ds

/-- The name of the meta-inference function of a call that raised. -/
def Event.failedInfer? : Event → Option String
  | .InferMeta fn _ _ _ _ none => some fn
  | _ => none

/-- The meta-inference calls of a trace that raised, by function name. -/
def failedInfers (tr : List Event) : List String :=
  tr.filterMap Event.failedInfer?

/-- The calls each entry point makes to the Output Binder before meta inference, as
the number of output tensors each call binds (`momentum_impl` makes none: its kernel
writes to the prepared inputs). -/
def Call.outputCounts : Call → List Nat
  | .conv2d _ _ _ _ _ _ _ _ _ _ _ => [1]
  | .conv2d_grad _ _ _ _ _ _ _ _ _ _ _ _ => [1, 1]
  | .copy_to _ _ _ => [1]
  | .split _ num_or_sections _ =>
    [if num_or_sections.GetData.length = 1 then to_size_t (num_or_sections.GetData.headD 0)
      else num_or_sections.GetData.length]
  | .momentum _ _ _ _ _ _ _ _ _ _ _ => []
  | .add_n_grad x _ => [x.length]
  | .batch_norm _ _ _ _ _ _ _ _ _ _ _ _ => [1, 1, 1, 1, 1, 1]
  | .concat_grad x _ _ => [x.length]
  | .imag_grad _ => [1]
  | .real_grad _ => [1]
  | .stack_grad x _ _ => [x.length]
  | .meshgrid inputs => [inputs.length]
  | .meshgrid_grad inputs _ => [inputs.length]

/-- The key an entry point assembles from the highest-priority key of a parsed key set
and a pinned data type (`UNDEFINED` when none is pinned). -/
def pinnedKey (k : KernelKey) (dtype : DataType) : KernelKey :=
  { backend := k.backend, layout := k.layout,
    dtype := if dtype = DataType.UNDEFINED then k.dtype else dtype }

/-- The registry lookup of each entry point, operation name and key, as a function of
what key parsing returns for the inputs (no lookup is made when `momentum_impl` cannot
read `grad`, or `imag_grad_impl` and `real_grad_impl` cannot read `out_grad`). -/
def Call.lookupOf (env : Env) (h : Heap) : Call → List (String × KernelKey)
  | .conv2d input filter _ _ _ _ _ _ _ _ _ =>
    [("conv2d", pinnedKey
      (env.GetHighestPriorityKernelKey
        (env.ParseKernelKeyByInputArgs h [.tensor input, .tensor filter]))
      (env.ParseDataType h input))]
  | .conv2d_grad input filter out_grad _ _ _ _ _ _ _ _ _ =>
    [("conv2d_grad", env.GetHighestPriorityKernelKey
      (env.ParseKernelKeyByInputArgs h [.tensor input, .tensor filter, .tensor out_grad]))]
  | .copy_to x place _ =>
    [("copy", env.GetHighestPriorityKernelKey
      { backend_set := (env.ParseKernelKeyByInputArgs h [.tensor x]).backend_set.or
          (BackendSet.ofBackend (env.TransToPhiBackend place)),
        layout := (env.ParseKernelKeyByInputArgs h [.tensor x]).layout,
        dtype := (env.ParseKernelKeyByInputArgs h [.tensor x]).dtype })]
  | .split x _ _ =>
    [("split", env.GetHighestPriorityKernelKey (env.ParseKernelKeyByInputArgs h [.tensor x]))]
  | .momentum param grad _ _ _ _ _ _ _ _ _ =>
    match h.obj? grad with
    | none => []
    | some g =>
      [(if g.selected_rows = true then "momentum_dense_param_sparse_grad" else "momentum",
        env.GetHighestPriorityKernelKey (env.ParseKernelKeyByInputArgs h [.tensor param]))]
  | .add_n_grad _ out_grad =>
    [("scale", env.GetHighestPriorityKernelKey
      (env.ParseKernelKeyByInputArgs h [.tensor out_grad]))]
  | .batch_norm x _ _ _ _ _ _ _ _ _ _ _ =>
    [("batch_norm", pinnedKey
      (env.GetHighestPriorityKernelKey (env.ParseKernelKeyByInputArgs h [.tensor x]))
      (env.ParseDataType h x))]
  | .concat_grad _ out_grad _ =>
    [("concat_grad", env.GetHighestPriorityKernelKey
      (env.ParseKernelKeyByInputArgs h [.tensor out_grad]))]
  | .imag_grad out_grad =>
    match h.obj? out_grad with
    | none => []
    | some obj =>
      [("imag_grad",
        { backend := env.ParseBackend h out_grad, layout := obj.meta.layout,
          dtype := env.ToComplex obj.meta.dtype })]
  | .real_grad out_grad =>
    match h.obj? out_grad with
    | none => []
    | some obj =>
      [("real_grad",
        { backend := env.ParseBackend h out_grad, layout := obj.meta.layout,
          dtype := env.ToComplex obj.meta.dtype })]
  | .stack_grad _ out_grad _ =>
    [("stack_grad", env.GetHighestPriorityKernelKey
      (env.ParseKernelKeyByInputArgs h [.tensor out_grad]))]
  | .meshgrid inputs =>
    [("meshgrid", env.GetHighestPriorityKernelKey
      (env.ParseKernelKeyByInputArgs h [.tensors inputs]))]
  | .meshgrid_grad inputs outputs_grad =>
    [("meshgrid_grad", env.GetHighestPriorityKernelKey
      (env.ParseKernelKeyByInputArgs h [.tensors inputs, .tensors outputs_grad]))]

/-! ## Further concrete inputs -/

/-- Object store of a convolution on the GPU: input `[1,3,8,8]`, filter `[4,3,3,3]`. -/
def gpuConvHeap : Heap := [denseF32 .GPU [1, 3, 8, 8], denseF32 .GPU [4, 3, 3, 3]]

/-- Modelled from the spec: the concrete environment with a registry whose kernel
variants register host-resident inputs: "distinct kernel variants may require different
argument placements" (section 3, ArgumentDescriptor).  Every descriptor has the backend
`CPU` and the layout and data type of the key. -/
def hostArgEnv : Env :=
  { testEnv with
    SelectKernelOrThrowError := fun name key _ =>
      if key.backend = .UNDEFINED ∨ key.layout = .UNDEFINED ∨ key.dtype = .UNDEFINED then
        .error .KernelNotFoundError
      else
        .ok { fn := name.length,
              InputAt := fun _ =>
                { backend := .CPU, layout := key.layout, dtype := key.dtype } } }

/-- Object store with two CPU tensors of shapes `[2]` and `[3]`. -/
def gridHeap : Heap := [denseF32 .CPU [2], denseF32 .CPU [3]]

/-- Object store of the batch-norm scenario: `x` of shape `[2,3,4,4]` and scale, bias,
running mean and running variance of shape `[3]`. -/
def bnHeap : Heap :=
  [denseF32 .CPU [2, 3, 4, 4], denseF32 .CPU [3], denseF32 .CPU [3], denseF32 .CPU [3],
    denseF32 .CPU [3]]

/-- The run of the batch-norm scenario. -/
def bnRun : Except Err (Tensor × Tensor × Tensor × Tensor × Tensor × Tensor) × World :=
  run (batch_norm_impl testEnv (tensorAt 0) (tensorAt 1) (tensorAt 2) (tensorAt 3)
    (tensorAt 4) 0 0 "NCHW" false false false false) bnHeap

/-- A copy of the tensor of shape `[10]` to the first GPU. -/
def copyCall : Call := .copy_to (tensorAt 0) (.GPU 0) false

/-- A split of the tensor of shape `[10]` into three parts. -/
def splitCall : Call := .split (tensorAt 0) { GetData := [3] } (.int 0)

/-- Modelled from the spec: `SplitInferMeta` for an explicit list of at least two
section sizes (sections 7 and 8): sizes that do not sum to the extent of the split
dimension are a `ShapeInferenceError`; otherwise output `i` has the extent `s_i` along
that dimension and the other dimensions, the data type and the layout of the input.
The axis counts from the front.  `none` for any other argument list. -/
def splitSectionsMeta (h : Heap) (inputs : List MetaArg) (attrs : List Attr) :
    Option (Except Err (List DenseTensorMeta)) :=
  match inputs, attrs with
  | [.view a], [.intArray sections, .scalar (.int axis)] =>
    if 2 ≤ sections.GetData.length then
      match h[a]? with
      | none => some (.error .ShapeInferenceError)
      | some obj =>
        match obj.meta.dims[axis.toNat]? with
        | none => some (.error .ShapeInferenceError)
        | some d =>
          if sections.GetData.sum = d then
            some (.ok (sections.GetData.map fun s =>
              { obj.meta with dims := obj.meta.dims.set axis.toNat s }))
          else some (.error .ShapeInferenceError)
    else none
  | _, _ => none

/-- Modelled from the spec: the concrete environment with the split rule for explicit
section sizes in place of the stand-in. -/
def splitEnv : Env :=
  { testEnv with
    InferMeta := fun fn h inputs attrs outputs =>
      match (if fn = "SplitInferMeta" then splitSectionsMeta h inputs attrs else none) with
      | some r => r
      | none => testEnv.InferMeta fn h inputs attrs outputs }

/-- A split of a tensor of shape `[10]` into sections `[3, 3]`, which do not sum to
10. -/
def badSplitCall : Call := .split (tensorAt 0) { GetData := [3, 3] } (.int 0)

/-- Object store of the optimizer scenario with a sparse gradient: the gradient is a
`SelectedRows`. -/
def sparseGradHeap : Heap :=
  [denseF32 .CPU [2, 2],
    { selected_rows := true, backend := .CPU,
      meta := { dims := [2, 2], dtype := .FLOAT32, layout := .NCHW } },
    denseF32 .CPU [2, 2], denseF32 .CPU [1]]

/-! ## The plan of a call -/

/-- The key of a registry lookup that returned a kernel. -/
def Event.found? : Event → Option KernelKey
  | .SelectKernelOrThrowError _ key _ (some _) => some key
  | _ => none

/-- The backend a call to the device-context pool fetches the execution context for. -/
def Event.fetch? : Event → Option Backend
  | .GetDeviceContextByBackend b _ => some b
  | _ => none

/-- For every registry lookup of a trace that returned a kernel: the backend of the
looked-up key, and the backend for which the call directly after the lookup fetches the
execution context (`none` when the lookup is the last call of the trace or the call
after it is not a fetch). -/
def fetchedAfter : List Event → List (Backend × Option Backend)
  | [] => []
  | ev :: rest =>
    match ev.found? with
    | some key => (key.backend, rest.head?.bind Event.fetch?) :: fetchedAfter rest
    | none => fetchedAfter rest

/-- The steps of `n` rounds of a meta inference (5) directly followed by a kernel
invocation (6). -/
def inferInvoke : Nat → List Nat
  | 0 => []
  | n + 1 => 5 :: 6 :: inferInvoke n

/-- The number of key-resolution calls of each entry point (`ParseDataType`,
`ParseBackend`, `ParseKernelKeyByInputArgs`, `GetHighestPriorityKernelKey`). -/
def Call.keySteps : Call → Nat
  | .conv2d _ _ _ _ _ _ _ _ _ _ _ => 3
  | .conv2d_grad _ _ _ _ _ _ _ _ _ _ _ _ => 2
  | .copy_to _ _ _ => 2
  | .split _ _ _ => 2
  | .momentum _ _ _ _ _ _ _ _ _ _ _ => 2
  | .add_n_grad _ _ => 2
  | .batch_norm _ _ _ _ _ _ _ _ _ _ _ _ => 3
  | .concat_grad _ _ _ => 2
  | .imag_grad _ => 1
  | .real_grad _ => 1
  | .stack_grad _ _ _ => 2
  | .meshgrid _ => 2
  | .meshgrid_grad _ _ => 2

/-- The number of input-preparation calls of each entry point (`PrepareData` on a
tensor, an optional tensor or a vector, `TensorToDenseTensor`). -/
def Call.prepareSteps : Call → Nat
  | .conv2d _ _ _ _ _ _ _ _ _ _ _ => 2
  | .conv2d_grad _ _ _ _ _ _ _ _ _ _ _ _ => 3
  | .copy_to _ _ _ => 1
  | .split _ _ _ => 1
  | .momentum _ _ _ _ _ _ _ _ _ _ _ => 5
  | .add_n_grad _ _ => 1
  | .batch_norm _ _ _ _ _ _ _ _ _ _ _ _ => 5
  | .concat_grad _ _ _ => 2
  | .imag_grad _ => 1
  | .real_grad _ => 1
  | .stack_grad _ _ _ => 1
  | .meshgrid _ => 1
  | .meshgrid_grad _ _ => 2

/-- The number of rounds of meta inference and kernel invocation of each entry point:
one, except in `add_n_grad_impl`, whose loop makes one round per element of `x`. -/
def Call.rounds : Call → Nat
  | .add_n_grad x _ => x.length
  | _ => 1

/-- The steps of a call that returns, in order: the key-resolution calls (0), the
registry lookup (1), the fetch of the execution context (2), the input preparations
(3), the output bindings (4), and the rounds of meta inference (5) and kernel
invocation (6). -/
def Call.plan (c : Call) : List Nat :=
  List.replicate c.keySteps 0 ++ [1, 2] ++ List.replicate c.prepareSteps 3 ++
    List.replicate c.outputCounts.length 4 ++ inferInvoke c.rounds

/-- Whether a call is a call of `momentum_impl`, the one entry point without a call to
the Output Binder. -/
def Call.isMomentum : Call → Bool
  | .momentum _ _ _ _ _ _ _ _ _ _ _ => true
  | _ => false

/-- The addresses an output-binding call returned. -/
def Event.boundAddrs : Event → List Addr
  | .SetKernelOutput _ r => [r]
  | .SetKernelOutputVector _ _ r => r
  | _ => []

/-- The addresses returned by the output-binding calls of a trace, in order. -/
def boundAddrs : List Event → List Addr
  | [] => []
  | ev :: rest => ev.boundAddrs ++ boundAddrs rest

/-! ## The inputs of a call and their descriptors -/

/-- The attributes of a call: its arguments other than tensors, in order. -/
def Call.attrs : Call → List Attr
  | .conv2d _ _ strides paddings paddding_algorithm groups dilations data_format use_addto
      workspace_size_MB exhaustive_search =>
    [.ints strides, .ints paddings, .str paddding_algorithm, .int groups, .ints dilations,
      .str data_format, .bool use_addto, .int workspace_size_MB, .bool exhaustive_search]
  | .conv2d_grad _ _ _ strides paddings paddding_algorithm groups dilations data_format
      use_addto workspace_size_MB exhaustive_search =>
    [.ints strides, .ints paddings, .str paddding_algorithm, .int groups, .ints dilations,
      .str data_format, .bool use_addto, .int workspace_size_MB, .bool exhaustive_search]
  | .copy_to _ place blocking => [.place place, .bool blocking]
  | .split _ num_or_sections axis => [.intArray num_or_sections, .scalar axis]
  | .momentum _ _ _ _ _ mu use_nesterov regularization_method regularization_coeff
      multi_precision rescale_grad =>
    [.float mu, .bool use_nesterov, .str regularization_method, .float regularization_coeff,
      .bool multi_precision, .float rescale_grad]
  | .add_n_grad _ _ => []
  | .batch_norm _ _ _ _ _ momentum_ epsilon data_layout is_test use_global_stats
      trainable_statistics fuse_with_relu =>
    [.float momentum_, .float epsilon, .str data_layout, .bool is_test,
      .bool use_global_stats, .bool trainable_statistics, .bool fuse_with_relu]
  | .concat_grad _ _ axis => [.scalar axis]
  | .imag_grad _ => []
  | .real_grad _ => []
  | .stack_grad _ _ axis => [.int axis]
  | .meshgrid _ => []
  | .meshgrid_grad _ _ => []

/-- The tensor inputs of a call, parameter by parameter: one tensor for a tensor
parameter, the elements for a vector parameter, and the tensor, if present, for an
optional parameter. -/
def Call.inputs : Call → List (List Tensor)
  | .conv2d input filter _ _ _ _ _ _ _ _ _ => [[input], [filter]]
  | .conv2d_grad input filter out_grad _ _ _ _ _ _ _ _ _ => [[input], [filter], [out_grad]]
  | .copy_to x _ _ => [[x]]
  | .split x _ _ => [[x]]
  | .momentum param grad velocity learning_rate master_param _ _ _ _ _ _ =>
    [[param], [grad], [velocity], [learning_rate], master_param.toList]
  | .add_n_grad x out_grad => [x, [out_grad]]
  | .batch_norm x scale bias mean variance _ _ _ _ _ _ _ =>
    [[x], [scale], [bias], [mean], [variance]]
  | .concat_grad x out_grad _ => [x, [out_grad]]
  | .imag_grad out_grad => [[out_grad]]
  | .real_grad out_grad => [[out_grad]]
  | .stack_grad x out_grad _ => [x, [out_grad]]
  | .meshgrid inputs => [inputs]
  | .meshgrid_grad inputs outputs_grad => [inputs, outputs_grad]

theorem bind_apply {α β : Type} (m : Dispatch α) (f : α → Dispatch β) (w : World) :
    (m >>= f) w = match m w with
      | (.ok a, w1) => f a w1
      | (.error e, w1) => (.error e, w1) := rfl

theorem pure_apply {α : Type} (a : α) (w : World) : (pure a : Dispatch α) w = (.ok a, w) := rfl

theorem pure_bind_apply {α β : Type} (a : α) (f : α → Dispatch β) (w : World) :
    ((pure a : Dispatch α) >>= f) w = f a w := rfl

theorem bind_assoc_apply {α β γ : Type} (m : Dispatch α) (g : α → Dispatch β)
    (f : β → Dispatch γ) (w : World) :
    ((m >>= g) >>= f) w = (m >>= fun a => g a >>= f) w := by
  simp only [bind_apply]
  rcases m w with ⟨r, w1⟩
  cases r <;> rfl

theorem ite_apply_world {α : Type} (c : Prop) [Decidable c] (a b : Dispatch α) (w : World) :
    (if c then a else b) w = if c then a w else b w := by
  split <;> rfl

theorem ParseDataType_bind {β : Type} (env : Env) (t : Tensor) (f : DataType → Dispatch β)
    (w : World) :
    (ParseDataType env t >>= f) w =
      f (env.ParseDataType w.heap t)
        { w with trace := w.trace ++ [.ParseDataType t (env.ParseDataType w.heap t)] } := rfl

theorem ParseBackend_bind {β : Type} (env : Env) (t : Tensor) (f : Backend → Dispatch β)
    (w : World) :
    (ParseBackend env t >>= f) w =
      f (env.ParseBackend w.heap t)
        { w with trace := w.trace ++ [.ParseBackend t (env.ParseBackend w.heap t)] } := rfl

theorem ParseKernelKeyByInputArgs_bind {β : Type} (env : Env) (args : List KeyArg)
    (f : KernelKeySet → Dispatch β) (w : World) :
    (ParseKernelKeyByInputArgs env args >>= f) w =
      f (env.ParseKernelKeyByInputArgs w.heap args)
        { w with trace := w.trace ++
            [.ParseKernelKeyByInputArgs args (env.ParseKernelKeyByInputArgs w.heap args)] } :=
  rfl

theorem GetHighestPriorityKernelKey_bind {β : Type} (env : Env) (s : KernelKeySet)
    (f : KernelKey → Dispatch β) (w : World) :
    (GetHighestPriorityKernelKey env s >>= f) w =
      f (env.GetHighestPriorityKernelKey s)
        { w with trace := w.trace ++
            [.GetHighestPriorityKernelKey s (env.GetHighestPriorityKernelKey s)] } := rfl

theorem SelectKernelOrThrowError_bind {β : Type} (env : Env) (name : String)
    (key : KernelKey) (g : Bool) (f : Kernel → Dispatch β) (w : World) :
    (SelectKernelOrThrowError env name key g >>= f) w =
      match env.SelectKernelOrThrowError name key g with
      | .error e =>
        (.error e, { w with trace := w.trace ++ [.SelectKernelOrThrowError name key g none] })
      | .ok kernel =>
        f kernel
          { w with trace := w.trace ++ [.SelectKernelOrThrowError name key g (some kernel.fn)] } := by
  simp only [bind_apply, SelectKernelOrThrowError]
  cases env.SelectKernelOrThrowError name key g <;> rfl

theorem GetDeviceContextByBackend_bind {β : Type} (env : Env) (b : Backend)
    (f : Nat → Dispatch β) (w : World) :
    (GetDeviceContextByBackend env b >>= f) w =
      f (env.GetDeviceContextByBackend b)
        { w with trace := w.trace ++
            [.GetDeviceContextByBackend b (env.GetDeviceContextByBackend b)] } := rfl

theorem PrepareData_bind {β : Type} (env : Env) (t : Tensor) (target : TensorArgDef)
    (f : Option Addr → Dispatch β) (w : World) :
    (PrepareData env t target >>= f) w =
      match prepareOne env w.heap t target with
      | .error e => (.error e, { w with trace := w.trace ++ [.PrepareData t target none] })
      | .ok (p, h1) =>
        f p { heap := h1, trace := w.trace ++ [.PrepareData t target (some p)] } := by
  simp only [bind_apply, PrepareData]
  cases prepareOne env w.heap t target <;> rfl

theorem PrepareDataOptional_bind {β : Type} (env : Env) (t : Option Tensor)
    (target : TensorArgDef) (f : Option Addr → Dispatch β) (w : World) :
    (PrepareDataOptional env t target >>= f) w =
      match prepareOptional env w.heap t target with
      | .error e =>
        (.error e, { w with trace := w.trace ++ [.PrepareDataOptional t target none] })
      | .ok (p, h1) =>
        f p { heap := h1, trace := w.trace ++ [.PrepareDataOptional t target (some p)] } := by
  simp only [bind_apply, PrepareDataOptional]
  cases prepareOptional env w.heap t target <;> rfl

theorem PrepareDataVector_bind {β : Type} (env : Env) (ts : List Tensor)
    (target : TensorArgDef) (f : List Addr → Dispatch β) (w : World) :
    (PrepareDataVector env ts target >>= f) w =
      match prepareEach env target ts w.heap with
      | .error e =>
        (.error e, { w with trace := w.trace ++ [.PrepareDataVector ts target none] })
      | .ok (as, h1) =>
        f as { heap := h1, trace := w.trace ++ [.PrepareDataVector ts target (some as)] } := by
  simp only [bind_apply, PrepareDataVector]
  cases prepareEach env target ts w.heap <;> rfl

theorem TensorToDenseTensor_bind {β : Type} (t : Tensor) (f : Option Addr → Dispatch β)
    (w : World) :
    (TensorToDenseTensor t >>= f) w =
      f t.impl { w with trace := w.trace ++ [.TensorToDenseTensor t t.impl] } := rfl

theorem SetKernelOutput_bind {β : Type} (b : Backend) (out : Tensor)
    (f : Addr × Tensor → Dispatch β) (w : World) :
    (SetKernelOutput b out >>= f) w =
      match out.impl with
      | some a => f (a, out) { w with trace := w.trace ++ [.SetKernelOutput b a] }
      | none =>
        f (w.heap.length, { impl := some w.heap.length })
          { heap := w.heap ++ [TensorImpl.output b],
            trace := w.trace ++ [.SetKernelOutput b w.heap.length] } := by
  simp only [bind_apply, SetKernelOutput]
  cases out.impl <;> rfl

theorem SetKernelOutputVector_bind {β : Type} (n : Nat) (b : Backend)
    (f : List Addr × List Tensor → Dispatch β) (w : World) :
    (SetKernelOutputVector n b >>= f) w =
      f (List.range' w.heap.length n,
          (List.range' w.heap.length n).map (fun a => { impl := some a }))
        { heap := w.heap ++ List.replicate n (TensorImpl.output b),
          trace := w.trace ++ [.SetKernelOutputVector n b (List.range' w.heap.length n)] } :=
  rfl

theorem addrOf_bind {β : Type} (p : Option Addr) (f : Addr → Dispatch β) (w : World) :
    (addrOf p >>= f) w =
      match p with
      | none => (.error .NullPointer, w)
      | some a => f a w := by
  cases p <;> rfl

theorem deref_bind {β : Type} (p : Option Addr) (f : TensorImpl → Dispatch β) (w : World) :
    (deref p >>= f) w =
      match p.bind (fun a => w.heap[a]?) with
      | none => (.error .NullPointer, w)
      | some obj => f obj w := by
  cases p with
  | none => rfl
  | some a =>
    simp only [bind_apply, deref, Option.bind]
    cases w.heap[a]? <;> rfl

theorem InferMeta_bind {β : Type} (env : Env) (fn : String) (ins : List MetaArg)
    (attrs : List Attr) (outs : List OutArg) (f : Unit → Dispatch β) (w : World) :
    (InferMeta env fn ins attrs outs >>= f) w =
      match env.InferMeta fn w.heap ins attrs outs with
      | .error e =>
        (.error e, { w with trace := w.trace ++ [.InferMeta fn w.heap ins attrs outs none] })
      | .ok ms =>
        f ()
          { heap := w.heap.setMetas (outAddrs outs) ms,
            trace := w.trace ++ [.InferMeta fn w.heap ins attrs outs (some ms)] } := by
  simp only [bind_apply, InferMeta]
  cases env.InferMeta fn w.heap ins attrs outs <;> rfl

theorem kernel_fn_bind {β : Type} (env : Env) (kernel : Kernel) (ctx : Nat)
    (ins : List KArg) (attrs : List Attr) (outs : List OutArg) (f : Unit → Dispatch β)
    (w : World) :
    (kernel_fn env kernel ctx ins attrs outs >>= f) w =
      match env.KernelFn kernel.fn w.heap ctx ins attrs outs with
      | .error e =>
        (.error e,
          { w with trace := w.trace ++ [.KernelFn kernel.fn ctx ins attrs outs false] })
      | .ok _ =>
        f () { w with trace := w.trace ++ [.KernelFn kernel.fn ctx ins attrs outs true] } := by
  simp only [bind_apply, kernel_fn]
  cases env.KernelFn kernel.fn w.heap ctx ins attrs outs <;> rfl

theorem ite_bind_apply {α β : Type} (c : Prop) [Decidable c] (a b : Dispatch α)
    (f : α → Dispatch β) (w : World) :
    ((if c then a else b) >>= f) w = if c then (a >>= f) w else (b >>= f) w := by
  split <;> rfl

theorem bind_pure_snd {α β : Type} (m : Dispatch α) (g : α → β) (w : World) :
    ((m >>= fun a => pure (g a)) w).2 = (m w).2 := by
  simp only [bind_apply]
  rcases m w with ⟨r, w1⟩
  cases r <;> rfl

theorem UnchangedInferMeta_bind {β : Type} (x out : Addr) (f : Unit → Dispatch β)
    (w : World) :
    (UnchangedInferMeta x out >>= f) w =
      match w.heap.metas [x] with
      | none =>
        (.error .NullPointer,
          { w with trace := w.trace ++
              [.InferMeta "UnchangedInferMeta" w.heap [.view x] [] [.ptr (some out)] none] })
      | some ms =>
        f ()
          { heap := w.heap.setMetas [out] ms,
            trace := w.trace ++
              [.InferMeta "UnchangedInferMeta" w.heap [.view x] [] [.ptr (some out)]
                (some ms)] } := by
  simp only [bind_apply, UnchangedInferMeta]
  cases w.heap.metas [x] <;> rfl

theorem UnchangedMultiInferMeta_bind {β : Type} (x out : List Addr) (f : Unit → Dispatch β)
    (w : World) :
    (UnchangedMultiInferMeta x out >>= f) w =
      match w.heap.metas x with
      | none =>
        (.error .NullPointer,
          { w with trace := w.trace ++
              [.InferMeta "UnchangedMultiInferMeta" w.heap [.views x] [] [.ptrs out] none] })
      | some ms =>
        f ()
          { heap := w.heap.setMetas out ms,
            trace := w.trace ++
              [.InferMeta "UnchangedMultiInferMeta" w.heap [.views x] [] [.ptrs out]
                (some ms)] } := by
  simp only [bind_apply, UnchangedMultiInferMeta]
  cases w.heap.metas x <;> rfl

/-- The calls of the per-output loop of `add_n_grad_impl` are appended to the trace;
they are meta inferences and kernel invocations, in alternation, starting with a meta
inference. -/
theorem add_n_grad_loop_trace (env : Env) (kernel : Kernel) (ctx : Nat) (p : Option Addr) :
    ∀ (ts : List Addr) (w : World),
      ∃ L, (add_n_grad_loop env kernel ctx p ts w).2.trace = w.trace ++ L ∧
        (∀ ev ∈ L, ev.step = 5 ∨ ev.step = 6) ∧ List.Chain' mayFollow (steps L) ∧
        ∀ n ∈ (steps L).head?, n = 5 := by
  intro ts
  induction ts with
  | nil =>
    intro w
    exact ⟨[], by simp [add_n_grad_loop, pure_apply], by simp, by simp [steps], by simp [steps]⟩
  | cons t ts ih =>
    intro w
    cases p with
    | none =>
      exact ⟨[], by simp [add_n_grad_loop, addrOf_bind], by simp, by simp [steps],
        by simp [steps]⟩
    | some a =>
      simp only [add_n_grad_loop, addrOf_bind, UnchangedInferMeta_bind, kernel_fn_bind]
      split
      next =>
        exact ⟨[_], rfl, by simp [Event.step], by simp [steps], by simp [steps, Event.step]⟩
      next ms _ =>
        split
        next =>
          exact ⟨[_, _], List.append_assoc _ _ _, by simp [Event.step],
            by simp [steps, Event.step, mayFollow], by simp [steps, Event.step]⟩
        next =>
          obtain ⟨L, hL, hstep, hchain, hhead⟩ := ih
            { heap := w.heap.setMetas [t] ms,
              trace := (w.trace ++
                [.InferMeta "UnchangedInferMeta" w.heap [.view a] [] [.ptr (some t)] (some ms)]) ++
                [.KernelFn kernel.fn ctx [.tensor a]
                  [.scalar (.double 4607182418800017408), .float 0, .bool true]
                  [.ptr (some t)] true] }
          refine ⟨.InferMeta "UnchangedInferMeta" w.heap [.view a] [] [.ptr (some t)] (some ms) ::
            .KernelFn kernel.fn ctx [.tensor a]
              [.scalar (.double 4607182418800017408), .float 0, .bool true] [.ptr (some t)] true ::
            L, ?_, ?_, ?_, ?_⟩
          · rw [hL]; simp
          · intro ev hev
            simp only [List.mem_cons] at hev
            rcases hev with rfl | rfl | hev
            · simp [Event.step]
            · simp [Event.step]
            · exact hstep ev hev
          · show List.Chain' mayFollow (5 :: 6 :: steps L)
            refine List.Chain'.cons (by decide) ?_
            refine List.Chain'.cons' hchain ?_
            intro y hy
            have hy5 := hhead y hy
            subst hy5
            decide
          · intro n hn
            simp only [steps, List.map_cons, List.head?_cons, Option.mem_def,
              Option.some.injEq, Event.step] at hn
            exact hn.symm

theorem chain_of_followCheck : ∀ l : List Nat, followCheck l = true → List.Chain' mayFollow l
  | [], _ => List.chain'_nil
  | [_], _ => List.chain'_singleton _
  | a :: b :: rest, hc => by
    simp only [followCheck, Bool.and_eq_true, decide_eq_true_eq] at hc
    exact List.Chain'.cons hc.1 (chain_of_followCheck (b :: rest) hc.2)

theorem parsedArgs_append (a b : List Event) : parsedArgs (a ++ b) = parsedArgs a ++ parsedArgs b :=
  List.filterMap_append _ _ _

theorem pure_bind_eq {α β : Type} (a : α) (f : α → Dispatch β) :
    ((pure a : Dispatch α) >>= f) = f a := rfl

theorem filterMap_late {β : Type} (f : Event → Option β)
    (hf : ∀ ev : Event, (ev.step = 5 ∨ ev.step = 6) → f ev = none) (L : List Event)
    (hL : ∀ ev ∈ L, ev.step = 5 ∨ ev.step = 6) : L.filterMap f = [] := by
  induction L with
  | nil => rfl
  | cons ev L ih =>
    rw [List.filterMap_cons, hf ev (hL ev (List.mem_cons_self _ _))]
    exact ih (fun e he => hL e (List.mem_cons_of_mem _ he))

theorem parsed?_late (ev : Event) (h : ev.step = 5 ∨ ev.step = 6) : ev.parsed? = none := by
  cases ev <;> first | rfl | (simp [Event.step] at h)

theorem parsedArgs_of_late (L : List Event) (hL : ∀ ev ∈ L, ev.step = 5 ∨ ev.step = 6) :
    parsedArgs L = [] :=
  filterMap_late _ parsed?_late L hL


theorem ite_isSome_bind {α β : Type} (p : Option Addr) (a b : Dispatch α)
    (f : α → Dispatch β) (w : World) :
    ((if p.isSome = true then a else b) >>= f) w =
      match p with
      | some _ => (a >>= f) w
      | none => (b >>= f) w := by
  cases p <;> rfl

theorem ite_isSome_self (p : Option Addr) : (if p.isSome = true then p else none) = p := by
  cases p <;> rfl

theorem lookups_append (a b : List Event) : lookups (a ++ b) = lookups a ++ lookups b :=
  List.filterMap_append _ _ _

theorem lookups_of_late (L : List Event) (hL : ∀ ev ∈ L, ev.step = 5 ∨ ev.step = 6) :
    lookups L = [] :=
  filterMap_late _ (fun ev h => by cases ev <;> first | rfl | (simp [Event.step] at h)) L hL

theorem resolvedKeys_append (a b : List Event) :
    resolvedKeys (a ++ b) = resolvedKeys a ++ resolvedKeys b :=
  List.filterMap_append _ _ _

theorem resolvedKeys_of_late (L : List Event) (hL : ∀ ev ∈ L, ev.step = 5 ∨ ev.step = 6) :
    resolvedKeys L = [] :=
  filterMap_late _ (fun ev h => by cases ev <;> first | rfl | (simp [Event.step] at h)) L hL

theorem lookupArgs_append (a b : List Event) :
    lookupArgs (a ++ b) = lookupArgs a ++ lookupArgs b :=
  List.filterMap_append _ _ _

theorem lookupArgs_of_late (L : List Event) (hL : ∀ ev ∈ L, ev.step = 5 ∨ ev.step = 6) :
    lookupArgs L = [] :=
  filterMap_late _ (fun ev h => by cases ev <;> first | rfl | (simp [Event.step] at h)) L hL

theorem obj?_of_bind (h : Heap) (t : Tensor) (obj : TensorImpl)
    (hobj : (t.impl.bind fun a => h[a]?) = some obj) : h.obj? t = some obj := by
  unfold Heap.obj?
  cases himpl : t.impl with
  | none => rw [himpl] at hobj; cases hobj
  | some a => rw [himpl] at hobj; exact hobj


theorem to_size_t_of_nonneg (k : Int) (h0 : 0 ≤ k) (h1 : k < 2 ^ 64) :
    to_size_t k = k.toNat := by
  unfold to_size_t
  rw [Int.emod_eq_of_lt h0 h1]

theorem ite_isSome_apply {α : Type} (p : Option Addr) (a b : Dispatch α) (w : World) :
    (if p.isSome = true then a else b) w =
      match p with
      | some _ => a w
      | none => b w := by
  cases p <;> rfl

/-! ## Key resolution (C5, C6, C7) -/

/-- C5: in `conv2d_impl` and `batch_norm_impl` the looked-up key has the backend and
the layout of the highest-priority key of the parsed key set, and its data type is the
one parsed from the first input unless that is `UNDEFINED`, in which case it is the
highest-priority key's data type. -/
theorem conv2d_batch_norm_key (env : Env) (h : Heap) (input filter : Tensor)
    (strides paddings : List Int) (paddding_algorithm : String) (groups : Int)
    (dilations : List Int) (data_format : String) (use_addto : Bool)
    (workspace_size_MB : Int) (exhaustive_search : Bool)
    (x scale bias mean variance : Tensor) (momentum epsilon : Nat) (data_layout : String)
    (is_test use_global_stats trainable_statistics fuse_with_relu : Bool) :
    lookups (run (conv2d_impl env input filter strides paddings paddding_algorithm groups
        dilations data_format use_addto workspace_size_MB exhaustive_search) h).2.trace =
      [("conv2d",
        { backend := (env.GetHighestPriorityKernelKey
            (env.ParseKernelKeyByInputArgs h [.tensor input, .tensor filter])).backend,
          layout := (env.GetHighestPriorityKernelKey
            (env.ParseKernelKeyByInputArgs h [.tensor input, .tensor filter])).layout,
          dtype :=
            if env.ParseDataType h input = .UNDEFINED then
              (env.GetHighestPriorityKernelKey
                (env.ParseKernelKeyByInputArgs h [.tensor input, .tensor filter])).dtype
            else env.ParseDataType h input })] ∧
    lookups (run (batch_norm_impl env x scale bias mean variance momentum epsilon
        data_layout is_test use_global_stats trainable_statistics fuse_with_relu) h).2.trace =
      [("batch_norm",
        { backend := (env.GetHighestPriorityKernelKey
            (env.ParseKernelKeyByInputArgs h [.tensor x])).backend,
          layout := (env.GetHighestPriorityKernelKey
            (env.ParseKernelKeyByInputArgs h [.tensor x])).layout,
          dtype :=
            if env.ParseDataType h x = .UNDEFINED then
              (env.GetHighestPriorityKernelKey
                (env.ParseKernelKeyByInputArgs h [.tensor x])).dtype
            else env.ParseDataType h x })] := by
  constructor
  · simp only [run, conv2d_impl, Tensor.empty, ParseDataType_bind,
      ParseKernelKeyByInputArgs_bind, GetHighestPriorityKernelKey_bind,
      SelectKernelOrThrowError_bind, GetDeviceContextByBackend_bind, PrepareData_bind,
      SetKernelOutput_bind, addrOf_bind, InferMeta_bind, kernel_fn_bind, pure_apply,
      pure_bind_apply, bind_assoc_apply, ite_bind_apply, true_or, if_true,
      List.nil_append, List.append_assoc, List.cons_append]
    repeat' split
    all_goals simp [lookups, Event.lookup?]
  · simp only [run, batch_norm_impl, Tensor.empty, ParseDataType_bind,
      ParseKernelKeyByInputArgs_bind, GetHighestPriorityKernelKey_bind,
      SelectKernelOrThrowError_bind, GetDeviceContextByBackend_bind, PrepareData_bind,
      SetKernelOutput_bind, addrOf_bind, InferMeta_bind, kernel_fn_bind, pure_apply,
      pure_bind_apply, bind_assoc_apply, ite_bind_apply, true_or, if_true,
      List.nil_append, List.append_assoc, List.cons_append]
    repeat' split
    all_goals simp [lookups, Event.lookup?]

/-- C6: in `copy_to_impl` the key set from which the key is selected has, as backend
set, the bitwise OR of the backend set parsed from `x` and the singleton set of the
backend the target place translates to; its layout and data type are those parsed from
`x`.  The key looked up is the highest-priority key of that set. -/
theorem copy_to_backend_override (env : Env) (h : Heap) (x : Tensor) (place : Place)
    (blocking : Bool) :
    keySetsUsed (run (copy_to_impl env x place blocking) h).2.trace =
      [{ backend_set :=
           { bitset := (env.ParseKernelKeyByInputArgs h [.tensor x]).backend_set.bitset |||
               (BackendSet.ofBackend (env.TransToPhiBackend place)).bitset },
         layout := (env.ParseKernelKeyByInputArgs h [.tensor x]).layout,
         dtype := (env.ParseKernelKeyByInputArgs h [.tensor x]).dtype }] ∧
    lookups (run (copy_to_impl env x place blocking) h).2.trace =
      [("copy", env.GetHighestPriorityKernelKey
        { backend_set :=
            { bitset := (env.ParseKernelKeyByInputArgs h [.tensor x]).backend_set.bitset |||
                (BackendSet.ofBackend (env.TransToPhiBackend place)).bitset },
          layout := (env.ParseKernelKeyByInputArgs h [.tensor x]).layout,
          dtype := (env.ParseKernelKeyByInputArgs h [.tensor x]).dtype })] := by
  constructor
  all_goals
    simp only [run, copy_to_impl, Tensor.empty, BackendSet.or, ParseKernelKeyByInputArgs_bind,
      GetHighestPriorityKernelKey_bind, SelectKernelOrThrowError_bind,
      GetDeviceContextByBackend_bind, TensorToDenseTensor_bind, SetKernelOutput_bind,
      addrOf_bind, UnchangedInferMeta_bind, kernel_fn_bind, pure_apply, pure_bind_apply,
      bind_assoc_apply, List.nil_append, List.append_assoc, List.cons_append]
    repeat' split
    all_goals simp [keySetsUsed, Event.keySet?, lookups, Event.lookup?]

/-- C7: in `imag_grad_impl` and `real_grad_impl`, for a gradient tensor `out_grad` with
implementation object `obj`, the key looked up is
`(ParseBackend(out_grad), out_grad.layout(), ToComplex(out_grad.dtype()))`: the layout
is the tensor's own and the data type is `ToComplex` of the tensor's data type. -/
theorem imag_real_grad_key (env : Env) (h : Heap) (out_grad : Tensor) (obj : TensorImpl)
    (hobj : h.obj? out_grad = some obj) :
    lookups (run (imag_grad_impl env out_grad) h).2.trace =
      [("imag_grad",
        { backend := env.ParseBackend h out_grad, layout := obj.meta.layout,
          dtype := env.ToComplex obj.meta.dtype })] ∧
    lookups (run (real_grad_impl env out_grad) h).2.trace =
      [("real_grad",
        { backend := env.ParseBackend h out_grad, layout := obj.meta.layout,
          dtype := env.ToComplex obj.meta.dtype })] := by
  have hderef : out_grad.impl.bind (fun a => h[a]?) = some obj := by
    unfold Heap.obj? at hobj
    cases himpl : out_grad.impl with
    | none => rw [himpl] at hobj; cases hobj
    | some a => rw [himpl] at hobj; exact hobj
  constructor
  all_goals
    simp only [run, imag_grad_impl, real_grad_impl, Tensor.empty, ParseBackend_bind,
      deref_bind, hderef, SelectKernelOrThrowError_bind, GetDeviceContextByBackend_bind,
      TensorToDenseTensor_bind, SetKernelOutput_bind, addrOf_bind, InferMeta_bind,
      kernel_fn_bind, pure_apply, pure_bind_apply, bind_assoc_apply, List.nil_append,
      List.append_assoc, List.cons_append]
    repeat' split
    all_goals simp [lookups, Event.lookup?]

/-- Witness of C7: a `FLOAT32` gradient on the CPU is looked up at `COMPLEX64`. -/
theorem imag_real_grad_key_witness :
    lookups (run (imag_grad_impl testEnv (tensorAt 0)) vecHeap).2.trace =
      [("imag_grad", { backend := .CPU, layout := .NCHW, dtype := .COMPLEX64 })] ∧
    lookups (run (real_grad_impl testEnv (tensorAt 0)) vecHeap).2.trace =
      [("real_grad", { backend := .CPU, layout := .NCHW, dtype := .COMPLEX64 })] :=
  imag_real_grad_key testEnv vecHeap (tensorAt 0) (denseF32 .CPU [10]) rfl

/-! ## Key parsing inputs (C4) -/

/-- C4, counterexample: `momentum_impl` hands only `param` to
`ParseKernelKeyByInputArgs`; the gradient, the velocity and the learning rate are input
tensors of the call that are not parsed. -/
theorem key_parsing_skips_inputs :
    ¬ ∀ t ∈ momentumCall.tensorArgs,
        t ∈ parsedTensors (Call.trace testEnv momentumHeap momentumCall) := by
  decide

/-- C4, amended: every entry point hands to `ParseKernelKeyByInputArgs` exactly the
inputs it designates for key parsing (`Call.keyInputs`): all tensor inputs for
`conv2d`, `conv2d_grad`, `copy_to`, `split`, `meshgrid` and `meshgrid_grad`; only
`param` for `momentum`; only `x` for `batch_norm`; only `out_grad` for `add_n_grad`,
`concat_grad` and `stack_grad`; and nothing for `imag_grad` and `real_grad`. -/
theorem key_parsing_inputs (env : Env) (h : Heap) (c : Call) :
    parsedArgs (Call.trace env h c) = c.keyInputs := by
  cases c
  case add_n_grad x out_grad =>
    simp only [Call.trace, Call.exec, Dispatch.discard, run, add_n_grad_impl,
      ParseKernelKeyByInputArgs_bind, GetHighestPriorityKernelKey_bind,
      SelectKernelOrThrowError_bind, GetDeviceContextByBackend_bind, PrepareData_bind,
      SetKernelOutputVector_bind, pure_apply, pure_bind_apply, pure_bind_eq, bind_assoc_apply,
      List.nil_append, List.append_assoc, List.cons_append]
    repeat' split
    · simp [parsedArgs, Event.parsed?, Call.keyInputs]
    · simp [parsedArgs, Event.parsed?, Call.keyInputs]
    · rw [bind_pure_snd]
      rename_i kernel _ _ p h1 _
      obtain ⟨L, hL, hstep, -, -⟩ := add_n_grad_loop_trace env kernel
        (env.GetDeviceContextByBackend (env.GetHighestPriorityKernelKey
          (env.ParseKernelKeyByInputArgs h [.tensor out_grad])).backend) p
        (List.range' h1.length x.length)
        { heap := h1 ++ List.replicate x.length (TensorImpl.output (env.GetHighestPriorityKernelKey
          (env.ParseKernelKeyByInputArgs h [.tensor out_grad])).backend), trace := _ }
      rw [hL, parsedArgs_append, parsedArgs_of_late L hstep]
      simp [parsedArgs, Event.parsed?, Call.keyInputs]
  case momentum =>
    simp only [Call.trace, Call.exec, Dispatch.discard, run, momentum_impl, Tensor.empty,
      ParseKernelKeyByInputArgs_bind, GetHighestPriorityKernelKey_bind, deref_bind,
      SelectKernelOrThrowError_bind, GetDeviceContextByBackend_bind, PrepareData_bind,
      PrepareDataOptional_bind, addrOf_bind, InferMeta_bind, kernel_fn_bind, pure_apply,
      pure_bind_apply, bind_assoc_apply, ite_bind_apply, true_or, if_true,
      List.nil_append, List.append_assoc, List.cons_append]
    repeat' split
    all_goals simp [parsedArgs, Event.parsed?, Call.keyInputs]
  all_goals
    simp only [Call.trace, Call.exec, Dispatch.discard, run, conv2d_impl, conv2d_grad_impl,
      copy_to_impl, split_impl, batch_norm_impl, concat_grad_impl, imag_grad_impl,
      real_grad_impl, stack_grad_impl, meshgrid_impl, meshgrid_grad_impl, Tensor.empty,
      ParseDataType_bind, ParseBackend_bind, ParseKernelKeyByInputArgs_bind,
      GetHighestPriorityKernelKey_bind, SelectKernelOrThrowError_bind,
      GetDeviceContextByBackend_bind, PrepareData_bind, PrepareDataVector_bind,
      TensorToDenseTensor_bind, SetKernelOutput_bind, SetKernelOutputVector_bind, addrOf_bind,
      deref_bind, InferMeta_bind, kernel_fn_bind, UnchangedInferMeta_bind,
      UnchangedMultiInferMeta_bind, pure_apply, pure_bind_apply, bind_assoc_apply,
      ite_bind_apply, true_or, if_true, List.nil_append, List.append_assoc, List.cons_append]
    repeat' split
    all_goals simp [parsedArgs, Event.parsed?, Call.keyInputs]


/-! ## Definedness of the looked-up key (C3) -/

/-- C3, counterexample: `imag_grad_impl` on a gradient tensor whose layout is
`UNDEFINED` hands the registry a key whose layout is `UNDEFINED`: the layout of the
key is `out_grad.layout()`, unchecked. -/
theorem lookup_key_undefined_layout :
    ¬ ∀ nk ∈ lookups (Call.trace testEnv noLayoutHeap (.imag_grad (tensorAt 0))),
        nk.2.defined := by
  intro hall
  exact (hall ("imag_grad", { backend := .CPU, layout := .UNDEFINED, dtype := .COMPLEX64 })
    (by decide)).2.1 rfl

/-- C3, amended: the key handed to the registry lookup has no undefined field
whenever the values it is assembled from have none: the highest-priority key of the
parsed key set (for the entry points that parse a key set), resp.
`ParseBackend(out_grad)`, `out_grad.layout()` and `ToComplex(out_grad.dtype())` (for
`imag_grad_impl` and `real_grad_impl`).  The entry points themselves do not check the
key. -/
theorem lookup_key_defined (env : Env) (h : Heap) (c : Call)
    (hk : ∀ r ∈ resolvedKeys (Call.trace env h c), r.defined)
    (hg : ∀ tb ∈ parsedBackends (Call.trace env h c),
      tb.2 ≠ .UNDEFINED ∧ ∀ obj, h.obj? tb.1 = some obj →
        obj.meta.layout ≠ .UNDEFINED ∧ env.ToComplex obj.meta.dtype ≠ .UNDEFINED) :
    ∀ nk ∈ lookups (Call.trace env h c), nk.2.defined := by
  revert hk hg
  cases c
  case add_n_grad x out_grad =>
    simp only [Call.trace, Call.exec, Dispatch.discard, run, add_n_grad_impl,
      ParseKernelKeyByInputArgs_bind, GetHighestPriorityKernelKey_bind,
      SelectKernelOrThrowError_bind, GetDeviceContextByBackend_bind, PrepareData_bind,
      SetKernelOutputVector_bind, pure_apply, pure_bind_apply, pure_bind_eq, bind_assoc_apply,
      List.nil_append, List.append_assoc, List.cons_append]
    repeat' split
    · intro hk _
      simp only [resolvedKeys, List.filterMap_cons, List.filterMap_nil, Event.resolvedKey?,
        List.mem_singleton, forall_eq] at hk
      simp only [lookups, List.filterMap_cons, List.filterMap_nil, Event.lookup?,
        List.mem_singleton, forall_eq]
      exact hk
    · intro hk _
      simp only [resolvedKeys, List.filterMap_cons, List.filterMap_nil, Event.resolvedKey?,
        List.mem_singleton, forall_eq] at hk
      simp only [lookups, List.filterMap_cons, List.filterMap_nil, Event.lookup?,
        List.mem_singleton, forall_eq]
      exact hk
    · rw [bind_pure_snd]
      rename_i kernel _ _ p h1 _
      obtain ⟨L, hL, hstep, -, -⟩ := add_n_grad_loop_trace env kernel
        (env.GetDeviceContextByBackend (env.GetHighestPriorityKernelKey
          (env.ParseKernelKeyByInputArgs h [.tensor out_grad])).backend) p
        (List.range' h1.length x.length)
        { heap := h1 ++ List.replicate x.length (TensorImpl.output (env.GetHighestPriorityKernelKey
          (env.ParseKernelKeyByInputArgs h [.tensor out_grad])).backend), trace := _ }
      rw [hL, lookups_append, lookups_of_late L hstep, resolvedKeys_append,
        resolvedKeys_of_late L hstep]
      intro hk _
      simp only [resolvedKeys, List.filterMap_cons, List.filterMap_nil, Event.resolvedKey?,
        List.mem_singleton, forall_eq, List.append_nil] at hk
      simp only [lookups, List.filterMap_cons, List.filterMap_nil, Event.lookup?,
        List.mem_singleton, forall_eq, List.append_nil]
      exact hk
  case imag_grad out_grad =>
    simp only [Call.trace, Call.exec, Dispatch.discard, run, imag_grad_impl, Tensor.empty,
      ParseBackend_bind, deref_bind, SelectKernelOrThrowError_bind,
      GetDeviceContextByBackend_bind, TensorToDenseTensor_bind, SetKernelOutput_bind,
      addrOf_bind, InferMeta_bind, kernel_fn_bind, pure_apply, pure_bind_apply,
      bind_assoc_apply, List.nil_append, List.append_assoc, List.cons_append]
    split
    · intro _ _
      simp [lookups, Event.lookup?]
    · rename_i obj hobj
      repeat' split
      all_goals
        intro _ hg
        simp only [parsedBackends, List.filterMap_cons, List.filterMap_nil,
          Event.parsedBackend?, List.mem_singleton, forall_eq] at hg
        simp only [lookups, List.filterMap_cons, List.filterMap_nil, Event.lookup?,
          List.mem_singleton, forall_eq]
        exact ⟨hg.1, hg.2 obj (obj?_of_bind h out_grad obj hobj)⟩
  case real_grad out_grad =>
    simp only [Call.trace, Call.exec, Dispatch.discard, run, real_grad_impl, Tensor.empty,
      ParseBackend_bind, deref_bind, SelectKernelOrThrowError_bind,
      GetDeviceContextByBackend_bind, TensorToDenseTensor_bind, SetKernelOutput_bind,
      addrOf_bind, InferMeta_bind, kernel_fn_bind, pure_apply, pure_bind_apply,
      bind_assoc_apply, List.nil_append, List.append_assoc, List.cons_append]
    split
    · intro _ _
      simp [lookups, Event.lookup?]
    · rename_i obj hobj
      repeat' split
      all_goals
        intro _ hg
        simp only [parsedBackends, List.filterMap_cons, List.filterMap_nil,
          Event.parsedBackend?, List.mem_singleton, forall_eq] at hg
        simp only [lookups, List.filterMap_cons, List.filterMap_nil, Event.lookup?,
          List.mem_singleton, forall_eq]
        exact ⟨hg.1, hg.2 obj (obj?_of_bind h out_grad obj hobj)⟩
  all_goals
    simp only [Call.trace, Call.exec, Dispatch.discard, run, conv2d_impl, conv2d_grad_impl,
      copy_to_impl, split_impl, momentum_impl, batch_norm_impl, concat_grad_impl,
      stack_grad_impl, meshgrid_impl, meshgrid_grad_impl, Tensor.empty,
      ParseDataType_bind, ParseBackend_bind, ParseKernelKeyByInputArgs_bind,
      GetHighestPriorityKernelKey_bind, SelectKernelOrThrowError_bind,
      GetDeviceContextByBackend_bind, PrepareData_bind, PrepareDataOptional_bind,
      PrepareDataVector_bind,
      TensorToDenseTensor_bind, SetKernelOutput_bind, SetKernelOutputVector_bind, addrOf_bind,
      deref_bind, InferMeta_bind, kernel_fn_bind, UnchangedInferMeta_bind,
      UnchangedMultiInferMeta_bind, pure_apply, pure_bind_apply, bind_assoc_apply,
      ite_isSome_bind, ite_isSome_self, ite_bind_apply, true_or, if_true, List.nil_append,
      List.append_assoc, List.cons_append]
    repeat' split
    all_goals
      intro hk _
      simp only [lookups, List.filterMap_cons, List.filterMap_nil, Event.lookup?,
        List.mem_singleton, forall_eq, List.not_mem_nil, false_implies, implies_true] <;>
      (simp only [resolvedKeys, List.filterMap_cons, List.filterMap_nil, Event.resolvedKey?,
          List.mem_singleton, forall_eq] at hk
       first
        | exact hk
        | exact ⟨hk.1, hk.2.1, by assumption⟩)

/-- Witness of C3 (amended): the convolution scenario, whose highest-priority key is
`(CPU, NCHW, FLOAT32)`. -/
theorem lookup_key_defined_witness :
    lookups (Call.trace testEnv convHeap convCall) =
        [("conv2d", { backend := .CPU, layout := .NCHW, dtype := .FLOAT32 })] ∧
      KernelKey.defined { backend := .CPU, layout := .NCHW, dtype := .FLOAT32 } :=
  ⟨by decide, lookup_key_defined testEnv convHeap convCall
    (fun r hr => by
      have hkeys : resolvedKeys (Call.trace testEnv convHeap convCall) =
          [{ backend := .CPU, layout := .NCHW, dtype := .FLOAT32 }] := by decide
      rw [hkeys, List.mem_singleton] at hr
      subst hr
      exact ⟨by decide, by decide, by decide⟩)
    (fun tb htb => by
      have hnone : parsedBackends (Call.trace testEnv convHeap convCall) = [] := by decide
      rw [hnone] at htb
      cases htb)
    ("conv2d", { backend := .CPU, layout := .NCHW, dtype := .FLOAT32 }) (by decide)⟩

/-! ## Failure of the registry lookup (C2) -/

/-- C2: for every entry point and every input, if the registry lookup
`SelectKernelOrThrowError(name, key, use_gpudnn)` the call makes fails with an error,
the call ends with that error and no later step has run: every call in the trace is a
key-resolution step or the lookup itself (no execution context fetched, no input
prepared, no output bound, no meta inference run, no kernel invoked). -/
theorem lookup_failure_aborts (env : Env) (h : Heap) (c : Call) (name : String)
    (key : KernelKey) (use_gpudnn : Bool) (e : Err)
    (hin : (name, key, use_gpudnn) ∈ lookupArgs (Call.trace env h c))
    (hfail : env.SelectKernelOrThrowError name key use_gpudnn = .error e) :
    Call.result env h c = .error e ∧ ∀ ev ∈ Call.trace env h c, ev.step ≤ 1 := by
  revert hin
  cases c
  case add_n_grad x out_grad =>
    simp only [Call.trace, Call.result, Call.exec, Dispatch.discard, run, add_n_grad_impl,
      ParseKernelKeyByInputArgs_bind, GetHighestPriorityKernelKey_bind,
      SelectKernelOrThrowError_bind, GetDeviceContextByBackend_bind, PrepareData_bind,
      SetKernelOutputVector_bind, pure_apply, pure_bind_apply, pure_bind_eq, bind_assoc_apply,
      List.nil_append, List.append_assoc, List.cons_append]
    split
    next e0 he0 =>
      intro hin
      simp only [lookupArgs, List.filterMap_cons, List.filterMap_nil, Event.lookupArgs?,
        List.mem_singleton, Prod.mk.injEq] at hin
      obtain ⟨rfl, rfl, rfl⟩ := hin
      rw [he0] at hfail
      cases hfail
      exact ⟨rfl, by simp [Event.step]⟩
    next kernel hsel =>
      intro hin
      exfalso
      revert hin
      split
      · intro hin
        simp only [lookupArgs, List.filterMap_cons, List.filterMap_nil, Event.lookupArgs?,
          List.mem_singleton, Prod.mk.injEq] at hin
        obtain ⟨rfl, rfl, rfl⟩ := hin
        rw [hsel] at hfail
        cases hfail
      · rw [bind_pure_snd]
        rename_i p h1 _
        obtain ⟨L, hL, hstep, -, -⟩ := add_n_grad_loop_trace env kernel
          (env.GetDeviceContextByBackend (env.GetHighestPriorityKernelKey
            (env.ParseKernelKeyByInputArgs h [.tensor out_grad])).backend) p
          (List.range' h1.length x.length)
          { heap := h1 ++ List.replicate x.length (TensorImpl.output (env.GetHighestPriorityKernelKey
            (env.ParseKernelKeyByInputArgs h [.tensor out_grad])).backend), trace := _ }
        rw [hL, lookupArgs_append, lookupArgs_of_late L hstep]
        intro hin
        simp only [lookupArgs, List.filterMap_cons, List.filterMap_nil, Event.lookupArgs?,
          List.mem_singleton, Prod.mk.injEq, List.append_nil] at hin
        obtain ⟨rfl, rfl, rfl⟩ := hin
        rw [hsel] at hfail
        cases hfail
  case imag_grad out_grad =>
    simp only [Call.trace, Call.result, Call.exec, Dispatch.discard, run, imag_grad_impl,
      Tensor.empty, ParseBackend_bind, deref_bind, SelectKernelOrThrowError_bind,
      GetDeviceContextByBackend_bind, TensorToDenseTensor_bind, SetKernelOutput_bind,
      addrOf_bind, InferMeta_bind, kernel_fn_bind, pure_apply, pure_bind_apply,
      bind_assoc_apply, List.nil_append, List.append_assoc, List.cons_append]
    split
    next =>
      intro hin
      simp only [lookupArgs, List.filterMap_cons, List.filterMap_nil, Event.lookupArgs?,
        List.not_mem_nil] at hin
    next obj hobj =>
      split
      next e0 he0 =>
        intro hin
        simp only [lookupArgs, List.filterMap_cons, List.filterMap_nil, Event.lookupArgs?,
          List.mem_singleton, Prod.mk.injEq] at hin
        obtain ⟨rfl, rfl, rfl⟩ := hin
        rw [he0] at hfail
        cases hfail
        exact ⟨rfl, by simp [Event.step]⟩
      next kernel hsel =>
        intro hin
        exfalso
        revert hin
        repeat' split
        all_goals
          intro hin
          simp only [lookupArgs, List.filterMap_cons, List.filterMap_nil, Event.lookupArgs?,
            List.mem_singleton, Prod.mk.injEq] at hin
          obtain ⟨rfl, rfl, rfl⟩ := hin
          rw [hsel] at hfail
          cases hfail
  case real_grad out_grad =>
    simp only [Call.trace, Call.result, Call.exec, Dispatch.discard, run, real_grad_impl,
      Tensor.empty, ParseBackend_bind, deref_bind, SelectKernelOrThrowError_bind,
      GetDeviceContextByBackend_bind, TensorToDenseTensor_bind, SetKernelOutput_bind,
      addrOf_bind, InferMeta_bind, kernel_fn_bind, pure_apply, pure_bind_apply,
      bind_assoc_apply, List.nil_append, List.append_assoc, List.cons_append]
    split
    next =>
      intro hin
      simp only [lookupArgs, List.filterMap_cons, List.filterMap_nil, Event.lookupArgs?,
        List.not_mem_nil] at hin
    next obj hobj =>
      split
      next e0 he0 =>
        intro hin
        simp only [lookupArgs, List.filterMap_cons, List.filterMap_nil, Event.lookupArgs?,
          List.mem_singleton, Prod.mk.injEq] at hin
        obtain ⟨rfl, rfl, rfl⟩ := hin
        rw [he0] at hfail
        cases hfail
        exact ⟨rfl, by simp [Event.step]⟩
      next kernel hsel =>
        intro hin
        exfalso
        revert hin
        repeat' split
        all_goals
          intro hin
          simp only [lookupArgs, List.filterMap_cons, List.filterMap_nil, Event.lookupArgs?,
            List.mem_singleton, Prod.mk.injEq] at hin
          obtain ⟨rfl, rfl, rfl⟩ := hin
          rw [hsel] at hfail
          cases hfail
  case momentum =>
    simp only [Call.trace, Call.result, Call.exec, Dispatch.discard, run, momentum_impl,
      Tensor.empty, ParseKernelKeyByInputArgs_bind, GetHighestPriorityKernelKey_bind,
      deref_bind, SelectKernelOrThrowError_bind, GetDeviceContextByBackend_bind,
      PrepareData_bind, PrepareDataOptional_bind, addrOf_bind, InferMeta_bind, kernel_fn_bind,
      pure_apply, pure_bind_apply, bind_assoc_apply, ite_isSome_bind, ite_isSome_self,
      ite_bind_apply, true_or, if_true, List.nil_append, List.append_assoc,
      List.cons_append]
    split
    next =>
      intro hin
      simp only [lookupArgs, List.filterMap_cons, List.filterMap_nil, Event.lookupArgs?,
        List.not_mem_nil] at hin
    next obj hobj =>
      split
      next e0 he0 =>
        intro hin
        simp only [lookupArgs, List.filterMap_cons, List.filterMap_nil, Event.lookupArgs?,
          List.mem_singleton, Prod.mk.injEq] at hin
        obtain ⟨rfl, rfl, rfl⟩ := hin
        rw [he0] at hfail
        cases hfail
        exact ⟨rfl, by simp [Event.step]⟩
      next kernel hsel =>
        intro hin
        exfalso
        revert hin
        repeat' split
        all_goals
          intro hin
          simp only [lookupArgs, List.filterMap_cons, List.filterMap_nil, Event.lookupArgs?,
            List.mem_singleton, Prod.mk.injEq] at hin
          obtain ⟨rfl, rfl, rfl⟩ := hin
          split at hsel <;> simp_all
  all_goals
    simp only [Call.trace, Call.result, Call.exec, Dispatch.discard, run, conv2d_impl,
      conv2d_grad_impl,
      copy_to_impl, split_impl, momentum_impl, batch_norm_impl, concat_grad_impl,
      stack_grad_impl, meshgrid_impl, meshgrid_grad_impl, Tensor.empty,
      ParseDataType_bind, ParseBackend_bind, ParseKernelKeyByInputArgs_bind,
      GetHighestPriorityKernelKey_bind, SelectKernelOrThrowError_bind,
      GetDeviceContextByBackend_bind, PrepareData_bind, PrepareDataOptional_bind,
      PrepareDataVector_bind,
      TensorToDenseTensor_bind, SetKernelOutput_bind, SetKernelOutputVector_bind, addrOf_bind,
      deref_bind, InferMeta_bind, kernel_fn_bind, UnchangedInferMeta_bind,
      UnchangedMultiInferMeta_bind, pure_apply, pure_bind_apply, bind_assoc_apply,
      ite_isSome_bind, ite_isSome_self, ite_bind_apply, true_or, if_true, List.nil_append,
      List.append_assoc, List.cons_append]
    split
    next e0 he0 =>
      intro hin
      simp only [lookupArgs, List.filterMap_cons, List.filterMap_nil, Event.lookupArgs?,
        List.mem_singleton, Prod.mk.injEq] at hin
      obtain ⟨rfl, rfl, rfl⟩ := hin
      rw [he0] at hfail
      cases hfail
      exact ⟨rfl, by simp [Event.step]⟩
    next kernel hsel =>
      intro hin
      exfalso
      revert hin
      repeat' split
      all_goals
        intro hin
        simp only [lookupArgs, List.filterMap_cons, List.filterMap_nil, Event.lookupArgs?,
          List.mem_singleton, Prod.mk.injEq] at hin
        obtain ⟨rfl, rfl, rfl⟩ := hin
        first
          | (rw [hsel] at hfail; cases hfail)
          | (split at hsel <;> simp_all)

/-- Witness of C2: `split_impl` on a tensor without data type; the key has an undefined
data type and the lookup raises `KernelNotFoundError`. -/
theorem lookup_failure_aborts_witness :
    Call.result testEnv untypedHeap (.split (tensorAt 0) { GetData := [3] } (.int 0)) =
        .error .KernelNotFoundError ∧
      ∀ ev ∈ Call.trace testEnv untypedHeap (.split (tensorAt 0) { GetData := [3] } (.int 0)),
        ev.step ≤ 1 :=
  lookup_failure_aborts testEnv untypedHeap (.split (tensorAt 0) { GetData := [3] } (.int 0))
    "split" { backend := .CPU, layout := .NCHW, dtype := .UNDEFINED } false
    .KernelNotFoundError (by decide) rfl

/-! ## Lemmas on the plan of a call -/

/-- The views over all `n` output pointers are these pointers. -/
theorem viewsOf_range (s n : Nat) : viewsOf n (List.range' s n) = List.range' s n := by
  simp [viewsOf]

/-- Discarding the value of a computation that returns nothing changes nothing. -/
theorem bind_pure_unit (m : Dispatch Unit) (w : World) :
    (m >>= fun _ => pure ()) w = m w := by
  simp only [bind_apply]
  rcases m w with ⟨r, w1⟩
  cases r <;> rfl

/-- The calls of a per-output loop bind no output. -/
theorem boundAddrs_of_late (L : List Event) (hL : ∀ ev ∈ L, ev.step = 5 ∨ ev.step = 6) :
    boundAddrs L = [] := by
  induction L with
  | nil => rfl
  | cons ev L ih =>
    have h1 := hL ev (List.mem_cons_self _ _)
    have h2 := ih (fun e he => hL e (List.mem_cons_of_mem _ he))
    cases ev <;> simp_all [boundAddrs, Event.boundAddrs, Event.step]

/-- The calls of a per-output loop hold no registry lookup. -/
theorem fetchedAfter_of_late (L : List Event) (hL : ∀ ev ∈ L, ev.step = 5 ∨ ev.step = 6) :
    fetchedAfter L = [] := by
  induction L with
  | nil => rfl
  | cons ev L ih =>
    have h1 := hL ev (List.mem_cons_self _ _)
    have h2 := ih (fun e he => hL e (List.mem_cons_of_mem _ he))
    cases ev <;> simp_all [fetchedAfter, Event.found?, Event.step]

/-- The per-output loop of `add_n_grad_impl` makes one round of meta inference and
kernel invocation per output pointer, in the order of the pointers; a loop that raises
has made an initial part of these rounds. -/
theorem add_n_grad_loop_rounds (env : Env) (kernel : Kernel) (ctx : Nat) (p : Option Addr) :
    ∀ (ts : List Addr) (w : World),
      ∃ L, (add_n_grad_loop env kernel ctx p ts w).2.trace = w.trace ++ L ∧
        (∀ ev ∈ L, ev.step = 5 ∨ ev.step = 6) ∧
        steps L <+: inferInvoke ts.length ∧
        ((add_n_grad_loop env kernel ctx p ts w).1 = .ok () →
          steps L = inferInvoke ts.length) ∧
        inferOutputs L <+: ts.map (fun t => [OutArg.ptr (some t)]) ∧
        ((add_n_grad_loop env kernel ctx p ts w).1 = .ok () →
          inferOutputs L = ts.map (fun t => [OutArg.ptr (some t)])) := by
  intro ts
  induction ts with
  | nil =>
    intro w
    exact ⟨[], by simp [add_n_grad_loop, pure_apply], by simp, by simp [steps],
      by simp [steps, inferInvoke], by simp [inferOutputs], by simp [inferOutputs]⟩
  | cons t ts ih =>
    intro w
    cases p with
    | none =>
      exact ⟨[], by simp [add_n_grad_loop, addrOf_bind], by simp, by simp [steps],
        by simp [add_n_grad_loop, addrOf_bind], by simp [inferOutputs],
        by simp [add_n_grad_loop, addrOf_bind]⟩
    | some a =>
      simp only [add_n_grad_loop, addrOf_bind, UnchangedInferMeta_bind, kernel_fn_bind]
      split
      next =>
        exact ⟨[_], rfl, by simp [Event.step], by simp [steps, Event.step, inferInvoke],
          by simp, by simp [inferOutputs, Event.inferOutputs?], by simp⟩
      next ms _ =>
        split
        next =>
          exact ⟨[_, _], List.append_assoc _ _ _, by simp [Event.step],
            by simp [steps, Event.step, inferInvoke], by simp,
            by simp [inferOutputs, Event.inferOutputs?], by simp⟩
        next =>
          obtain ⟨L, hL, hstep, hpre, heq, hopre, hoeq⟩ := ih
            { heap := w.heap.setMetas [t] ms,
              trace := (w.trace ++
                [.InferMeta "UnchangedInferMeta" w.heap [.view a] [] [.ptr (some t)] (some ms)]) ++
                [.KernelFn kernel.fn ctx [.tensor a]
                  [.scalar (.double 4607182418800017408), .float 0, .bool true]
                  [.ptr (some t)] true] }
          refine ⟨.InferMeta "UnchangedInferMeta" w.heap [.view a] [] [.ptr (some t)] (some ms) ::
            .KernelFn kernel.fn ctx [.tensor a]
              [.scalar (.double 4607182418800017408), .float 0, .bool true] [.ptr (some t)] true ::
            L, ?_, ?_, ?_, ?_, ?_, ?_⟩
          · rw [hL]; simp
          · intro ev hev
            simp only [List.mem_cons] at hev
            rcases hev with rfl | rfl | hev
            · simp [Event.step]
            · simp [Event.step]
            · exact hstep ev hev
          · show 5 :: 6 :: steps L <+: 5 :: 6 :: inferInvoke ts.length
            exact (List.prefix_cons_inj _).mpr ((List.prefix_cons_inj _).mpr hpre)
          · intro hok
            show 5 :: 6 :: steps L = 5 :: 6 :: inferInvoke ts.length
            rw [heq hok]
          · simp only [inferOutputs, List.filterMap_cons, Event.inferOutputs?, List.map_cons]
            exact (List.prefix_cons_inj _).mpr hopre
          · intro hok
            simp only [inferOutputs, List.filterMap_cons, Event.inferOutputs?, List.map_cons]
            exact congrArg _ (hoeq hok)

/-! ## Order of the dispatch steps (C1) -/

/-- C1, counterexample: in the convolution scenario the calls of `conv2d_impl` are
not in the order of specification section 4.6: the execution context is fetched
(line 77) before the inputs are prepared (lines 86-87) and before meta inference
(line 93). -/
theorem spec_order_violated :
    ¬ List.Sorted (· ≤ ·) ((Call.trace testEnv convHeap convCall).map Event.specStep) := by
  decide

/-- C1, amended: for every entry point and every input the calls occur in the order:
resolve the kernel key (0), look up the kernel (1), fetch the execution context for the
backend of the looked-up key (2), prepare the inputs (3), bind the outputs (4), run meta
inference (5), invoke the kernel (6).  The first call is a key-resolution call, every
call is directly followed by a call of the same or a later step, a kernel invocation
always comes directly after a meta inference, and outside `add_n_grad_impl` the steps
are sorted.  Every lookup that returns a kernel is directly followed by the fetch of the
execution context for the backend of its key.  The steps of a call are an initial part
of the plan of its entry point, and those of a call that returns are the whole plan: the
key-resolution calls, one lookup, one fetch, the preparations, the output bindings
(none in `momentum_impl`), and one round of meta inference and kernel invocation, in
`add_n_grad_impl` one round per element of `x`.  Outside `momentum_impl` every output
pointer given to a meta inference was returned by an output binding; and a call of
`add_n_grad_impl` that returns has run one meta inference per bound output, in the order
of the outputs. -/
theorem dispatch_order (env : Env) (h : Heap) (c : Call) :
    List.Chain' mayFollow (steps (Call.trace env h c)) ∧
      (steps (Call.trace env h c)).head? = some 0 ∧
      (c.isAddNGrad = true ∨ List.Sorted (· ≤ ·) (steps (Call.trace env h c))) ∧
      (∀ p ∈ fetchedAfter (Call.trace env h c), p.2 = some p.1) ∧
      steps (Call.trace env h c) <+: c.plan ∧
      (Call.result env h c = .ok () → steps (Call.trace env h c) = c.plan) ∧
      (c.isMomentum = true ∨
        ∀ outs ∈ inferOutputs (Call.trace env h c), ∀ a ∈ outAddrs outs,
          a ∈ boundAddrs (Call.trace env h c)) ∧
      (c.isAddNGrad = true → Call.result env h c = .ok () →
        inferOutputs (Call.trace env h c) =
          (boundAddrs (Call.trace env h c)).map (fun a => [OutArg.ptr (some a)])) := by
  cases c
  case add_n_grad x out_grad =>
    simp only [Call.trace, Call.result, Call.exec, Dispatch.discard, run, add_n_grad_impl,
      ParseKernelKeyByInputArgs_bind, GetHighestPriorityKernelKey_bind,
      SelectKernelOrThrowError_bind, GetDeviceContextByBackend_bind, PrepareData_bind,
      SetKernelOutputVector_bind, pure_apply, pure_bind_apply, pure_bind_eq, bind_assoc_apply,
      List.nil_append, List.append_assoc, List.cons_append]
    repeat' split
    · simp only [steps, List.map_cons, List.map_nil, Event.step, Call.isAddNGrad,
        Call.isMomentum]
      refine ⟨chain_of_followCheck _ (by decide), rfl, Or.inl trivial, ?_, ?_, ?_, ?_, ?_⟩
      · simp [fetchedAfter, Event.found?, Event.fetch?]
      · exact ⟨2 :: 3 :: 4 :: inferInvoke x.length, rfl⟩
      · simp
      · simp [inferOutputs, Event.inferOutputs?]
      · simp
    · simp only [steps, List.map_cons, List.map_nil, Event.step, Call.isAddNGrad,
        Call.isMomentum]
      refine ⟨chain_of_followCheck _ (by decide), rfl, Or.inl trivial, ?_, ?_, ?_, ?_, ?_⟩
      · simp [fetchedAfter, Event.found?, Event.fetch?]
      · exact ⟨4 :: inferInvoke x.length, rfl⟩
      · simp
      · simp [inferOutputs, Event.inferOutputs?]
      · simp
    · rename_i kernel _ _ p h1 _
      obtain ⟨L, hL, hstep, hchain, hhead⟩ := add_n_grad_loop_trace env kernel
        (env.GetDeviceContextByBackend (env.GetHighestPriorityKernelKey
          (env.ParseKernelKeyByInputArgs h [.tensor out_grad])).backend) p
        (List.range' h1.length x.length)
        { heap := h1 ++ List.replicate x.length (TensorImpl.output (env.GetHighestPriorityKernelKey
          (env.ParseKernelKeyByInputArgs h [.tensor out_grad])).backend),
          trace := [.ParseKernelKeyByInputArgs [.tensor out_grad]
              (env.ParseKernelKeyByInputArgs h [.tensor out_grad]),
            .GetHighestPriorityKernelKey (env.ParseKernelKeyByInputArgs h [.tensor out_grad])
              (env.GetHighestPriorityKernelKey
                (env.ParseKernelKeyByInputArgs h [.tensor out_grad])),
            .SelectKernelOrThrowError "scale"
              { backend := (env.GetHighestPriorityKernelKey
                  (env.ParseKernelKeyByInputArgs h [.tensor out_grad])).backend,
                layout := (env.GetHighestPriorityKernelKey
                  (env.ParseKernelKeyByInputArgs h [.tensor out_grad])).layout,
                dtype := (env.GetHighestPriorityKernelKey
                  (env.ParseKernelKeyByInputArgs h [.tensor out_grad])).dtype } false
              (some kernel.fn),
            .GetDeviceContextByBackend (env.GetHighestPriorityKernelKey
                (env.ParseKernelKeyByInputArgs h [.tensor out_grad])).backend
              (env.GetDeviceContextByBackend (env.GetHighestPriorityKernelKey
                (env.ParseKernelKeyByInputArgs h [.tensor out_grad])).backend),
            .PrepareData out_grad (kernel.InputAt 0) (some p),
            .SetKernelOutputVector x.length (env.GetHighestPriorityKernelKey
                (env.ParseKernelKeyByInputArgs h [.tensor out_grad])).backend
              (List.range' h1.length x.length)] }
      obtain ⟨L2, hL2, -, hpre, heq, hopre, hoeq⟩ := add_n_grad_loop_rounds env kernel
        (env.GetDeviceContextByBackend (env.GetHighestPriorityKernelKey
          (env.ParseKernelKeyByInputArgs h [.tensor out_grad])).backend) p
        (List.range' h1.length x.length)
        { heap := h1 ++ List.replicate x.length (TensorImpl.output (env.GetHighestPriorityKernelKey
          (env.ParseKernelKeyByInputArgs h [.tensor out_grad])).backend),
          trace := [.ParseKernelKeyByInputArgs [.tensor out_grad]
              (env.ParseKernelKeyByInputArgs h [.tensor out_grad]),
            .GetHighestPriorityKernelKey (env.ParseKernelKeyByInputArgs h [.tensor out_grad])
              (env.GetHighestPriorityKernelKey
                (env.ParseKernelKeyByInputArgs h [.tensor out_grad])),
            .SelectKernelOrThrowError "scale"
              { backend := (env.GetHighestPriorityKernelKey
                  (env.ParseKernelKeyByInputArgs h [.tensor out_grad])).backend,
                layout := (env.GetHighestPriorityKernelKey
                  (env.ParseKernelKeyByInputArgs h [.tensor out_grad])).layout,
                dtype := (env.GetHighestPriorityKernelKey
                  (env.ParseKernelKeyByInputArgs h [.tensor out_grad])).dtype } false
              (some kernel.fn),
            .GetDeviceContextByBackend (env.GetHighestPriorityKernelKey
                (env.ParseKernelKeyByInputArgs h [.tensor out_grad])).backend
              (env.GetDeviceContextByBackend (env.GetHighestPriorityKernelKey
                (env.ParseKernelKeyByInputArgs h [.tensor out_grad])).backend),
            .PrepareData out_grad (kernel.InputAt 0) (some p),
            .SetKernelOutputVector x.length (env.GetHighestPriorityKernelKey
                (env.ParseKernelKeyByInputArgs h [.tensor out_grad])).backend
              (List.range' h1.length x.length)] }
      have hLL : L2 = L := List.append_cancel_left (hL2.symm.trans hL)
      subst hLL
      clear hL
      rw [bind_pure_unit, hL2]
      all_goals
        simp only [steps, List.map_append, List.map_cons, List.map_nil, Event.step,
          Call.isAddNGrad, Call.isMomentum, List.cons_append, List.nil_append, List.head?_cons,
          true_or, true_and, forall_const]
        have hsteps : List.map Event.step L2 = steps L2 := rfl
        rw [hsteps]
        refine ⟨?_, ?_, ?_, ?_, ?_, ?_⟩
        · refine List.Chain'.cons (by decide) (List.Chain'.cons (by decide) (List.Chain'.cons
            (by decide) (List.Chain'.cons (by decide) (List.Chain'.cons (by decide)
            (List.Chain'.cons' hchain ?_)))))
          intro y hy
          have hy5 := hhead y hy
          subst hy5
          decide
        · simp [fetchedAfter, Event.found?, Event.fetch?, fetchedAfter_of_late L2 hstep]
        · show 0 :: 0 :: 1 :: 2 :: 3 :: 4 :: steps L2 <+:
            0 :: 0 :: 1 :: 2 :: 3 :: 4 :: inferInvoke x.length
          have hlen : (List.range' h1.length x.length).length = x.length := List.length_range' _ _ _
          rw [hlen] at hpre
          exact (List.prefix_append_right_inj [0, 0, 1, 2, 3, 4]).mpr hpre
        · intro hok
          show 0 :: 0 :: 1 :: 2 :: 3 :: 4 :: steps L2 =
            0 :: 0 :: 1 :: 2 :: 3 :: 4 :: inferInvoke x.length
          have hlen : (List.range' h1.length x.length).length = x.length := List.length_range' _ _ _
          rw [heq hok, hlen]
        · refine Or.inr ?_
          intro outs houts a ha
          have hmem : outs ∈ inferOutputs L2 := by
            simpa [inferOutputs, Event.inferOutputs?] using houts
          have hmem2 := hopre.subset hmem
          simp only [List.mem_map] at hmem2
          obtain ⟨t, ht, rfl⟩ := hmem2
          simp only [outAddrs, OutArg.addrs, List.append_nil, List.mem_singleton] at ha
          subst ha
          simp [boundAddrs, Event.boundAddrs, boundAddrs_of_late L2 hstep, ht]
        · intro hok
          have hio : inferOutputs
              (Event.ParseKernelKeyByInputArgs [KeyArg.tensor out_grad]
                  (env.ParseKernelKeyByInputArgs h [KeyArg.tensor out_grad]) ::
                Event.GetHighestPriorityKernelKey
                    (env.ParseKernelKeyByInputArgs h [KeyArg.tensor out_grad])
                    (env.GetHighestPriorityKernelKey
                      (env.ParseKernelKeyByInputArgs h [KeyArg.tensor out_grad])) ::
                Event.SelectKernelOrThrowError "scale"
                    { backend := (env.GetHighestPriorityKernelKey
                        (env.ParseKernelKeyByInputArgs h [KeyArg.tensor out_grad])).backend,
                      layout := (env.GetHighestPriorityKernelKey
                        (env.ParseKernelKeyByInputArgs h [KeyArg.tensor out_grad])).layout,
                      dtype := (env.GetHighestPriorityKernelKey
                        (env.ParseKernelKeyByInputArgs h [KeyArg.tensor out_grad])).dtype }
                    false (some kernel.fn) ::
                Event.GetDeviceContextByBackend
                    (env.GetHighestPriorityKernelKey
                      (env.ParseKernelKeyByInputArgs h [KeyArg.tensor out_grad])).backend
                    (env.GetDeviceContextByBackend (env.GetHighestPriorityKernelKey
                      (env.ParseKernelKeyByInputArgs h [KeyArg.tensor out_grad])).backend) ::
                Event.PrepareData out_grad (kernel.InputAt 0) (some p) ::
                Event.SetKernelOutputVector x.length
                    (env.GetHighestPriorityKernelKey
                      (env.ParseKernelKeyByInputArgs h [KeyArg.tensor out_grad])).backend
                    (List.range' h1.length x.length) :: L2) = inferOutputs L2 := by
            simp [inferOutputs, Event.inferOutputs?]
          rw [hio, hoeq hok]
          simp [boundAddrs, Event.boundAddrs, boundAddrs_of_late L2 hstep]
  all_goals
    simp only [Call.trace, Call.result, Call.exec, Dispatch.discard, run, conv2d_impl,
      conv2d_grad_impl,
      copy_to_impl, split_impl, momentum_impl, batch_norm_impl, concat_grad_impl,
      imag_grad_impl, real_grad_impl,
      stack_grad_impl, meshgrid_impl, meshgrid_grad_impl, Tensor.empty,
      ParseDataType_bind, ParseBackend_bind, ParseKernelKeyByInputArgs_bind,
      GetHighestPriorityKernelKey_bind, SelectKernelOrThrowError_bind,
      GetDeviceContextByBackend_bind, PrepareData_bind, PrepareDataOptional_bind,
      PrepareDataVector_bind,
      TensorToDenseTensor_bind, SetKernelOutput_bind, SetKernelOutputVector_bind, addrOf_bind,
      deref_bind, InferMeta_bind, kernel_fn_bind, UnchangedInferMeta_bind,
      UnchangedMultiInferMeta_bind, pure_apply, pure_bind_apply, bind_assoc_apply,
      ite_isSome_bind, ite_isSome_self, ite_bind_apply, true_or, if_true, List.nil_append,
      List.append_assoc, List.cons_append]
    repeat' split
    all_goals
      simp only [steps, List.map_cons, List.map_nil, Event.step, Call.isAddNGrad,
        Call.isMomentum]
      refine ⟨chain_of_followCheck _ (by decide), rfl, Or.inr (by decide), ?_, ?_, ?_, ?_, ?_⟩
      · simp [fetchedAfter, Event.found?, Event.fetch?]
      · simp only [Call.plan, Call.keySteps, Call.prepareSteps, Call.rounds,
          Call.outputCounts, List.length_cons, List.length_nil, List.replicate, inferInvoke]
        decide
      · simp [Call.plan, Call.keySteps, Call.prepareSteps, Call.rounds,
          Call.outputCounts, List.replicate, inferInvoke]
      · simp [inferOutputs, Event.inferOutputs?, outAddrs, OutArg.addrs, boundAddrs,
          Event.boundAddrs, viewsOf_range]
      · simp

/-- Witness of C1: the convolution scenario returns after the steps key resolution
(three calls), lookup, fetch, two preparations, one binding, meta inference, kernel; its
fetch is for the backend of the looked-up key; `add_n_grad_impl` on two tensors makes
two rounds of meta inference and kernel invocation. -/
theorem dispatch_order_witness :
    Call.result testEnv convHeap convCall = .ok () ∧
    steps (Call.trace testEnv convHeap convCall) = [0, 0, 0, 1, 2, 3, 3, 4, 5, 6] ∧
    fetchedAfter (Call.trace testEnv convHeap convCall) = [(.CPU, some .CPU)] ∧
    steps (Call.trace testEnv gridHeap (.add_n_grad [tensorAt 0, tensorAt 1] (tensorAt 1))) =
      [0, 0, 1, 2, 3, 4, 5, 6, 5, 6] :=
  ⟨rfl, (dispatch_order testEnv convHeap convCall).2.2.2.2.2.1 rfl, by decide,
    (dispatch_order testEnv gridHeap
      (.add_n_grad [tensorAt 0, tensorAt 1] (tensorAt 1))).2.2.2.2.2.1 rfl⟩

/-! ## Output counts of `split_impl` (C8, C9) -/

/-- C8: in `split_impl`, for `num_or_sections` holding the single value `k` with
`1 ≤ k` (a signed 64-bit value, so `k < 2^63`): every output binding binds `k` tensors,
every meta-inference call is given `k` output views and every kernel invocation `k`
output pointers; and a call that returns has bound `k` tensors, passed `k` views to
`SplitInferMeta` and `k` pointers to the kernel, and returns `k` tensors. -/
theorem split_count_form (env : Env) (h : Heap) (x : Tensor) (k : Int) (axis : Scalar)
    (hk1 : 1 ≤ k) (hk2 : k < 2 ^ 63) :
    (∀ n ∈ boundCounts (run (split_impl env x { GetData := [k] } axis) h).2.trace ++
        inferCounts (run (split_impl env x { GetData := [k] } axis) h).2.trace ++
        kernelCounts (run (split_impl env x { GetData := [k] } axis) h).2.trace,
      n = k.toNat) ∧
    ∀ out, (run (split_impl env x { GetData := [k] } axis) h).1 = .ok out →
      out.length = k.toNat ∧
      boundCounts (run (split_impl env x { GetData := [k] } axis) h).2.trace = [k.toNat] ∧
      inferCounts (run (split_impl env x { GetData := [k] } axis) h).2.trace = [k.toNat] ∧
      kernelCounts (run (split_impl env x { GetData := [k] } axis) h).2.trace = [k.toNat] := by
  have hsz : to_size_t k = k.toNat := to_size_t_of_nonneg k (by omega) (by omega)
  simp only [run, split_impl, ParseKernelKeyByInputArgs_bind,
    GetHighestPriorityKernelKey_bind, SelectKernelOrThrowError_bind,
    GetDeviceContextByBackend_bind, PrepareData_bind, SetKernelOutputVector_bind, addrOf_bind,
    InferMeta_bind, kernel_fn_bind, pure_apply, pure_bind_apply, bind_assoc_apply,
    List.nil_append, List.append_assoc, List.cons_append, List.length_singleton, if_true,
    List.headD_cons, hsz, viewsOf]
  repeat' split
  all_goals
    simp [boundCounts, inferCounts, kernelCounts, Event.boundCount?, Event.inferCount?,
      Event.kernelCount?, outAddrs, OutArg.addrs]

/-- Witness of C8: a tensor of shape `[10]` with `num_or_sections = [3]` gives 3
outputs. -/
theorem split_count_form_witness :
    ∃ out, (run (split_impl testEnv (tensorAt 0) { GetData := [3] } (.int 0)) vecHeap).1 = .ok out ∧
      out.length = 3 ∧
      boundCounts (run (split_impl testEnv (tensorAt 0) { GetData := [3] } (.int 0))
        vecHeap).2.trace = [3] ∧
      inferCounts (run (split_impl testEnv (tensorAt 0) { GetData := [3] } (.int 0))
        vecHeap).2.trace = [3] ∧
      kernelCounts (run (split_impl testEnv (tensorAt 0) { GetData := [3] } (.int 0))
        vecHeap).2.trace = [3] :=
  ⟨[tensorAt 1, tensorAt 2, tensorAt 3], rfl,
    (split_count_form testEnv vecHeap (tensorAt 0) 3 (.int 0) (by decide) (by decide)).2
      [tensorAt 1, tensorAt 2, tensorAt 3] rfl⟩

/-- C9, counterexample: on a tensor of shape `[10]` the one-element section list
`[10]` (one section covering the whole dimension) is read as a count: the call returns
10 tensors, not one per section. -/
theorem single_section_read_as_count :
    (run (split_impl testEnv (tensorAt 0) { GetData := [10] } (.int 0))
        vecHeap).1.toOption.map List.length = some 10 ∧
      ¬ ((run (split_impl testEnv (tensorAt 0) { GetData := [10] } (.int 0))
        vecHeap).1.toOption.map List.length = some ([10] : List Int).length) := by
  decide

/-- C9, amended: in `split_impl`, for every section list with at least two entries
(whatever their sum), the number of output tensors bound, of output views given to
`SplitInferMeta`, of output pointers given to the kernel and of tensors returned is the
number of sections.  (A one-element list is read as a count, see C8.) -/
theorem split_sections_form (env : Env) (h : Heap) (x : Tensor) (sections : List Int)
    (axis : Scalar) (hn : 2 ≤ sections.length) :
    (∀ n ∈ boundCounts (run (split_impl env x { GetData := sections } axis) h).2.trace ++
        inferCounts (run (split_impl env x { GetData := sections } axis) h).2.trace ++
        kernelCounts (run (split_impl env x { GetData := sections } axis) h).2.trace,
      n = sections.length) ∧
    ∀ out, (run (split_impl env x { GetData := sections } axis) h).1 = .ok out →
      out.length = sections.length ∧
      boundCounts (run (split_impl env x { GetData := sections } axis) h).2.trace =
        [sections.length] ∧
      inferCounts (run (split_impl env x { GetData := sections } axis) h).2.trace =
        [sections.length] ∧
      kernelCounts (run (split_impl env x { GetData := sections } axis) h).2.trace =
        [sections.length] := by
  have hne : ¬ sections.length = 1 := by omega
  simp only [run, split_impl, ParseKernelKeyByInputArgs_bind,
    GetHighestPriorityKernelKey_bind, SelectKernelOrThrowError_bind,
    GetDeviceContextByBackend_bind, PrepareData_bind, SetKernelOutputVector_bind, addrOf_bind,
    InferMeta_bind, kernel_fn_bind, pure_apply, pure_bind_apply, bind_assoc_apply,
    List.nil_append, List.append_assoc, List.cons_append, hne, if_false, viewsOf]
  repeat' split
  all_goals
    simp [boundCounts, inferCounts, kernelCounts, Event.boundCount?, Event.inferCount?,
      Event.kernelCount?, outAddrs, OutArg.addrs]

/-- Witness of C9 (amended): sections `[3, 7]` of a tensor of shape `[10]` give 2
outputs. -/
theorem split_sections_form_witness :
    ∃ out, (run (split_impl testEnv (tensorAt 0) { GetData := [3, 7] } (.int 0)) vecHeap).1 =
        .ok out ∧
      out.length = 2 ∧
      boundCounts (run (split_impl testEnv (tensorAt 0) { GetData := [3, 7] } (.int 0))
        vecHeap).2.trace = [2] ∧
      inferCounts (run (split_impl testEnv (tensorAt 0) { GetData := [3, 7] } (.int 0))
        vecHeap).2.trace = [2] ∧
      kernelCounts (run (split_impl testEnv (tensorAt 0) { GetData := [3, 7] } (.int 0))
        vecHeap).2.trace = [2] :=
  ⟨[tensorAt 1, tensorAt 2], rfl,
    (split_sections_form testEnv vecHeap (tensorAt 0) [3, 7] (.int 0) (by decide)).2
      [tensorAt 1, tensorAt 2] rfl⟩


/-! ## The optional master parameter of `momentum_impl` (C10) -/

/-- C10: in `momentum_impl`, with `p` the pointer the Data Preparer returned for the
optional `master_param`: the third output pointer given to `MomentumInferMeta` and the
one given to the kernel are both `p`, the optional master-parameter argument of the
kernel is `p`, and the one of `MomentumInferMeta` is `none` when `p` is null and
otherwise a meta tensor carrying the metadata of the prepared tensor `p` points to.
The case distinction is on the presence of `p` alone.  A call that returns has made
both calls. -/
theorem momentum_master_param (env : Env) (h : Heap)
    (param grad velocity learning_rate : Tensor) (master_param : Option Tensor) (mu : Nat)
    (use_nesterov : Bool) (regularization_method : String) (regularization_coeff : Nat)
    (multi_precision : Bool) (rescale_grad : Nat) (p : Option Addr)
    (hp : p ∈ preparedOptional (run (momentum_impl env param grad velocity learning_rate
      master_param mu use_nesterov regularization_method regularization_coeff
      multi_precision rescale_grad) h).2.trace) :
    (∀ x ∈ inferMasters (run (momentum_impl env param grad velocity learning_rate
        master_param mu use_nesterov regularization_method regularization_coeff
        multi_precision rescale_grad) h).2.trace,
      x.2.2 = some (.ptr p) ∧ (p = none → x.2.1 = some MetaArg.none) ∧
      ∀ a, p = some a → ∃ obj, x.1[a]? = some obj ∧ x.2.1 = some (.loc obj.meta)) ∧
    (∀ y ∈ kernelMasters (run (momentum_impl env param grad velocity learning_rate
        master_param mu use_nesterov regularization_method regularization_coeff
        multi_precision rescale_grad) h).2.trace,
      y = (some (.optional p), some (.ptr p))) ∧
    ∀ out, (run (momentum_impl env param grad velocity learning_rate
        master_param mu use_nesterov regularization_method regularization_coeff
        multi_precision rescale_grad) h).1 = .ok out →
      inferMasters (run (momentum_impl env param grad velocity learning_rate
        master_param mu use_nesterov regularization_method regularization_coeff
        multi_precision rescale_grad) h).2.trace ≠ [] ∧
      kernelMasters (run (momentum_impl env param grad velocity learning_rate
        master_param mu use_nesterov regularization_method regularization_coeff
        multi_precision rescale_grad) h).2.trace ≠ [] := by
  revert hp
  simp only [run, momentum_impl,
      Tensor.empty, ParseKernelKeyByInputArgs_bind, GetHighestPriorityKernelKey_bind,
      deref_bind, SelectKernelOrThrowError_bind, GetDeviceContextByBackend_bind,
      PrepareData_bind, PrepareDataOptional_bind, addrOf_bind, InferMeta_bind, kernel_fn_bind,
      pure_apply, pure_bind_apply, bind_assoc_apply, ite_isSome_bind, ite_isSome_apply,
      ite_isSome_self, true_or, if_true, List.nil_append, List.append_assoc,
      List.cons_append]
  repeat' split
  all_goals
    intro hp
    simp only [preparedOptional, List.filterMap_cons, List.filterMap_nil,
      Event.preparedOptional?, List.mem_singleton, List.not_mem_nil] at hp
  all_goals
    subst hp
    simp_all [inferMasters, kernelMasters, Event.inferMaster?, Event.kernelMaster?]

/-- Witness of C10: a master parameter of zero size is present: all four arguments
are present. -/
theorem momentum_master_param_witness :
    some 4 ∈ preparedOptional momentumMasterRun.2.trace ∧
    (∀ x ∈ inferMasters momentumMasterRun.2.trace,
      x.2.2 = some (.ptr (some 4)) ∧ ((some 4 : Option Addr) = none → x.2.1 = some MetaArg.none) ∧
      ∀ a, some 4 = some a → ∃ obj, x.1[a]? = some obj ∧ x.2.1 = some (.loc obj.meta)) ∧
    (∀ y ∈ kernelMasters momentumMasterRun.2.trace,
      y = (some (.optional (some 4)), some (.ptr (some 4)))) ∧
    ∀ out, momentumMasterRun.1 = .ok out →
      inferMasters momentumMasterRun.2.trace ≠ [] ∧
      kernelMasters momentumMasterRun.2.trace ≠ [] :=
  ⟨by decide,
    momentum_master_param testEnv momentumHeap (tensorAt 0) (tensorAt 1) (tensorAt 2)
      (tensorAt 3) (some (tensorAt 4)) 0 false "" 0 true 0 (some 4) (by decide)⟩

/-! ## Further lemmas -/

theorem backendsUsed_append (a b : List Event) :
    backendsUsed (a ++ b) = backendsUsed a ++ backendsUsed b :=
  List.filterMap_append _ _ _

theorem backendsUsed_of_late (L : List Event) (hL : ∀ ev ∈ L, ev.step = 5 ∨ ev.step = 6) :
    backendsUsed L = [] :=
  filterMap_late _ (fun ev h => by cases ev <;> first | rfl | (simp [Event.step] at h)) L hL

theorem all_eq_replicate {α : Type} (b : α) (n : Nat) :
    ∀ b1 ∈ List.replicate n b, ∀ b2 ∈ List.replicate n b, b1 = b2 := by
  intro b1 h1 b2 h2
  rw [List.eq_of_mem_replicate h1, List.eq_of_mem_replicate h2]

theorem inferOutputs_append (a b : List Event) :
    inferOutputs (a ++ b) = inferOutputs a ++ inferOutputs b :=
  List.filterMap_append _ _ _

theorem kernelOutputs_append (a b : List Event) :
    kernelOutputs (a ++ b) = kernelOutputs a ++ kernelOutputs b :=
  List.filterMap_append _ _ _

theorem kernelInputs_append (a b : List Event) :
    kernelInputs (a ++ b) = kernelInputs a ++ kernelInputs b :=
  List.filterMap_append _ _ _

/-- The per-output loop of `add_n_grad_impl`: every kernel invocation is given the
prepared `out_grad` as its one input and the output pointer the meta inference directly
before it was given as its view. -/
theorem add_n_grad_loop_args (env : Env) (kernel : Kernel) (ctx : Nat) (p : Option Addr) :
    ∀ (ts : List Addr) (w : World),
      ∃ L, (add_n_grad_loop env kernel ctx p ts w).2.trace = w.trace ++ L ∧
        (∀ ev ∈ L, ev.step = 5 ∨ ev.step = 6) ∧
        kernelOutputs L <+: inferOutputs L ∧
        ((add_n_grad_loop env kernel ctx p ts w).1 = .ok () →
          kernelOutputs L = inferOutputs L) ∧
        ∀ ins ∈ kernelInputs L, ∃ a, p = some a ∧ ins = [.tensor a] := by
  intro ts
  induction ts with
  | nil =>
    intro w
    exact ⟨[], by simp [add_n_grad_loop, pure_apply], by simp, by simp [kernelOutputs],
      by simp [kernelOutputs, inferOutputs], by simp [kernelInputs]⟩
  | cons t ts ih =>
    intro w
    cases p with
    | none =>
      exact ⟨[], by simp [add_n_grad_loop, addrOf_bind], by simp, by simp [kernelOutputs],
        by simp [kernelOutputs, inferOutputs], by simp [kernelInputs]⟩
    | some a =>
      simp only [add_n_grad_loop, addrOf_bind, UnchangedInferMeta_bind, kernel_fn_bind]
      split
      next =>
        exact ⟨[_], rfl, by simp [Event.step], by simp [kernelOutputs, Event.kernelOutputs?],
          by simp, by simp [kernelInputs, Event.kernelInputs?]⟩
      next ms _ =>
        split
        next =>
          exact ⟨[_, _], List.append_assoc _ _ _, by simp [Event.step],
            by simp [kernelOutputs, Event.kernelOutputs?, inferOutputs, Event.inferOutputs?],
            by simp,
            by simp [kernelInputs, Event.kernelInputs?]⟩
        next =>
          obtain ⟨L, hL, hstep, hpre, heq, hin⟩ := ih
            { heap := w.heap.setMetas [t] ms,
              trace := (w.trace ++
                [.InferMeta "UnchangedInferMeta" w.heap [.view a] [] [.ptr (some t)] (some ms)]) ++
                [.KernelFn kernel.fn ctx [.tensor a]
                  [.scalar (.double 4607182418800017408), .float 0, .bool true]
                  [.ptr (some t)] true] }
          refine ⟨.InferMeta "UnchangedInferMeta" w.heap [.view a] [] [.ptr (some t)] (some ms) ::
            .KernelFn kernel.fn ctx [.tensor a]
              [.scalar (.double 4607182418800017408), .float 0, .bool true] [.ptr (some t)] true ::
            L, ?_, ?_, ?_, ?_, ?_⟩
          · rw [hL]; simp
          · intro ev hev
            simp only [List.mem_cons] at hev
            rcases hev with rfl | rfl | hev
            · simp [Event.step]
            · simp [Event.step]
            · exact hstep ev hev
          · simp only [kernelOutputs, inferOutputs, List.filterMap_cons, Event.kernelOutputs?,
              Event.inferOutputs?]
            exact (List.prefix_cons_inj _).mpr hpre
          · intro hok
            simp only [kernelOutputs, inferOutputs, List.filterMap_cons, Event.kernelOutputs?,
              Event.inferOutputs?]
            exact congrArg _ (heq hok)
          · intro ins hins
            simp only [kernelInputs, List.filterMap_cons, Event.kernelInputs?,
              List.mem_cons] at hins
            rcases hins with rfl | hins
            · exact ⟨a, rfl, rfl⟩
            · exact hin ins hins

/-- The descriptor `conv2d_impl` prepares an input against: the registered one with
its backend set to `GPU` when the resolved backend is `GPU`. -/
theorem gpu_descriptor (kb : Backend) (r d : TensorArgDef)
    (hd : (if kb = Backend.GPU then { r with backend := Backend.GPU } else r) = d) :
    (kb = .GPU → d.backend = .GPU ∧ d.layout = r.layout ∧ d.dtype = r.dtype) ∧
      (kb ≠ .GPU → d = r) := by
  subst hd
  constructor
  · intro hg
    simp [hg]
  · intro hg
    simp [hg]

theorem forallFrom_getElem? {α : Type} (R : Nat → α → Prop) :
    ∀ (L : List α) (s : Nat), forallFrom R s L → ∀ i d, L[i]? = some d → R (s + i) d
  | [], _, _, i, d, hi => by simp at hi
  | x :: L, s, hL, 0, d, hi => by
    simp only [List.getElem?_cons_zero, Option.some.injEq] at hi
    subst hi
    exact hL.1
  | x :: L, s, hL, i + 1, d, hi => by
    simp only [List.getElem?_cons_succ] at hi
    have := forallFrom_getElem? R L (s + 1) hL.2 i d hi
    have he : s + 1 + i = s + (i + 1) := by omega
    rwa [he] at this

theorem forall_of_from {α : Type} (R : Nat → α → Prop) (L : List α)
    (hL : forallFrom R 0 L) : ∀ i d, L[i]? = some d → R i d := by
  intro i d hi
  have := forallFrom_getElem? R L 0 hL i d hi
  rwa [Nat.zero_add] at this

theorem preparedArgs_append (a b : List Event) :
    preparedArgs (a ++ b) = preparedArgs a ++ preparedArgs b :=
  List.filterMap_append _ _ _

theorem preparedArgs_of_late (L : List Event) (hL : ∀ ev ∈ L, ev.step = 5 ∨ ev.step = 6) :
    preparedArgs L = [] :=
  filterMap_late _ (fun ev h => by cases ev <;> first | rfl | (simp [Event.step] at h)) L hL

theorem prepareTargets_append (a b : List Event) :
    prepareTargets (a ++ b) = prepareTargets a ++ prepareTargets b :=
  List.filterMap_append _ _ _

theorem prepareTargets_of_late (L : List Event) (hL : ∀ ev ∈ L, ev.step = 5 ∨ ev.step = 6) :
    prepareTargets L = [] :=
  filterMap_late _ (fun ev h => by cases ev <;> first | rfl | (simp [Event.step] at h)) L hL

theorem gpu_override (kb : Backend) (r d : TensorArgDef)
    (hd : (if kb = Backend.GPU then { r with backend := Backend.GPU } else r) = d) :
    d = r ∨ (kb = .GPU ∧ d = { r with backend := .GPU }) := by
  subst hd
  by_cases hg : kb = .GPU
  · exact Or.inr ⟨hg, by simp [hg]⟩
  · exact Or.inl (by simp [hg])

theorem failedInfers_append (a b : List Event) :
    failedInfers (a ++ b) = failedInfers a ++ failedInfers b :=
  List.filterMap_append _ _ _

theorem kernelCounts_append (a b : List Event) :
    kernelCounts (a ++ b) = kernelCounts a ++ kernelCounts b :=
  List.filterMap_append _ _ _

theorem boundCounts_append (a b : List Event) :
    boundCounts (a ++ b) = boundCounts a ++ boundCounts b :=
  List.filterMap_append _ _ _

theorem boundCounts_of_late (L : List Event) (hL : ∀ ev ∈ L, ev.step = 5 ∨ ev.step = 6) :
    boundCounts L = [] :=
  filterMap_late _ (fun ev h => by cases ev <;> first | rfl | (simp [Event.step] at h)) L hL

theorem metas_setMeta_isSome (h : Heap) (a t : Addr) (m : DenseTensorMeta)
    (hs : h.metas [a] ≠ none) : (h.setMetas [t] [m]).metas [a] ≠ none := by
  simp only [Heap.metas, Heap.setMetas, Heap.setMeta, List.getElem?_modify] at hs ⊢
  cases hq : h[a]? with
  | none => simp [hq] at hs
  | some obj => simp

theorem metas_singleton_length (h : Heap) (a : Addr) (ms : List DenseTensorMeta)
    (hm : h.metas [a] = some ms) : ∃ m, ms = [m] := by
  simp only [Heap.metas] at hm
  cases hq : h[a]? with
  | none => simp [hq] at hm
  | some obj =>
    simp only [hq, Option.some.injEq] at hm
    exact ⟨obj.meta, hm.symm⟩

/-- The per-output loop of `add_n_grad_impl`: a meta inference that raises is the
first call of the loop and the last of the trace: when the prepared `out_grad` is
readable the "unchanged" inference never raises. -/
theorem add_n_grad_loop_failure (env : Env) (kernel : Kernel) (ctx : Nat) (p : Option Addr) :
    ∀ (ts : List Addr) (w : World),
      ∃ L, (add_n_grad_loop env kernel ctx p ts w).2.trace = w.trace ++ L ∧
        (∀ ev ∈ L, ev.step = 5 ∨ ev.step = 6) ∧
        ((∀ a, p = some a → w.heap.metas [a] ≠ none) → failedInfers L = []) ∧
        (failedInfers L ≠ [] →
          (∃ e, (add_n_grad_loop env kernel ctx p ts w).1 = .error e) ∧ kernelCounts L = [] ∧
            ∃ fn, L.getLast?.bind Event.failedInfer? = some fn) := by
  intro ts
  induction ts with
  | nil =>
    intro w
    exact ⟨[], by simp [add_n_grad_loop, pure_apply], by simp, by simp [failedInfers],
      by simp [failedInfers]⟩
  | cons t ts ih =>
    intro w
    cases p with
    | none =>
      exact ⟨[], by simp [add_n_grad_loop, addrOf_bind], by simp, by simp [failedInfers],
        by simp [failedInfers]⟩
    | some a =>
      simp only [add_n_grad_loop, addrOf_bind, UnchangedInferMeta_bind, kernel_fn_bind]
      split
      next hnone =>
        refine ⟨[_], rfl, by simp [Event.step], ?_, ?_⟩
        · intro hv
          exact absurd hnone (hv a rfl)
        · intro _
          exact ⟨⟨_, rfl⟩, by simp [kernelCounts, Event.kernelCount?],
            by simp [Event.failedInfer?]⟩
      next ms hms =>
        split
        next =>
          exact ⟨[_, _], List.append_assoc _ _ _, by simp [Event.step],
            by simp [failedInfers, Event.failedInfer?],
            by simp [failedInfers, Event.failedInfer?]⟩
        next =>
          obtain ⟨L, hL, hstep, hvalid, -⟩ := ih
            { heap := w.heap.setMetas [t] ms,
              trace := (w.trace ++
                [.InferMeta "UnchangedInferMeta" w.heap [.view a] [] [.ptr (some t)] (some ms)]) ++
                [.KernelFn kernel.fn ctx [.tensor a]
                  [.scalar (.double 4607182418800017408), .float 0, .bool true]
                  [.ptr (some t)] true] }
          have hnil : failedInfers L = [] := by
            apply hvalid
            intro a0 ha0
            cases ha0
            obtain ⟨m, rfl⟩ := metas_singleton_length _ _ _ hms
            exact metas_setMeta_isSome _ _ _ _ (by rw [hms]; simp)
          refine ⟨.InferMeta "UnchangedInferMeta" w.heap [.view a] [] [.ptr (some t)] (some ms) ::
            .KernelFn kernel.fn ctx [.tensor a]
              [.scalar (.double 4607182418800017408), .float 0, .bool true] [.ptr (some t)] true ::
            L, ?_, ?_, ?_, ?_⟩
          · rw [hL]; simp
          · intro ev hev
            simp only [List.mem_cons] at hev
            rcases hev with rfl | rfl | hev
            · simp [Event.step]
            · simp [Event.step]
            · exact hstep ev hev
          · intro _
            simpa [failedInfers, Event.failedInfer?] using hnil
          · intro hne
            exfalso
            apply hne
            simpa [failedInfers, Event.failedInfer?] using hnil

theorem obj?_eq_bind (h : Heap) (t : Tensor) : h.obj? t = t.impl.bind fun a => h[a]? := by
  unfold Heap.obj?
  cases t.impl <;> rfl

/-- The lookups of a call are those `Call.lookupOf` gives. -/
theorem lookups_eq_lookupOf (env : Env) (h : Heap) (c : Call) :
    lookups (Call.trace env h c) = c.lookupOf env h := by
  cases c
  case add_n_grad x out_grad =>
    simp only [Call.trace, Call.exec, Dispatch.discard, run, add_n_grad_impl,
      ParseKernelKeyByInputArgs_bind, GetHighestPriorityKernelKey_bind,
      SelectKernelOrThrowError_bind, GetDeviceContextByBackend_bind, PrepareData_bind,
      SetKernelOutputVector_bind, pure_apply, pure_bind_apply, pure_bind_eq, bind_assoc_apply,
      List.nil_append, List.append_assoc, List.cons_append, Call.lookupOf]
    repeat' split
    · simp [lookups, Event.lookup?]
    · simp [lookups, Event.lookup?]
    · rw [bind_pure_snd]
      rename_i kernel _ _ p h1 _
      obtain ⟨L, hL, hstep, -, -⟩ := add_n_grad_loop_trace env kernel
        (env.GetDeviceContextByBackend (env.GetHighestPriorityKernelKey
          (env.ParseKernelKeyByInputArgs h [.tensor out_grad])).backend) p
        (List.range' h1.length x.length)
        { heap := h1 ++ List.replicate x.length (TensorImpl.output (env.GetHighestPriorityKernelKey
          (env.ParseKernelKeyByInputArgs h [.tensor out_grad])).backend), trace := _ }
      rw [hL, lookups_append, lookups_of_late L hstep]
      simp [lookups, Event.lookup?]
  all_goals
    simp only [Call.trace, Call.exec, Dispatch.discard, run, conv2d_impl, conv2d_grad_impl,
      copy_to_impl, split_impl, momentum_impl, batch_norm_impl, concat_grad_impl,
      imag_grad_impl, real_grad_impl,
      stack_grad_impl, meshgrid_impl, meshgrid_grad_impl, Tensor.empty,
      ParseDataType_bind, ParseBackend_bind, ParseKernelKeyByInputArgs_bind,
      GetHighestPriorityKernelKey_bind, SelectKernelOrThrowError_bind,
      GetDeviceContextByBackend_bind, PrepareData_bind, PrepareDataOptional_bind,
      PrepareDataVector_bind,
      TensorToDenseTensor_bind, SetKernelOutput_bind, SetKernelOutputVector_bind, addrOf_bind,
      deref_bind, InferMeta_bind, kernel_fn_bind, UnchangedInferMeta_bind,
      UnchangedMultiInferMeta_bind, pure_apply, pure_bind_apply, bind_assoc_apply,
      ite_isSome_bind, ite_isSome_self, ite_bind_apply, true_or, if_true, List.nil_append,
      List.append_assoc, List.cons_append, Call.lookupOf, pinnedKey, obj?_eq_bind]
    repeat' split
    all_goals rfl

theorem metas_singleton (h : Heap) (a : Addr) (ms : List DenseTensorMeta)
    (hm : h.metas [a] = some ms) : ∃ obj, h[a]? = some obj ∧ ms = [obj.meta] := by
  simp only [Heap.metas] at hm
  cases hq : h[a]? with
  | none => simp [hq] at hm
  | some obj =>
    simp only [hq, Option.some.injEq] at hm
    exact ⟨obj, rfl, hm.symm⟩

theorem setMeta_getElem? (h : Heap) (t b : Addr) (m : DenseTensorMeta) :
    (h.setMeta t m)[b]? =
      (h[b]?).map (fun o => if t = b then { o with meta := m } else o) := by
  simp only [Heap.setMeta, List.getElem?_modify]
  rfl

theorem setMeta_length (h : Heap) (t : Addr) (m : DenseTensorMeta) :
    (h.setMeta t m).length = h.length := by
  simp [Heap.setMeta]

theorem setMetas_length : ∀ (ts : List Addr) (ms : List DenseTensorMeta) (h : Heap),
    (h.setMetas ts ms).length = h.length
  | [], _, _ => by simp [Heap.setMetas]
  | _ :: _, [], _ => by simp [Heap.setMetas]
  | t :: ts, m :: ms, h => by
    simp only [Heap.setMetas]
    rw [setMetas_length ts ms, setMeta_length]

theorem setMetas_frame : ∀ (ts : List Addr) (ms : List DenseTensorMeta) (h : Heap) (b : Addr),
    b ∉ ts → (h.setMetas ts ms)[b]? = h[b]?
  | [], _, _, _, _ => by simp [Heap.setMetas]
  | _ :: _, [], _, _, _ => by simp [Heap.setMetas]
  | t :: ts, m :: ms, h, b, hb => by
    simp only [List.mem_cons, not_or] at hb
    simp only [Heap.setMetas]
    rw [setMetas_frame ts ms _ b hb.2, setMeta_getElem?]
    have hne : ¬ t = b := fun e => hb.1 e.symm
    simp [hne]

theorem setMetas_range : ∀ (n s : Nat) (ms : List DenseTensorMeta) (h : Heap),
    ms.length = n → s + n ≤ h.length →
      ∀ i m, ms[i]? = some m →
        ∃ o, h[s + i]? = some o ∧
          (h.setMetas (List.range' s n) ms)[s + i]? = some { o with meta := m }
  | 0, _, ms, _, hl, _, i, m, hi => by
    have : ms = [] := List.length_eq_zero.mp hl
    subst this
    simp at hi
  | n + 1, s, [], _, hl, _, _, _, _ => by simp at hl
  | n + 1, s, m0 :: ms, h, hl, hs, 0, m, hi => by
    simp only [List.getElem?_cons_zero, Option.some.injEq] at hi
    subst hi
    have hlt : s < h.length := by omega
    refine ⟨h[s], by simp [List.getElem?_eq_getElem hlt], ?_⟩
    simp only [List.range'_succ, Heap.setMetas, Nat.add_zero]
    rw [setMetas_frame _ _ _ s (by simp [List.mem_range'_1]), setMeta_getElem?]
    simp [List.getElem?_eq_getElem hlt]
  | n + 1, s, m0 :: ms, h, hl, hs, i + 1, m, hi => by
    simp only [List.getElem?_cons_succ] at hi
    simp only [List.length_cons, Nat.add_right_cancel_iff] at hl
    obtain ⟨o, ho, hres⟩ := setMetas_range n (s + 1) ms (h.setMeta s m0) hl
      (by rw [setMeta_length]; omega) i m hi
    have he : s + 1 + i = s + (i + 1) := by omega
    rw [he] at ho hres
    rw [setMeta_getElem?] at ho
    have hne : ¬ s = s + (i + 1) := by omega
    refine ⟨o, ?_, ?_⟩
    · cases hq : h[s + (i + 1)]? with
      | none => simp [hq] at ho
      | some o' => simpa [hq, hne] using ho
    · simpa only [List.range'_succ, Heap.setMetas] using hres

theorem metas_spec : ∀ (as : List Addr) (ms : List DenseTensorMeta) (h : Heap),
    h.metas as = some ms →
      ms.length = as.length ∧
        ∀ (i : Nat) (d : Addr), as[i]? = some d →
          ∃ p : TensorImpl, h[d]? = some p ∧ ms[i]? = some p.meta
  | [], ms, h, hm => by
    simp only [Heap.metas, Option.some.injEq] at hm
    subst hm
    simp
  | a :: as, ms, h, hm => by
    simp only [Heap.metas] at hm
    cases hq : h[a]? with
    | none => simp [hq] at hm
    | some obj =>
      cases hr : h.metas as with
      | none => simp [hq, hr] at hm
      | some ms' =>
        simp only [hq, hr, Option.some.injEq] at hm
        subst hm
        obtain ⟨hlen, hget⟩ := metas_spec as ms' h hr
        refine ⟨by simp [hlen], ?_⟩
        intro i d hi
        cases i with
        | zero =>
          simp only [List.getElem?_cons_zero, Option.some.injEq] at hi
          subst hi
          exact ⟨obj, hq, by simp⟩
        | succ i =>
          simp only [List.getElem?_cons_succ] at hi
          simpa using hget i d hi

theorem prepareOne_length (env : Env) (h h1 : Heap) (t : Tensor) (target : TensorArgDef)
    (p : Option Addr) (hp : prepareOne env h t target = .ok (p, h1)) :
    h.length ≤ h1.length ∧ ∀ b, b < h.length → h1[b]? = h[b]? := by
  unfold prepareOne at hp
  split at hp
  · cases hp
  · simp only [Except.ok.injEq, Prod.mk.injEq] at hp
    obtain ⟨-, rfl⟩ := hp
    exact ⟨le_refl _, fun _ _ => rfl⟩
  · simp only [Except.ok.injEq, Prod.mk.injEq] at hp
    obtain ⟨-, rfl⟩ := hp
    exact ⟨le_refl _, fun _ _ => rfl⟩
  · simp only [Except.ok.injEq, Prod.mk.injEq] at hp
    obtain ⟨-, rfl⟩ := hp
    exact ⟨by simp, fun b hb => List.getElem?_append_left hb⟩

theorem prepareOne_valid (env : Env) (h h1 : Heap) (t : Tensor) (target : TensorArgDef)
    (a : Addr) (obj : TensorImpl) (ht : h.obj? t = some obj)
    (hp : prepareOne env h t target = .ok (some a, h1)) : a < h1.length := by
  unfold prepareOne at hp
  split at hp
  · cases hp
  · cases hp
  · simp only [Except.ok.injEq, Prod.mk.injEq] at hp
    obtain ⟨hi, rfl⟩ := hp
    unfold Heap.obj? at ht
    rw [hi] at ht
    simp only at ht
    by_contra hge
    rw [List.getElem?_eq_none (Nat.le_of_not_lt hge)] at ht
    cases ht
  · simp only [Except.ok.injEq, Prod.mk.injEq, Option.some.injEq] at hp
    obtain ⟨rfl, rfl⟩ := hp
    simp

theorem prepareEach_spec (env : Env) (target : TensorArgDef) :
    ∀ (ts : List Tensor) (h : Heap) (as : List Addr) (h1 : Heap),
      prepareEach env target ts h = .ok (as, h1) →
        as = List.range' h.length ts.length ∧ h1.length = h.length + ts.length
  | [], h, as, h1, hp => by
    simp only [prepareEach, Except.ok.injEq, Prod.mk.injEq] at hp
    obtain ⟨rfl, rfl⟩ := hp
    simp
  | t :: ts, h, as, h1, hp => by
    simp only [prepareEach] at hp
    split at hp
    · cases hp
    · cases hp
    · split at hp
      · cases hp
      · split at hp
        · cases hp
        · split at hp
          · cases hp
          · rename_i obj _ _ as' h1' heq
            simp only [Except.ok.injEq, Prod.mk.injEq] at hp
            obtain ⟨rfl, rfl⟩ := hp
            obtain ⟨has, hlen⟩ := prepareEach_spec env target ts _ as' h1' heq
            simp only [List.length_append, List.length_singleton] at has hlen
            refine ⟨?_, by simp only [List.length_cons]; omega⟩
            rw [has, List.length_cons, List.range'_succ]
    · split at hp
      · cases hp
      · rename_i obj _ _ as' h1' heq
        simp only [Except.ok.injEq, Prod.mk.injEq] at hp
        obtain ⟨rfl, rfl⟩ := hp
        obtain ⟨has, hlen⟩ := prepareEach_spec env target ts _ as' h1' heq
        simp only [List.length_append, List.length_singleton] at has hlen
        refine ⟨?_, by simp only [List.length_cons]; omega⟩
        rw [has, List.length_cons, List.range'_succ]

/-- The per-output loop of `add_n_grad_impl` on the object store: when it returns, every
output object it was given carries the metadata of the prepared `out_grad`, and every
other object is as before. -/
theorem add_n_grad_loop_heap (env : Env) (kernel : Kernel) (ctx : Nat) (a : Addr) :
    ∀ (ts : List Addr) (w w1 : World),
      add_n_grad_loop env kernel ctx (some a) ts w = (.ok (), w1) → a ∉ ts →
        (∀ b, b ∉ ts → w1.heap[b]? = w.heap[b]?) ∧
        ∀ t ∈ ts, ∀ o, w.heap[t]? = some o →
          ∃ o1 p, w1.heap[t]? = some o1 ∧ w.heap[a]? = some p ∧ o1.meta = p.meta := by
  intro ts
  induction ts with
  | nil =>
    intro w w1 hrun _
    simp only [add_n_grad_loop, pure_apply, Prod.mk.injEq, true_and] at hrun
    subst hrun
    exact ⟨fun _ _ => rfl, fun t ht => by cases ht⟩
  | cons t ts ih =>
    intro w w1 hrun ha
    simp only [List.mem_cons, not_or] at ha
    simp only [add_n_grad_loop, addrOf_bind, UnchangedInferMeta_bind, kernel_fn_bind] at hrun
    split at hrun
    · cases hrun
    · rename_i ms hms
      split at hrun
      · cases hrun
      · obtain ⟨p, hp, rfl⟩ := metas_singleton _ _ _ hms
        obtain ⟨hframe, heff⟩ := ih _ w1 hrun ha.2
        simp only [Heap.setMetas] at hframe heff
        have hat : (w.heap.setMeta t p.meta)[a]? = w.heap[a]? := by
          rw [setMeta_getElem?, hp]
          have hne : ¬ t = a := fun e => ha.1 e.symm
          simp [hne]
        refine ⟨?_, ?_⟩
        · intro b hb
          simp only [List.mem_cons, not_or] at hb
          rw [hframe b hb.2, setMeta_getElem?]
          have hne : ¬ t = b := fun e => hb.1 e.symm
          cases w.heap[b]? <;> simp [hne]
        · intro t1 ht1 o ho
          by_cases hmem : t1 ∈ ts
          · have ho2 : (w.heap.setMeta t p.meta)[t1]? =
                some (if t = t1 then { o with meta := p.meta } else o) := by
              rw [setMeta_getElem?, ho]
              rfl
            obtain ⟨o1, p1, h1, h2, h3⟩ := heff t1 hmem _ ho2
            rw [hat, hp] at h2
            cases h2
            exact ⟨o1, p, h1, hp, h3⟩
          · have het : t1 = t := by
              simp only [List.mem_cons] at ht1
              rcases ht1 with e | e
              · exact e
              · exact absurd e hmem
            subst het
            refine ⟨{ o with meta := p.meta }, p, ?_, hp, rfl⟩
            rw [hframe t1 hmem, setMeta_getElem?, ho]
            simp

/-- `copy_to_impl`: the output of a call that returns carries the metadata of `x`. -/
theorem copy_to_unchanged (env : Env) (h : Heap) (x : Tensor) (place : Place)
    (blocking : Bool) (xobj : TensorImpl) (hx : h.obj? x = some xobj) :
    ∀ out, (run (copy_to_impl env x place blocking) h).1 = .ok out →
      ∃ o, (run (copy_to_impl env x place blocking) h).2.heap.obj? out = some o ∧
        o.meta = xobj.meta := by
  simp only [run, copy_to_impl, Tensor.empty,
    ParseKernelKeyByInputArgs_bind,
    GetHighestPriorityKernelKey_bind, SelectKernelOrThrowError_bind,
    GetDeviceContextByBackend_bind,
    TensorToDenseTensor_bind, SetKernelOutput_bind, addrOf_bind,
    kernel_fn_bind, UnchangedInferMeta_bind,
    pure_apply, pure_bind_apply, bind_assoc_apply, List.nil_append,
    List.append_assoc, List.cons_append]
  repeat' split
  all_goals
    intro out hout
    cases hout
  rename_i a hxa _ ms hms _ _ _
  have hha : h[a]? = some xobj := by
    unfold Heap.obj? at hx
    rw [hxa] at hx
    exact hx
  have hlt : a < h.length := by
    by_contra hge
    rw [List.getElem?_eq_none (Nat.le_of_not_lt hge)] at hha
    cases hha
  obtain ⟨p, hp, rfl⟩ := metas_singleton _ _ _ hms
  rw [List.getElem?_append_left hlt, hha] at hp
  cases hp
  simp only [Heap.obj?, Heap.setMetas, setMeta_getElem?]
  simp

/-- `add_n_grad_impl`: a call that returns returns `x.size()` tensors, each carrying
the metadata of the prepared `out_grad`. -/
theorem add_n_grad_unchanged (env : Env) (h : Heap) (xs : List Tensor) (out_grad : Tensor)
    (gobj : TensorImpl) (hg : h.obj? out_grad = some gobj) :
    ∀ outs, (run (add_n_grad_impl env xs out_grad) h).1 = .ok outs →
      outs.length = xs.length ∧
      ∀ out ∈ outs, ∃ a p o,
        preparedArgs (run (add_n_grad_impl env xs out_grad) h).2.trace = [.tensor a] ∧
        (run (add_n_grad_impl env xs out_grad) h).2.heap[a]? = some p ∧
        (run (add_n_grad_impl env xs out_grad) h).2.heap.obj? out = some o ∧
        o.meta = p.meta := by
  simp only [run, add_n_grad_impl,
    ParseKernelKeyByInputArgs_bind, GetHighestPriorityKernelKey_bind,
    SelectKernelOrThrowError_bind, GetDeviceContextByBackend_bind, PrepareData_bind,
    SetKernelOutputVector_bind, pure_apply, pure_bind_apply, pure_bind_eq, bind_assoc_apply,
    List.nil_append, List.append_assoc, List.cons_append]
  repeat' split
  · intro outs hout
    cases hout
  · intro outs hout
    cases hout
  · rename_i kernel hsel _ p h1 hprep
    obtain ⟨L, hL, hstep, -, -⟩ := add_n_grad_loop_trace env kernel
      (env.GetDeviceContextByBackend (env.GetHighestPriorityKernelKey
        (env.ParseKernelKeyByInputArgs h [.tensor out_grad])).backend) p
      (List.range' h1.length xs.length)
      { heap := h1 ++ List.replicate xs.length (TensorImpl.output (env.GetHighestPriorityKernelKey
        (env.ParseKernelKeyByInputArgs h [.tensor out_grad])).backend),
        trace := [.ParseKernelKeyByInputArgs [.tensor out_grad]
            (env.ParseKernelKeyByInputArgs h [.tensor out_grad]),
          .GetHighestPriorityKernelKey (env.ParseKernelKeyByInputArgs h [.tensor out_grad])
            (env.GetHighestPriorityKernelKey
              (env.ParseKernelKeyByInputArgs h [.tensor out_grad])),
          .SelectKernelOrThrowError "scale"
            { backend := (env.GetHighestPriorityKernelKey
                (env.ParseKernelKeyByInputArgs h [.tensor out_grad])).backend,
              layout := (env.GetHighestPriorityKernelKey
                (env.ParseKernelKeyByInputArgs h [.tensor out_grad])).layout,
              dtype := (env.GetHighestPriorityKernelKey
                (env.ParseKernelKeyByInputArgs h [.tensor out_grad])).dtype } false
            (some kernel.fn),
          .GetDeviceContextByBackend (env.GetHighestPriorityKernelKey
              (env.ParseKernelKeyByInputArgs h [.tensor out_grad])).backend
            (env.GetDeviceContextByBackend (env.GetHighestPriorityKernelKey
              (env.ParseKernelKeyByInputArgs h [.tensor out_grad])).backend),
          .PrepareData out_grad (kernel.InputAt 0) (some p),
          .SetKernelOutputVector xs.length (env.GetHighestPriorityKernelKey
              (env.ParseKernelKeyByInputArgs h [.tensor out_grad])).backend
            (List.range' h1.length xs.length)] }
    simp only [bind_apply]
    revert hL
    generalize hres : add_n_grad_loop env kernel _ p _ _ = res
    rcases res with ⟨r, w1⟩
    intro hL
    simp only at hL
    cases r with
    | error e =>
      intro outs hout
      cases hout
    | ok u =>
      intro outs hout
      simp only [pure_apply, Except.ok.injEq] at hout
      subst hout
      refine ⟨by simp, ?_⟩
      intro out hmem
      simp only [List.mem_map] at hmem
      obtain ⟨t, ht, rfl⟩ := hmem
      cases p with
      | none =>
        exfalso
        obtain ⟨i, hi, rfl⟩ := List.mem_range'.mp ht
        cases hn : xs.length with
        | zero => omega
        | succ n =>
          rw [hn, List.range'_succ] at hres
          simp only [add_n_grad_loop, addrOf_bind] at hres
          cases hres
      | some a =>
        have hlt : a < h1.length := prepareOne_valid env h h1 out_grad _ a gobj hg hprep
        have hnot : a ∉ List.range' h1.length xs.length := by
          simp only [List.mem_range'_1, not_and, not_lt]
          intro hle
          exact absurd hlt (Nat.not_lt.mpr hle)
        obtain ⟨hframe, heff⟩ := add_n_grad_loop_heap env kernel _ a _ _ w1 hres hnot
        have htr := List.mem_range'_1.mp ht
        have hto : (h1 ++ List.replicate xs.length (TensorImpl.output
            (env.GetHighestPriorityKernelKey
              (env.ParseKernelKeyByInputArgs h [.tensor out_grad])).backend))[t]? =
            some (TensorImpl.output (env.GetHighestPriorityKernelKey
              (env.ParseKernelKeyByInputArgs h [.tensor out_grad])).backend) := by
          rw [List.getElem?_append_right htr.1, List.getElem?_replicate,
            if_pos (Nat.sub_lt_left_of_lt_add htr.1 htr.2)]
        obtain ⟨o1, pobj, h1o, h1p, hmeta⟩ := heff t ht _ hto
        refine ⟨a, pobj, o1, ?_, ?_, ?_, hmeta⟩
        · simp only [pure_apply, hL, preparedArgs_append, preparedArgs_of_late L hstep]
          simp [preparedArgs, Event.preparedArg?]
        · simp only [pure_apply]
          rw [hframe a hnot]
          exact h1p
        · simp only [pure_apply, Heap.obj?]
          exact h1o

/-- `concat_grad_impl`: a call that returns returns `x.size()` tensors, the `i`-th
carrying the metadata of the `i`-th prepared input. -/
theorem concat_grad_unchanged (env : Env) (h : Heap) (xs : List Tensor) (out_grad : Tensor)
    (axis : Scalar) :
    ∀ outs, (run (concat_grad_impl env xs out_grad axis) h).1 = .ok outs →
      ∃ dense_x a,
        preparedArgs (run (concat_grad_impl env xs out_grad axis) h).2.trace =
          [.tensors dense_x, .tensor a] ∧
        dense_x.length = xs.length ∧ outs.length = xs.length ∧
        ∀ (i : Nat) (out : Tensor) (d : Addr), outs[i]? = some out → dense_x[i]? = some d →
          ∃ o p, (run (concat_grad_impl env xs out_grad axis) h).2.heap.obj? out = some o ∧
            (run (concat_grad_impl env xs out_grad axis) h).2.heap[d]? = some p ∧
            o.meta = p.meta := by
  simp only [run, concat_grad_impl,
    ParseKernelKeyByInputArgs_bind, GetHighestPriorityKernelKey_bind,
    SelectKernelOrThrowError_bind, GetDeviceContextByBackend_bind, PrepareData_bind,
    PrepareDataVector_bind, SetKernelOutputVector_bind, addrOf_bind, kernel_fn_bind,
    UnchangedMultiInferMeta_bind, pure_apply, pure_bind_apply, bind_assoc_apply,
    List.nil_append, List.append_assoc, List.cons_append, viewsOf_range]
  repeat' split
  all_goals
    intro outs hout
    cases hout
  rename_i as h1 hvec _ h2 _ ms hms _ a hprep _ _ _
  generalize hH : h2 ++ List.replicate xs.length _ = H at hms ⊢
  have hHl : H.length = h2.length + xs.length := by
    rw [← hH]
    simp
  obtain ⟨has, hlen1⟩ := prepareEach_spec env _ xs h as h1 hvec
  obtain ⟨hle2, -⟩ := prepareOne_length env h1 h2 out_grad _ _ hprep
  obtain ⟨hmslen, hmsget⟩ := metas_spec as ms _ hms
  have haslen : as.length = xs.length := by rw [has, List.length_range']
  refine ⟨as, a, ?_, haslen, by simp, ?_⟩
  · simp [preparedArgs, Event.preparedArg?]
  · intro i out d hout hd
    have hi : i < xs.length := by
      have := (List.getElem?_eq_some.mp hd).1
      omega
    have hdm : d ∈ List.range' h.length xs.length := by
      rw [← has]
      exact List.getElem?_mem hd
    have hdr := List.mem_range'_1.mp hdm
    have hdnot : d ∉ List.range' h2.length xs.length := by
      intro hmem
      have := List.mem_range'_1.mp hmem
      omega
    rw [List.getElem?_map, List.getElem?_range' _ _ hi] at hout
    simp only [Option.map_some', Option.some.injEq, Nat.one_mul] at hout
    subst hout
    obtain ⟨p, hp, hmi⟩ := hmsget i d hd
    obtain ⟨o, -, hres⟩ := setMetas_range xs.length h2.length ms H (hmslen.trans haslen)
      (Nat.le_of_eq hHl.symm) i p.meta hmi
    refine ⟨{ o with meta := p.meta }, p, hres, ?_, rfl⟩
    rw [setMetas_frame _ _ _ d hdnot]
    exact hp

/-! ## One backend per call (C15) -/

/-- C15: for every entry point and every input, the backend of the key passed to the
registry lookup, the backend passed to `GetDeviceContextByBackend` and the backend
passed to every `SetKernelOutput` call of the call are one and the same value. -/
theorem single_backend (env : Env) (h : Heap) (c : Call) :
    ∀ b1 ∈ backendsUsed (Call.trace env h c), ∀ b2 ∈ backendsUsed (Call.trace env h c),
      b1 = b2 := by
  cases c
  case add_n_grad x out_grad =>
    simp only [Call.trace, Call.exec, Dispatch.discard, run, add_n_grad_impl,
      ParseKernelKeyByInputArgs_bind, GetHighestPriorityKernelKey_bind,
      SelectKernelOrThrowError_bind, GetDeviceContextByBackend_bind, PrepareData_bind,
      SetKernelOutputVector_bind, pure_apply, pure_bind_apply, pure_bind_eq, bind_assoc_apply,
      List.nil_append, List.append_assoc, List.cons_append]
    repeat' split
    · simp only [backendsUsed, List.filterMap_cons, List.filterMap_nil, Event.backendUsed?]
      exact all_eq_replicate _ 1
    · simp only [backendsUsed, List.filterMap_cons, List.filterMap_nil, Event.backendUsed?]
      exact all_eq_replicate _ 2
    · rw [bind_pure_snd]
      rename_i kernel _ _ p h1 _
      obtain ⟨L, hL, hstep, -, -⟩ := add_n_grad_loop_trace env kernel
        (env.GetDeviceContextByBackend (env.GetHighestPriorityKernelKey
          (env.ParseKernelKeyByInputArgs h [.tensor out_grad])).backend) p
        (List.range' h1.length x.length)
        { heap := h1 ++ List.replicate x.length (TensorImpl.output (env.GetHighestPriorityKernelKey
          (env.ParseKernelKeyByInputArgs h [.tensor out_grad])).backend), trace := _ }
      rw [hL, backendsUsed_append, backendsUsed_of_late L hstep]
      simp only [backendsUsed, List.filterMap_cons, List.filterMap_nil, Event.backendUsed?,
        List.append_nil]
      exact all_eq_replicate _ 3
  all_goals
    simp only [Call.trace, Call.exec, Dispatch.discard, run, conv2d_impl, conv2d_grad_impl,
      copy_to_impl, split_impl, momentum_impl, batch_norm_impl, concat_grad_impl,
      imag_grad_impl, real_grad_impl,
      stack_grad_impl, meshgrid_impl, meshgrid_grad_impl, Tensor.empty,
      ParseDataType_bind, ParseBackend_bind, ParseKernelKeyByInputArgs_bind,
      GetHighestPriorityKernelKey_bind, SelectKernelOrThrowError_bind,
      GetDeviceContextByBackend_bind, PrepareData_bind, PrepareDataOptional_bind,
      PrepareDataVector_bind,
      TensorToDenseTensor_bind, SetKernelOutput_bind, SetKernelOutputVector_bind, addrOf_bind,
      deref_bind, InferMeta_bind, kernel_fn_bind, UnchangedInferMeta_bind,
      UnchangedMultiInferMeta_bind, pure_apply, pure_bind_apply, bind_assoc_apply,
      ite_isSome_bind, ite_isSome_self, ite_bind_apply, true_or, if_true, List.nil_append,
      List.append_assoc, List.cons_append]
    repeat' split
    all_goals
      simp only [backendsUsed, List.filterMap_cons, List.filterMap_nil, Event.backendUsed?]
      first
        | exact all_eq_replicate Backend.UNDEFINED 0
        | exact all_eq_replicate _ 1
        | exact all_eq_replicate _ 2
        | exact all_eq_replicate _ 3
        | exact all_eq_replicate _ 4
        | exact all_eq_replicate _ 5
        | exact all_eq_replicate _ 6
        | exact all_eq_replicate _ 7
        | exact all_eq_replicate _ 8

/-- Witness of C15: the convolution of GPU tensors: the lookup, the context fetch and
the output binding are all made for the backend `GPU`. -/
theorem single_backend_witness :
    backendsUsed (Call.trace testEnv gpuConvHeap convCall) = [.GPU, .GPU, .GPU] ∧
    (backendsUsed (Call.trace testEnv gpuConvHeap convCall)).head? =
      (backendsUsed (Call.trace testEnv gpuConvHeap convCall)).getLast? :=
  ⟨by decide,
    congrArg some (single_backend testEnv gpuConvHeap convCall .GPU (by decide) .GPU
      (by decide))⟩

/-! ## Output views and kernel outputs (C13) -/

/-- C13: for every entry point and every input, the output pointers given to the
kernel invocations are, call by call and position by position, the pointers the
meta-inference calls were given views over: the list of output arguments of the `k`-th
kernel invocation equals the list of output arguments of the `k`-th meta-inference
call (for a vector of outputs: the same vector, so view `i` is over element `i` and the
lengths agree); a call that returns has invoked the kernel for every inference. -/
theorem views_match_kernel_outputs (env : Env) (h : Heap) (c : Call) :
    kernelOutputs (Call.trace env h c) <+: inferOutputs (Call.trace env h c) ∧
      (Call.result env h c = .ok () →
        kernelOutputs (Call.trace env h c) = inferOutputs (Call.trace env h c)) := by
  cases c
  case add_n_grad x out_grad =>
    simp only [Call.trace, Call.result, Call.exec, Dispatch.discard, run, add_n_grad_impl,
      ParseKernelKeyByInputArgs_bind, GetHighestPriorityKernelKey_bind,
      SelectKernelOrThrowError_bind, GetDeviceContextByBackend_bind, PrepareData_bind,
      SetKernelOutputVector_bind, pure_apply, pure_bind_apply, pure_bind_eq, bind_assoc_apply,
      List.nil_append, List.append_assoc, List.cons_append]
    repeat' split
    · simp [kernelOutputs, inferOutputs, Event.kernelOutputs?, Event.inferOutputs?]
    · simp [kernelOutputs, inferOutputs, Event.kernelOutputs?, Event.inferOutputs?]
    · rename_i kernel _ _ p h1 _
      obtain ⟨L, hL, hstep, hpre, heq, -⟩ := add_n_grad_loop_args env kernel
        (env.GetDeviceContextByBackend (env.GetHighestPriorityKernelKey
          (env.ParseKernelKeyByInputArgs h [.tensor out_grad])).backend) p
        (List.range' h1.length x.length)
        { heap := h1 ++ List.replicate x.length (TensorImpl.output (env.GetHighestPriorityKernelKey
          (env.ParseKernelKeyByInputArgs h [.tensor out_grad])).backend),
          trace := [.ParseKernelKeyByInputArgs [.tensor out_grad]
              (env.ParseKernelKeyByInputArgs h [.tensor out_grad]),
            .GetHighestPriorityKernelKey (env.ParseKernelKeyByInputArgs h [.tensor out_grad])
              (env.GetHighestPriorityKernelKey
                (env.ParseKernelKeyByInputArgs h [.tensor out_grad])),
            .SelectKernelOrThrowError "scale"
              { backend := (env.GetHighestPriorityKernelKey
                  (env.ParseKernelKeyByInputArgs h [.tensor out_grad])).backend,
                layout := (env.GetHighestPriorityKernelKey
                  (env.ParseKernelKeyByInputArgs h [.tensor out_grad])).layout,
                dtype := (env.GetHighestPriorityKernelKey
                  (env.ParseKernelKeyByInputArgs h [.tensor out_grad])).dtype } false
              (some kernel.fn),
            .GetDeviceContextByBackend (env.GetHighestPriorityKernelKey
                (env.ParseKernelKeyByInputArgs h [.tensor out_grad])).backend
              (env.GetDeviceContextByBackend (env.GetHighestPriorityKernelKey
                (env.ParseKernelKeyByInputArgs h [.tensor out_grad])).backend),
            .PrepareData out_grad (kernel.InputAt 0) (some p),
            .SetKernelOutputVector x.length (env.GetHighestPriorityKernelKey
                (env.ParseKernelKeyByInputArgs h [.tensor out_grad])).backend
              (List.range' h1.length x.length)] }
      simp only [bind_apply]
      revert hL heq
      generalize add_n_grad_loop env kernel _ p _ _ = res
      rcases res with ⟨r, w1⟩
      intro hL heq
      simp only at hL
      simp only [kernelOutputs, inferOutputs] at hpre heq
      cases r with
      | error e =>
        simp only [hL, kernelOutputs_append, inferOutputs_append]
        simp [kernelOutputs, inferOutputs, Event.kernelOutputs?, Event.inferOutputs?, hpre]
      | ok u =>
        simp only [pure_apply, hL, kernelOutputs_append, inferOutputs_append]
        simp [kernelOutputs, inferOutputs, Event.kernelOutputs?, Event.inferOutputs?, hpre,
          heq rfl]
  all_goals
    simp only [Call.trace, Call.result, Call.exec, Dispatch.discard, run, conv2d_impl,
      conv2d_grad_impl,
      copy_to_impl, split_impl, momentum_impl, batch_norm_impl, concat_grad_impl,
      imag_grad_impl, real_grad_impl,
      stack_grad_impl, meshgrid_impl, meshgrid_grad_impl, Tensor.empty,
      ParseDataType_bind, ParseBackend_bind, ParseKernelKeyByInputArgs_bind,
      GetHighestPriorityKernelKey_bind, SelectKernelOrThrowError_bind,
      GetDeviceContextByBackend_bind, PrepareData_bind, PrepareDataOptional_bind,
      PrepareDataVector_bind,
      TensorToDenseTensor_bind, SetKernelOutput_bind, SetKernelOutputVector_bind, addrOf_bind,
      deref_bind, InferMeta_bind, kernel_fn_bind, UnchangedInferMeta_bind,
      UnchangedMultiInferMeta_bind, pure_apply, pure_bind_apply, bind_assoc_apply,
      ite_isSome_bind, ite_isSome_self, ite_bind_apply, true_or, if_true, List.nil_append,
      List.append_assoc, List.cons_append, viewsOf_range]
    repeat' split
    all_goals
      first
        | (simp [kernelOutputs, inferOutputs, Event.kernelOutputs?, Event.inferOutputs?]; done)
        | simp_all [kernelOutputs, inferOutputs, Event.kernelOutputs?, Event.inferOutputs?]

/-! ## The descriptors of `conv2d_impl` and `conv2d_grad_impl` (C20) -/

/-- C20: in `conv2d_impl` and `conv2d_grad_impl`, with `key` the key of the lookup and
`kernel` the kernel selected: the `i`-th preparation is made for the `i`-th input
tensor; when `key.backend` is `GPU` its descriptor has the backend `GPU` and the layout
and data type of `kernel.InputAt(i)`; otherwise it is `kernel.InputAt(i)` itself.  A
call that returns has prepared every input. -/
theorem conv2d_descriptors (env : Env) (h : Heap) (c : Call) (name : String)
    (key : KernelKey) (use_gpudnn : Bool) (kernel : Kernel)
    (hc : c.isConv2d = true)
    (hin : (name, key, use_gpudnn) ∈ lookupArgs (Call.trace env h c))
    (hsel : env.SelectKernelOrThrowError name key use_gpudnn = .ok kernel) :
    (∀ i t d, (prepareCalls (Call.trace env h c))[i]? = some (t, d) →
      c.tensorArgs[i]? = some t ∧
      (key.backend = .GPU →
        d.backend = .GPU ∧ d.layout = (kernel.InputAt i).layout ∧
          d.dtype = (kernel.InputAt i).dtype) ∧
      (key.backend ≠ .GPU → d = kernel.InputAt i)) ∧
    (Call.result env h c = .ok () →
      (prepareCalls (Call.trace env h c)).length = c.tensorArgs.length) := by
  revert hin
  cases c
  case conv2d input filter strides paddings paddding_algorithm groups dilations data_format
      use_addto workspace_size_MB exhaustive_search =>
    simp only [Call.trace, Call.result, Call.exec, Dispatch.discard, run, conv2d_impl,
      Tensor.empty,
      ParseDataType_bind, ParseKernelKeyByInputArgs_bind,
      GetHighestPriorityKernelKey_bind, SelectKernelOrThrowError_bind,
      GetDeviceContextByBackend_bind, PrepareData_bind,
      SetKernelOutput_bind, addrOf_bind,
      InferMeta_bind, kernel_fn_bind, pure_apply, pure_bind_apply, bind_assoc_apply,
      ite_bind_apply, true_or, if_true, List.nil_append,
      List.append_assoc, List.cons_append]
    generalize (if env.ParseDataType h input = DataType.UNDEFINED then _ else _) = dt
    split
    next e0 he0 =>
      intro hin
      simp only [lookupArgs, List.filterMap_cons, List.filterMap_nil, Event.lookupArgs?,
        List.mem_singleton, Prod.mk.injEq] at hin
      obtain ⟨rfl, rfl, rfl⟩ := hin
      rw [he0] at hsel
      cases hsel
    next kernel0 hsel0 =>
      generalize hd0 : (if _ = Backend.GPU then _ else kernel0.InputAt 0) = d0
      generalize hd1 : (if _ = Backend.GPU then _ else kernel0.InputAt 1) = d1
      have g0 := gpu_descriptor _ _ _ hd0
      have g1 := gpu_descriptor _ _ _ hd1
      repeat' split
      all_goals
        intro hin
        simp only [lookupArgs, List.filterMap_cons, List.filterMap_nil, Event.lookupArgs?,
          List.mem_singleton, Prod.mk.injEq] at hin
        obtain ⟨rfl, rfl, rfl⟩ := hin
        rw [hsel0] at hsel
        cases hsel
        simp only [prepareCalls, List.filterMap_cons, List.filterMap_nil, Event.prepareCall?,
          Call.tensorArgs]
        refine ⟨?_, by simp⟩
        intro i t d hi
        rcases i with _ | _ | i
        · simp only [List.getElem?_cons_zero, Option.some.injEq, Prod.mk.injEq] at hi
          obtain ⟨rfl, rfl⟩ := hi
          exact ⟨rfl, g0⟩
        · first
            | (simp only [List.getElem?_cons_succ, List.getElem?_cons_zero, Option.some.injEq,
                Prod.mk.injEq] at hi
               obtain ⟨rfl, rfl⟩ := hi
               exact ⟨rfl, g1⟩)
            | simp at hi
        · simp at hi
  case conv2d_grad input filter out_grad strides paddings paddding_algorithm groups dilations
      data_format use_addto workspace_size_MB exhaustive_search =>
    simp only [Call.trace, Call.result, Call.exec, Dispatch.discard, run, conv2d_grad_impl,
      Tensor.empty,
      ParseDataType_bind, ParseKernelKeyByInputArgs_bind,
      GetHighestPriorityKernelKey_bind, SelectKernelOrThrowError_bind,
      GetDeviceContextByBackend_bind, PrepareData_bind,
      SetKernelOutput_bind, addrOf_bind,
      InferMeta_bind, kernel_fn_bind, pure_apply, pure_bind_apply, bind_assoc_apply,
      ite_bind_apply, true_or, if_true, List.nil_append,
      List.append_assoc, List.cons_append]
    split
    next e0 he0 =>
      intro hin
      simp only [lookupArgs, List.filterMap_cons, List.filterMap_nil, Event.lookupArgs?,
        List.mem_singleton, Prod.mk.injEq] at hin
      obtain ⟨rfl, rfl, rfl⟩ := hin
      rw [he0] at hsel
      cases hsel
    next kernel0 hsel0 =>
      generalize hd0 : (if _ = Backend.GPU then _ else kernel0.InputAt 0) = d0
      generalize hd1 : (if _ = Backend.GPU then _ else kernel0.InputAt 1) = d1
      generalize hd2 : (if _ = Backend.GPU then _ else kernel0.InputAt 2) = d2
      have g0 := gpu_descriptor _ _ _ hd0
      have g1 := gpu_descriptor _ _ _ hd1
      have g2 := gpu_descriptor _ _ _ hd2
      repeat' split
      all_goals
        intro hin
        simp only [lookupArgs, List.filterMap_cons, List.filterMap_nil, Event.lookupArgs?,
          List.mem_singleton, Prod.mk.injEq] at hin
        obtain ⟨rfl, rfl, rfl⟩ := hin
        rw [hsel0] at hsel
        cases hsel
        simp only [prepareCalls, List.filterMap_cons, List.filterMap_nil, Event.prepareCall?,
          Call.tensorArgs]
        refine ⟨?_, by simp⟩
        intro i t d hi
        rcases i with _ | _ | _ | i
        · simp only [List.getElem?_cons_zero, Option.some.injEq, Prod.mk.injEq] at hi
          obtain ⟨rfl, rfl⟩ := hi
          exact ⟨rfl, g0⟩
        · first
            | (simp only [List.getElem?_cons_succ, List.getElem?_cons_zero, Option.some.injEq,
                Prod.mk.injEq] at hi
               obtain ⟨rfl, rfl⟩ := hi
               exact ⟨rfl, g1⟩)
            | simp at hi
        · first
            | (simp only [List.getElem?_cons_succ, List.getElem?_cons_zero, Option.some.injEq,
                Prod.mk.injEq] at hi
               obtain ⟨rfl, rfl⟩ := hi
               exact ⟨rfl, g2⟩)
            | simp at hi
        · simp at hi
  all_goals simp [Call.isConv2d] at hc

/-- Witness of C20: a convolution of GPU tensors against a registry whose descriptors
are host-resident: both inputs are prepared against descriptors with the backend `GPU`.
-/
theorem conv2d_descriptors_witness :
    prepareCalls (Call.trace hostArgEnv gpuConvHeap convCall) =
      [(tensorAt 0, { backend := .GPU, layout := .NCHW, dtype := .FLOAT32 }),
        (tensorAt 1, { backend := .GPU, layout := .NCHW, dtype := .FLOAT32 })] ∧
    (prepareCalls (Call.trace hostArgEnv gpuConvHeap convCall)).length =
      convCall.tensorArgs.length :=
  ⟨by decide,
    (conv2d_descriptors hostArgEnv gpuConvHeap convCall "conv2d"
      { backend := .GPU, layout := .NCHW, dtype := .FLOAT32 } true
      { fn := 6, InputAt := fun _ => { backend := .CPU, layout := .NCHW, dtype := .FLOAT32 } }
      rfl (by decide) rfl).2 rfl⟩

/-! ## The tuple returned by `momentum_impl` (C11) -/

/-- C11: the optimizer scenario with a master parameter present returns; the tuple it
returns holds three default-constructed tensors, none of which has an implementation
object, while the kernel was given the prepared parameter, velocity and master
parameter as its three output pointers. -/
theorem momentum_returns_unbound :
    momentumMasterRun.1 = .ok (Tensor.empty, Tensor.empty, Tensor.empty) ∧
    momentumMasterRun.2.heap.obj? Tensor.empty = none ∧
    momentumHeap.obj? (tensorAt 4) = some (denseF32 .CPU [0]) ∧
    kernelOutputs momentumMasterRun.2.trace =
      [[.ptr (some 0), .ptr (some 2), .ptr (some 4)]] :=
  ⟨rfl, by decide, by decide, by decide⟩

/-! ## The outputs of `batch_norm_impl` (C14) -/

/-- C14: in `batch_norm_impl`, for every input: every meta-inference call is given six
output views and at most one such call is made; a call that returns
`(o0, …, o5)` has made exactly one, given views over the implementation objects of
`o0 … o5` in this order, and `o1` and `o2` are bound to the implementation objects of
`mean` and `variance` when these have one (`set_impl(mean.impl())`,
`set_impl(variance.impl())`). -/
theorem batch_norm_outputs (env : Env) (h : Heap) (x scale bias mean variance : Tensor)
    (momentum epsilon : Nat) (data_layout : String)
    (is_test use_global_stats trainable_statistics fuse_with_relu : Bool) :
    (∀ n ∈ inferCounts (run (batch_norm_impl env x scale bias mean variance momentum epsilon
        data_layout is_test use_global_stats trainable_statistics fuse_with_relu) h).2.trace,
      n = 6) ∧
    (inferCounts (run (batch_norm_impl env x scale bias mean variance momentum epsilon
        data_layout is_test use_global_stats trainable_statistics fuse_with_relu)
        h).2.trace).length ≤ 1 ∧
    ∀ o0 o1 o2 o3 o4 o5, (run (batch_norm_impl env x scale bias mean variance momentum epsilon
        data_layout is_test use_global_stats trainable_statistics fuse_with_relu) h).1 =
          .ok (o0, o1, o2, o3, o4, o5) →
      inferOutputs (run (batch_norm_impl env x scale bias mean variance momentum epsilon
        data_layout is_test use_global_stats trainable_statistics fuse_with_relu) h).2.trace =
        [[.ptr o0.impl, .ptr o1.impl, .ptr o2.impl, .ptr o3.impl, .ptr o4.impl,
          .ptr o5.impl]] ∧
      (∀ a, mean.impl = some a → o1.impl = some a) ∧
      (∀ b, variance.impl = some b → o2.impl = some b) := by
  simp only [run, batch_norm_impl, Tensor.empty,
    ParseDataType_bind, ParseKernelKeyByInputArgs_bind,
    GetHighestPriorityKernelKey_bind, SelectKernelOrThrowError_bind,
    GetDeviceContextByBackend_bind, PrepareData_bind,
    SetKernelOutput_bind, addrOf_bind,
    InferMeta_bind, kernel_fn_bind, pure_apply, pure_bind_apply, bind_assoc_apply,
    ite_bind_apply, true_or, if_true, List.nil_append,
    List.append_assoc, List.cons_append]
  generalize (if env.ParseDataType h x = DataType.UNDEFINED then _ else _) = dt
  repeat' split
  all_goals
    first
      | (simp_all [inferCounts, inferOutputs, Event.inferCount?, Event.inferOutputs?,
          outAddrs, OutArg.addrs]
         done)
      | (simp_all [inferCounts, inferOutputs, Event.inferCount?, Event.inferOutputs?,
          outAddrs, OutArg.addrs]
         intro o0 o1 o2 o3 o4 o5 h0 h1 h2 h3 h4 h5
         subst h0 h1 h2 h3 h4 h5
         simp)

/-- Witness of C14: the batch-norm scenario returns; its second and third tensors are
the running mean and variance inputs. -/
theorem batch_norm_outputs_witness :
    bnRun.1 = .ok (tensorAt 5, tensorAt 3, tensorAt 4, tensorAt 6, tensorAt 7, tensorAt 8) ∧
    inferOutputs bnRun.2.trace =
      [[.ptr (some 5), .ptr (some 3), .ptr (some 4), .ptr (some 6), .ptr (some 7),
        .ptr (some 8)]] ∧
    (∀ a, (tensorAt 3).impl = some a → (tensorAt 3).impl = some a) ∧
    (∀ b, (tensorAt 4).impl = some b → (tensorAt 4).impl = some b) :=
  ⟨rfl,
    (batch_norm_outputs testEnv bnHeap (tensorAt 0) (tensorAt 1) (tensorAt 2) (tensorAt 3)
      (tensorAt 4) 0 0 "NCHW" false false false false).2.2 _ _ _ _ _ _ rfl⟩

/-! ## Prepared inputs (C16) -/

/-- C16, counterexample: `copy_to_impl` hands the kernel the dense tensor of `x` itself;
no preparation is made in the whole call.  And `conv2d_impl`, on GPU tensors with a
registry whose descriptors are host-resident, prepares both inputs against descriptors
with the backend `GPU`, not against the registered ones. -/
theorem kernel_input_unprepared :
    kernelInputs (Call.trace testEnv vecHeap copyCall) = [[.tensor 0]] ∧
    preparedArgs (Call.trace testEnv vecHeap copyCall) = [] ∧
    prepareTargets (Call.trace testEnv vecHeap copyCall) = [] ∧
    ¬ (∀ ins ∈ kernelInputs (Call.trace testEnv vecHeap copyCall),
        ∀ k ∈ ins, k ∈ preparedArgs (Call.trace testEnv vecHeap copyCall)) ∧
    prepareTargets (Call.trace hostArgEnv gpuConvHeap convCall) =
      [{ backend := .GPU, layout := .NCHW, dtype := .FLOAT32 },
        { backend := .GPU, layout := .NCHW, dtype := .FLOAT32 }] ∧
    (hostArgEnv.SelectKernelOrThrowError "conv2d"
        { backend := .GPU, layout := .NCHW, dtype := .FLOAT32 } true).toOption.map
      (fun kernel => [kernel.InputAt 0, kernel.InputAt 1]) =
      some [{ backend := .CPU, layout := .NCHW, dtype := .FLOAT32 },
        { backend := .CPU, layout := .NCHW, dtype := .FLOAT32 }] := by
  decide

/-- C16, amended: for every entry point other than `copy_to_impl`, `imag_grad_impl`
and `real_grad_impl`, with `kernel` the kernel selected by the lookup: the inputs of
every kernel invocation are exactly the prepared inputs, in the order of their
preparation; and the `i`-th preparation is made against `kernel.InputAt(i)`, or, in
`conv2d_impl` and `conv2d_grad_impl` when the backend of the key is `GPU`, against
`kernel.InputAt(i)` with its backend set to `GPU`. -/
theorem kernel_inputs_prepared (env : Env) (h : Heap) (c : Call) (name : String)
    (key : KernelKey) (use_gpudnn : Bool) (kernel : Kernel)
    (hc : c.usesDenseInput = false)
    (hin : (name, key, use_gpudnn) ∈ lookupArgs (Call.trace env h c))
    (hsel : env.SelectKernelOrThrowError name key use_gpudnn = .ok kernel) :
    (∀ ins ∈ kernelInputs (Call.trace env h c), ins = preparedArgs (Call.trace env h c)) ∧
    ∀ i d, (prepareTargets (Call.trace env h c))[i]? = some d →
      d = kernel.InputAt i ∨
        (c.isConv2d = true ∧ key.backend = .GPU ∧
          d = { kernel.InputAt i with backend := .GPU }) := by
  revert hin
  cases c
  case copy_to => simp [Call.usesDenseInput] at hc
  case imag_grad => simp [Call.usesDenseInput] at hc
  case real_grad => simp [Call.usesDenseInput] at hc
  case conv2d input filter strides paddings paddding_algorithm groups dilations data_format
      use_addto workspace_size_MB exhaustive_search =>
    simp only [Call.trace, Call.result, Call.exec, Dispatch.discard, run, conv2d_impl,
      Tensor.empty,
      ParseDataType_bind, ParseKernelKeyByInputArgs_bind,
      GetHighestPriorityKernelKey_bind, SelectKernelOrThrowError_bind,
      GetDeviceContextByBackend_bind, PrepareData_bind,
      SetKernelOutput_bind, addrOf_bind,
      InferMeta_bind, kernel_fn_bind, pure_apply, pure_bind_apply, bind_assoc_apply,
      ite_bind_apply, true_or, if_true, List.nil_append,
      List.append_assoc, List.cons_append, Call.isConv2d, true_and]
    generalize (if env.ParseDataType h input = DataType.UNDEFINED then _ else _) = dt
    split
    next e0 he0 =>
      intro hin
      simp only [lookupArgs, List.filterMap_cons, List.filterMap_nil, Event.lookupArgs?,
        List.mem_singleton, Prod.mk.injEq] at hin
      obtain ⟨rfl, rfl, rfl⟩ := hin
      rw [he0] at hsel
      cases hsel
    next kernel0 hsel0 =>
      generalize hd0 : (if _ = Backend.GPU then _ else kernel0.InputAt 0) = d0
      generalize hd1 : (if _ = Backend.GPU then _ else kernel0.InputAt 1) = d1
      have g0 := gpu_override _ _ _ hd0
      have g1 := gpu_override _ _ _ hd1
      repeat' split
      all_goals
        intro hin
        simp only [lookupArgs, List.filterMap_cons, List.filterMap_nil, Event.lookupArgs?,
          List.mem_singleton, Prod.mk.injEq] at hin
        obtain ⟨rfl, rfl, rfl⟩ := hin
        rw [hsel0] at hsel
        cases hsel
        simp only [kernelInputs, preparedArgs, prepareTargets, List.filterMap_cons,
          List.filterMap_nil, Event.kernelInputs?, Event.preparedArg?, Event.prepareTarget?]
        refine ⟨by simp, forall_of_from _ _ ?_⟩
        simp only [forallFrom, and_true, true_and]
        trivial
  case conv2d_grad input filter out_grad strides paddings paddding_algorithm groups dilations
      data_format use_addto workspace_size_MB exhaustive_search =>
    simp only [Call.trace, Call.result, Call.exec, Dispatch.discard, run, conv2d_grad_impl,
      Tensor.empty,
      ParseDataType_bind, ParseKernelKeyByInputArgs_bind,
      GetHighestPriorityKernelKey_bind, SelectKernelOrThrowError_bind,
      GetDeviceContextByBackend_bind, PrepareData_bind,
      SetKernelOutput_bind, addrOf_bind,
      InferMeta_bind, kernel_fn_bind, pure_apply, pure_bind_apply, bind_assoc_apply,
      ite_bind_apply, true_or, if_true, List.nil_append,
      List.append_assoc, List.cons_append, Call.isConv2d, true_and]
    split
    next e0 he0 =>
      intro hin
      simp only [lookupArgs, List.filterMap_cons, List.filterMap_nil, Event.lookupArgs?,
        List.mem_singleton, Prod.mk.injEq] at hin
      obtain ⟨rfl, rfl, rfl⟩ := hin
      rw [he0] at hsel
      cases hsel
    next kernel0 hsel0 =>
      generalize hd0 : (if _ = Backend.GPU then _ else kernel0.InputAt 0) = d0
      generalize hd1 : (if _ = Backend.GPU then _ else kernel0.InputAt 1) = d1
      generalize hd2 : (if _ = Backend.GPU then _ else kernel0.InputAt 2) = d2
      have g0 := gpu_override _ _ _ hd0
      have g1 := gpu_override _ _ _ hd1
      have g2 := gpu_override _ _ _ hd2
      repeat' split
      all_goals
        intro hin
        simp only [lookupArgs, List.filterMap_cons, List.filterMap_nil, Event.lookupArgs?,
          List.mem_singleton, Prod.mk.injEq] at hin
        obtain ⟨rfl, rfl, rfl⟩ := hin
        rw [hsel0] at hsel
        cases hsel
        simp only [kernelInputs, preparedArgs, prepareTargets, List.filterMap_cons,
          List.filterMap_nil, Event.kernelInputs?, Event.preparedArg?, Event.prepareTarget?]
        refine ⟨by simp, forall_of_from _ _ ?_⟩
        simp only [forallFrom, and_true, true_and]
        trivial
  case batch_norm x scale bias mean variance momentum_ epsilon data_layout is_test
      use_global_stats trainable_statistics fuse_with_relu =>
    simp only [Call.trace, Call.result, Call.exec, Dispatch.discard, run, batch_norm_impl,
      Tensor.empty,
      ParseDataType_bind, ParseKernelKeyByInputArgs_bind,
      GetHighestPriorityKernelKey_bind, SelectKernelOrThrowError_bind,
      GetDeviceContextByBackend_bind, PrepareData_bind,
      SetKernelOutput_bind, addrOf_bind,
      InferMeta_bind, kernel_fn_bind, pure_apply, pure_bind_apply, bind_assoc_apply,
      ite_bind_apply, true_or, if_true, List.nil_append,
      List.append_assoc, List.cons_append, Call.isConv2d]
    generalize (if env.ParseDataType h x = DataType.UNDEFINED then _ else _) = dt
    split
    next e0 he0 =>
      intro hin
      simp only [lookupArgs, List.filterMap_cons, List.filterMap_nil, Event.lookupArgs?,
        List.mem_singleton, Prod.mk.injEq] at hin
      obtain ⟨rfl, rfl, rfl⟩ := hin
      rw [he0] at hsel
      cases hsel
    next kernel0 hsel0 =>
      repeat' split
      all_goals
        intro hin
        simp only [lookupArgs, List.filterMap_cons, List.filterMap_nil, Event.lookupArgs?,
          List.mem_singleton, Prod.mk.injEq] at hin
        obtain ⟨rfl, rfl, rfl⟩ := hin
        rw [hsel0] at hsel
        cases hsel
        simp only [kernelInputs, preparedArgs, prepareTargets, List.filterMap_cons,
          List.filterMap_nil, Event.kernelInputs?, Event.preparedArg?, Event.prepareTarget?]
        refine ⟨by simp, forall_of_from _ _ ?_⟩
        simp [forallFrom]
  case momentum param grad velocity learning_rate master_param mu use_nesterov
      regularization_method regularization_coeff multi_precision rescale_grad =>
    simp only [Call.trace, Call.result, Call.exec, Dispatch.discard, run, momentum_impl,
      Tensor.empty, ParseKernelKeyByInputArgs_bind, GetHighestPriorityKernelKey_bind,
      deref_bind, SelectKernelOrThrowError_bind, GetDeviceContextByBackend_bind,
      PrepareData_bind, PrepareDataOptional_bind, addrOf_bind, InferMeta_bind, kernel_fn_bind,
      pure_apply, pure_bind_apply, bind_assoc_apply, ite_isSome_bind, ite_isSome_self,
      ite_bind_apply, true_or, if_true, List.nil_append, List.append_assoc,
      List.cons_append, Call.isConv2d]
    split
    next =>
      intro hin
      simp only [lookupArgs, List.filterMap_cons, List.filterMap_nil, Event.lookupArgs?,
        List.not_mem_nil] at hin
    next obj hobj =>
      generalize (if obj.selected_rows = true then _ else _) = kernel_name
      split
      next e0 he0 =>
        intro hin
        simp only [lookupArgs, List.filterMap_cons, List.filterMap_nil, Event.lookupArgs?,
          List.mem_singleton, Prod.mk.injEq] at hin
        obtain ⟨rfl, rfl, rfl⟩ := hin
        rw [he0] at hsel
        cases hsel
      next kernel0 hsel0 =>
        repeat' split
        all_goals
          intro hin
          simp only [lookupArgs, List.filterMap_cons, List.filterMap_nil, Event.lookupArgs?,
            List.mem_singleton, Prod.mk.injEq] at hin
          obtain ⟨rfl, rfl, rfl⟩ := hin
          rw [hsel0] at hsel
          cases hsel
          simp only [kernelInputs, preparedArgs, prepareTargets, List.filterMap_cons,
            List.filterMap_nil, Event.kernelInputs?, Event.preparedArg?, Event.prepareTarget?]
          refine ⟨by simp, forall_of_from _ _ ?_⟩
          simp [forallFrom]
  case add_n_grad x out_grad =>
    simp only [Call.trace, Call.result, Call.exec, Dispatch.discard, run, add_n_grad_impl,
      ParseKernelKeyByInputArgs_bind, GetHighestPriorityKernelKey_bind,
      SelectKernelOrThrowError_bind, GetDeviceContextByBackend_bind, PrepareData_bind,
      SetKernelOutputVector_bind, pure_apply, pure_bind_apply, pure_bind_eq, bind_assoc_apply,
      List.nil_append, List.append_assoc, List.cons_append, Call.isConv2d]
    split
    next e0 he0 =>
      intro hin
      simp only [lookupArgs, List.filterMap_cons, List.filterMap_nil, Event.lookupArgs?,
        List.mem_singleton, Prod.mk.injEq] at hin
      obtain ⟨rfl, rfl, rfl⟩ := hin
      rw [he0] at hsel
      cases hsel
    next kernel0 hsel0 =>
      split
      · intro hin
        simp only [lookupArgs, List.filterMap_cons, List.filterMap_nil, Event.lookupArgs?,
          List.mem_singleton, Prod.mk.injEq] at hin
        obtain ⟨rfl, rfl, rfl⟩ := hin
        rw [hsel0] at hsel
        cases hsel
        simp only [kernelInputs, preparedArgs, prepareTargets, List.filterMap_cons,
          List.filterMap_nil, Event.kernelInputs?, Event.preparedArg?, Event.prepareTarget?]
        refine ⟨by simp, forall_of_from _ _ ?_⟩
        simp [forallFrom]
      · rw [bind_pure_snd]
        rename_i p h1 _
        obtain ⟨L, hL, hstep, -, -, hins⟩ := add_n_grad_loop_args env kernel0
          (env.GetDeviceContextByBackend (env.GetHighestPriorityKernelKey
            (env.ParseKernelKeyByInputArgs h [.tensor out_grad])).backend) p
          (List.range' h1.length x.length)
          { heap := h1 ++ List.replicate x.length (TensorImpl.output (env.GetHighestPriorityKernelKey
            (env.ParseKernelKeyByInputArgs h [.tensor out_grad])).backend), trace := _ }
        rw [hL, lookupArgs_append, lookupArgs_of_late L hstep, kernelInputs_append,
          preparedArgs_append, preparedArgs_of_late L hstep, prepareTargets_append,
          prepareTargets_of_late L hstep]
        intro hin
        simp only [lookupArgs, List.filterMap_cons, List.filterMap_nil, Event.lookupArgs?,
          List.mem_singleton, Prod.mk.injEq, List.append_nil] at hin
        obtain ⟨rfl, rfl, rfl⟩ := hin
        rw [hsel0] at hsel
        cases hsel
        simp only [kernelInputs, preparedArgs, prepareTargets, List.filterMap_cons,
          List.filterMap_nil, Event.kernelInputs?, Event.preparedArg?, Event.prepareTarget?,
          List.append_nil, List.nil_append]
        refine ⟨?_, forall_of_from _ _ (by simp [forallFrom])⟩
        intro ins hi
        obtain ⟨a, rfl, rfl⟩ := hins ins hi
        rfl
  all_goals
    simp only [Call.trace, Call.result, Call.exec, Dispatch.discard, run,
      split_impl, concat_grad_impl,
      stack_grad_impl, meshgrid_impl, meshgrid_grad_impl, Tensor.empty,
      ParseDataType_bind, ParseBackend_bind, ParseKernelKeyByInputArgs_bind,
      GetHighestPriorityKernelKey_bind, SelectKernelOrThrowError_bind,
      GetDeviceContextByBackend_bind, PrepareData_bind, PrepareDataOptional_bind,
      PrepareDataVector_bind,
      TensorToDenseTensor_bind, SetKernelOutput_bind, SetKernelOutputVector_bind, addrOf_bind,
      deref_bind, InferMeta_bind, kernel_fn_bind, UnchangedInferMeta_bind,
      UnchangedMultiInferMeta_bind, pure_apply, pure_bind_apply, bind_assoc_apply,
      ite_bind_apply, true_or, if_true, List.nil_append,
      List.append_assoc, List.cons_append, Call.isConv2d]
    split
    next e0 he0 =>
      intro hin
      simp only [lookupArgs, List.filterMap_cons, List.filterMap_nil, Event.lookupArgs?,
        List.mem_singleton, Prod.mk.injEq] at hin
      obtain ⟨rfl, rfl, rfl⟩ := hin
      rw [he0] at hsel
      cases hsel
    next kernel0 hsel0 =>
      repeat' split
      all_goals
        intro hin
        simp only [lookupArgs, List.filterMap_cons, List.filterMap_nil, Event.lookupArgs?,
          List.mem_singleton, Prod.mk.injEq] at hin
        obtain ⟨rfl, rfl, rfl⟩ := hin
        rw [hsel0] at hsel
        cases hsel
        simp only [kernelInputs, preparedArgs, prepareTargets, List.filterMap_cons,
          List.filterMap_nil, Event.kernelInputs?, Event.preparedArg?, Event.prepareTarget?]
        refine ⟨by simp, forall_of_from _ _ ?_⟩
        simp [forallFrom]

/-- Witness of C16 (amended): the split of a tensor of shape `[10]`: the kernel is given
the one prepared input. -/
theorem kernel_inputs_prepared_witness :
    preparedArgs (Call.trace testEnv vecHeap splitCall) = [.tensor 0] ∧
    ∀ ins ∈ kernelInputs (Call.trace testEnv vecHeap splitCall),
      ins = preparedArgs (Call.trace testEnv vecHeap splitCall) :=
  ⟨by decide,
    (kernel_inputs_prepared testEnv vecHeap splitCall "split"
      { backend := .CPU, layout := .NCHW, dtype := .FLOAT32 } false
      { fn := 5, InputAt := fun _ => { backend := .CPU, layout := .NCHW, dtype := .FLOAT32 } }
      rfl (by decide) rfl).1⟩

/-! ## Failure of meta inference (C17) -/

/-- C17, counterexample: the split of a tensor of shape `[10]` into sections `[3, 3]`
ends with the `ShapeInferenceError` of `SplitInferMeta`; before the error is raised the
Output Binder has been called and has allocated and bound two output tensors, which
are in the object store when the call ends. -/
theorem infer_failure_after_allocation :
    Call.result splitEnv vecHeap badSplitCall = .error .ShapeInferenceError ∧
    failedInfers (Call.trace splitEnv vecHeap badSplitCall) = ["SplitInferMeta"] ∧
    boundCounts (Call.trace splitEnv vecHeap badSplitCall) = [2] ∧
    (run (badSplitCall.exec splitEnv) vecHeap).2.heap =
      vecHeap ++ [TensorImpl.output .CPU, TensorImpl.output .CPU] :=
  ⟨rfl, by decide, by decide, by decide⟩

/-- C17, amended: for every entry point and every input, when a meta-inference call
raises, the call ends with an error, that inference is its last call and no kernel has
been invoked; the calls to the Output Binder the entry point makes have all been made
before (`Call.outputCounts`: the outputs are allocated and bound when the error is
raised). -/
theorem infer_failure_after_binding (env : Env) (h : Heap) (c : Call)
    (hfail : failedInfers (Call.trace env h c) ≠ []) :
    (∃ e, Call.result env h c = .error e) ∧
    kernelCounts (Call.trace env h c) = [] ∧
    boundCounts (Call.trace env h c) = c.outputCounts ∧
    ∃ fn, (Call.trace env h c).getLast?.bind Event.failedInfer? = some fn := by
  revert hfail
  cases c
  case add_n_grad x out_grad =>
    simp only [Call.trace, Call.result, Call.exec, Dispatch.discard, run, add_n_grad_impl,
      ParseKernelKeyByInputArgs_bind, GetHighestPriorityKernelKey_bind,
      SelectKernelOrThrowError_bind, GetDeviceContextByBackend_bind, PrepareData_bind,
      SetKernelOutputVector_bind, pure_apply, pure_bind_apply, pure_bind_eq, bind_assoc_apply,
      List.nil_append, List.append_assoc, List.cons_append]
    repeat' split
    · simp [failedInfers, Event.failedInfer?]
    · simp [failedInfers, Event.failedInfer?]
    · rename_i kernel _ _ p h1 _
      obtain ⟨L, hL, hstep, -, hf⟩ := add_n_grad_loop_failure env kernel
        (env.GetDeviceContextByBackend (env.GetHighestPriorityKernelKey
          (env.ParseKernelKeyByInputArgs h [.tensor out_grad])).backend) p
        (List.range' h1.length x.length)
        { heap := h1 ++ List.replicate x.length (TensorImpl.output (env.GetHighestPriorityKernelKey
          (env.ParseKernelKeyByInputArgs h [.tensor out_grad])).backend),
          trace := [.ParseKernelKeyByInputArgs [.tensor out_grad]
              (env.ParseKernelKeyByInputArgs h [.tensor out_grad]),
            .GetHighestPriorityKernelKey (env.ParseKernelKeyByInputArgs h [.tensor out_grad])
              (env.GetHighestPriorityKernelKey
                (env.ParseKernelKeyByInputArgs h [.tensor out_grad])),
            .SelectKernelOrThrowError "scale"
              { backend := (env.GetHighestPriorityKernelKey
                  (env.ParseKernelKeyByInputArgs h [.tensor out_grad])).backend,
                layout := (env.GetHighestPriorityKernelKey
                  (env.ParseKernelKeyByInputArgs h [.tensor out_grad])).layout,
                dtype := (env.GetHighestPriorityKernelKey
                  (env.ParseKernelKeyByInputArgs h [.tensor out_grad])).dtype } false
              (some kernel.fn),
            .GetDeviceContextByBackend (env.GetHighestPriorityKernelKey
                (env.ParseKernelKeyByInputArgs h [.tensor out_grad])).backend
              (env.GetDeviceContextByBackend (env.GetHighestPriorityKernelKey
                (env.ParseKernelKeyByInputArgs h [.tensor out_grad])).backend),
            .PrepareData out_grad (kernel.InputAt 0) (some p),
            .SetKernelOutputVector x.length (env.GetHighestPriorityKernelKey
                (env.ParseKernelKeyByInputArgs h [.tensor out_grad])).backend
              (List.range' h1.length x.length)] }
      simp only [bind_apply]
      revert hL hf
      generalize add_n_grad_loop env kernel _ p _ _ = res
      rcases res with ⟨r, w1⟩
      intro hL hf
      simp only at hL
      cases r with
      | error e =>
        simp only [hL, failedInfers_append, kernelCounts_append, boundCounts_append,
          boundCounts_of_late L hstep]
        intro hne
        have hne2 : failedInfers L ≠ [] := by
          simpa [failedInfers, Event.failedInfer?] using hne
        obtain ⟨-, hk, fn, hlast⟩ := hf hne2
        have hLne : L ≠ [] := by
          intro hnil
          rw [hnil] at hne2
          exact hne2 rfl
        simp only [kernelCounts] at hk
        refine ⟨⟨e, rfl⟩, ?_, ?_, fn, ?_⟩
        · simp [kernelCounts, Event.kernelCount?, hk]
        · simp [boundCounts, Event.boundCount?, Call.outputCounts]
        · rw [List.getLast?_append_of_ne_nil _ hLne]
          exact hlast
      | ok u =>
        intro hne
        exfalso
        have hne2 : failedInfers L ≠ [] := by
          simp only [pure_apply, hL, failedInfers_append] at hne
          simpa [failedInfers, Event.failedInfer?] using hne
        obtain ⟨⟨e, he⟩, -⟩ := hf hne2
        cases he
  all_goals
    simp only [Call.trace, Call.result, Call.exec, Dispatch.discard, run, conv2d_impl,
      conv2d_grad_impl,
      copy_to_impl, split_impl, momentum_impl, batch_norm_impl, concat_grad_impl,
      imag_grad_impl, real_grad_impl,
      stack_grad_impl, meshgrid_impl, meshgrid_grad_impl, Tensor.empty,
      ParseDataType_bind, ParseBackend_bind, ParseKernelKeyByInputArgs_bind,
      GetHighestPriorityKernelKey_bind, SelectKernelOrThrowError_bind,
      GetDeviceContextByBackend_bind, PrepareData_bind, PrepareDataOptional_bind,
      PrepareDataVector_bind,
      TensorToDenseTensor_bind, SetKernelOutput_bind, SetKernelOutputVector_bind, addrOf_bind,
      deref_bind, InferMeta_bind, kernel_fn_bind, UnchangedInferMeta_bind,
      UnchangedMultiInferMeta_bind, pure_apply, pure_bind_apply, bind_assoc_apply,
      ite_isSome_bind, ite_isSome_self, ite_bind_apply, true_or, if_true, List.nil_append,
      List.append_assoc, List.cons_append, Call.outputCounts]
    repeat' split
    all_goals
      simp only [failedInfers, List.filterMap_cons, List.filterMap_nil, Event.failedInfer?]
      first
        | (intro hne
           exact absurd rfl hne)
        | simp [kernelCounts, Event.kernelCount?, boundCounts, Event.boundCount?,
            Event.failedInfer?]

/-- Witness of C17 (amended): the split into sections `[3, 3]`. -/
theorem infer_failure_after_binding_witness :
    failedInfers (Call.trace splitEnv vecHeap badSplitCall) ≠ [] ∧
    (∃ e, Call.result splitEnv vecHeap badSplitCall = .error e) ∧
    kernelCounts (Call.trace splitEnv vecHeap badSplitCall) = [] ∧
    boundCounts (Call.trace splitEnv vecHeap badSplitCall) = badSplitCall.outputCounts ∧
    ∃ fn, (Call.trace splitEnv vecHeap badSplitCall).getLast?.bind Event.failedInfer? =
      some fn :=
  ⟨by decide, infer_failure_after_binding splitEnv vecHeap badSplitCall (by decide)⟩

/-! ## Numbers of returned tensors (C19) -/

/-- C19: a call that returns returns as many tensors as its governing input list has
elements: `inputs.size()` for `meshgrid_impl` and `meshgrid_grad_impl`, `x.size()` for
`stack_grad_impl`, `concat_grad_impl` and `add_n_grad_impl` (none for an empty list);
`conv2d_grad_impl` returns two lists of one tensor each. -/
theorem returned_counts (env : Env) (h : Heap) (inputs outputs_grad x : List Tensor)
    (out_grad input filter : Tensor) (axis : Int) (concat_axis : Scalar)
    (strides paddings : List Int) (paddding_algorithm : String) (groups : Int)
    (dilations : List Int) (data_format : String) (use_addto : Bool)
    (workspace_size_MB : Int) (exhaustive_search : Bool) :
    (∀ out, (run (meshgrid_impl env inputs) h).1 = .ok out → out.length = inputs.length) ∧
    (∀ out, (run (meshgrid_grad_impl env inputs outputs_grad) h).1 = .ok out →
      out.length = inputs.length) ∧
    (∀ out, (run (stack_grad_impl env x out_grad axis) h).1 = .ok out →
      out.length = x.length) ∧
    (∀ out, (run (concat_grad_impl env x out_grad concat_axis) h).1 = .ok out →
      out.length = x.length) ∧
    (∀ out, (run (add_n_grad_impl env x out_grad) h).1 = .ok out → out.length = x.length) ∧
    (∀ out, (run (conv2d_grad_impl env input filter out_grad strides paddings
        paddding_algorithm groups dilations data_format use_addto workspace_size_MB
        exhaustive_search) h).1 = .ok out →
      out.length = 2 ∧ ∀ l ∈ out, l.length = 1) := by
  refine ⟨?_, ?_, ?_, ?_, ?_, ?_⟩
  case refine_5 =>
    simp only [run, add_n_grad_impl,
      ParseKernelKeyByInputArgs_bind, GetHighestPriorityKernelKey_bind,
      SelectKernelOrThrowError_bind, GetDeviceContextByBackend_bind, PrepareData_bind,
      SetKernelOutputVector_bind, pure_apply, pure_bind_apply, pure_bind_eq, bind_assoc_apply,
      List.nil_append, List.append_assoc, List.cons_append]
    repeat' split
    · simp
    · simp
    · simp only [bind_apply]
      generalize add_n_grad_loop env _ _ _ _ _ = res
      rcases res with ⟨r, w1⟩
      cases r with
      | error e => simp
      | ok u =>
        intro out hout
        simp only [pure_apply, Except.ok.injEq] at hout
        subst hout
        simp
  all_goals
    simp only [run, conv2d_grad_impl, concat_grad_impl,
      stack_grad_impl, meshgrid_impl, meshgrid_grad_impl, Tensor.empty,
      ParseDataType_bind, ParseBackend_bind, ParseKernelKeyByInputArgs_bind,
      GetHighestPriorityKernelKey_bind, SelectKernelOrThrowError_bind,
      GetDeviceContextByBackend_bind, PrepareData_bind, PrepareDataOptional_bind,
      PrepareDataVector_bind,
      TensorToDenseTensor_bind, SetKernelOutput_bind, SetKernelOutputVector_bind, addrOf_bind,
      deref_bind, InferMeta_bind, kernel_fn_bind, UnchangedInferMeta_bind,
      UnchangedMultiInferMeta_bind, pure_apply, pure_bind_apply, bind_assoc_apply,
      ite_bind_apply, true_or, if_true, List.nil_append,
      List.append_assoc, List.cons_append]
    repeat' split
    all_goals simp

/-- Witness of C19: `meshgrid_impl` on two tensors returns two tensors, and
`stack_grad_impl` on an empty list returns none. -/
theorem returned_counts_witness :
    (∃ out, (run (meshgrid_impl testEnv [tensorAt 0, tensorAt 1]) gridHeap).1 = .ok out ∧
      out.length = 2) ∧
    (∃ out, (run (stack_grad_impl testEnv [] (tensorAt 0) 0) gridHeap).1 = .ok out ∧
      out.length = 0) :=
  ⟨⟨[tensorAt 4, tensorAt 5], rfl,
      (returned_counts testEnv gridHeap [tensorAt 0, tensorAt 1] [] [] (tensorAt 0)
        (tensorAt 0) (tensorAt 1) 0 (.int 0) [] [] "" 1 [] "" false 0 false).1 _ rfl⟩,
    ⟨[], rfl,
      (returned_counts testEnv gridHeap [tensorAt 0, tensorAt 1] [] [] (tensorAt 0)
        (tensorAt 0) (tensorAt 1) 0 (.int 0) [] [] "" 1 [] "" false 0 false).2.2.1 _ rfl⟩⟩

/-! ## "Unchanged" inference (C12) -/

/-- C12: with `x` and `out_grad` tensors of the object store: the output of a
`copy_to_impl` call that returns carries the dims, data type and layout of `x`; an
`add_n_grad_impl` call that returns returns `x.size()` tensors, each carrying those of
the prepared `out_grad`; and a `concat_grad_impl` call that returns returns `x.size()`
tensors, the `i`-th carrying those of the `i`-th prepared input. -/
theorem unchanged_inference (env : Env) (h : Heap) (x : Tensor) (place : Place)
    (blocking : Bool) (xs : List Tensor) (out_grad : Tensor) (axis : Scalar)
    (xobj gobj : TensorImpl) (hx : h.obj? x = some xobj)
    (hg : h.obj? out_grad = some gobj) :
    (∀ out, (run (copy_to_impl env x place blocking) h).1 = .ok out →
      ∃ o, (run (copy_to_impl env x place blocking) h).2.heap.obj? out = some o ∧
        o.meta = xobj.meta) ∧
    (∀ outs, (run (add_n_grad_impl env xs out_grad) h).1 = .ok outs →
      outs.length = xs.length ∧
      ∀ out ∈ outs, ∃ a p o,
        preparedArgs (run (add_n_grad_impl env xs out_grad) h).2.trace = [.tensor a] ∧
        (run (add_n_grad_impl env xs out_grad) h).2.heap[a]? = some p ∧
        (run (add_n_grad_impl env xs out_grad) h).2.heap.obj? out = some o ∧
        o.meta = p.meta) ∧
    (∀ outs, (run (concat_grad_impl env xs out_grad axis) h).1 = .ok outs →
      ∃ dense_x a,
        preparedArgs (run (concat_grad_impl env xs out_grad axis) h).2.trace =
          [.tensors dense_x, .tensor a] ∧
        dense_x.length = xs.length ∧ outs.length = xs.length ∧
        ∀ (i : Nat) (out : Tensor) (d : Addr), outs[i]? = some out → dense_x[i]? = some d →
          ∃ o p, (run (concat_grad_impl env xs out_grad axis) h).2.heap.obj? out = some o ∧
            (run (concat_grad_impl env xs out_grad axis) h).2.heap[d]? = some p ∧
            o.meta = p.meta) :=
  ⟨copy_to_unchanged env h x place blocking xobj hx,
    add_n_grad_unchanged env h xs out_grad gobj hg,
    concat_grad_unchanged env h xs out_grad axis⟩

/-- Witness of C12: on the tensors of shapes `[2]` and `[3]`: the copy of the first
returns a tensor of shape `[2]`, and the `add_n` gradient for two inputs returns two
tensors. -/
theorem unchanged_inference_witness :
    (∃ out, (run (copy_to_impl testEnv (tensorAt 0) (.GPU 0) false) gridHeap).1 = .ok out ∧
      ∃ o, (run (copy_to_impl testEnv (tensorAt 0) (.GPU 0) false) gridHeap).2.heap.obj? out =
          some o ∧
        o.meta = (denseF32 .CPU [2]).meta) ∧
    (∃ outs, (run (add_n_grad_impl testEnv [tensorAt 0, tensorAt 1] (tensorAt 1)) gridHeap).1 =
        .ok outs ∧ outs.length = 2) :=
  ⟨⟨tensorAt 2, rfl,
      (unchanged_inference testEnv gridHeap (tensorAt 0) (.GPU 0) false
        [tensorAt 0, tensorAt 1] (tensorAt 1) (.int 0) (denseF32 .CPU [2])
        (denseF32 .CPU [3]) rfl rfl).1 (tensorAt 2) rfl⟩,
    ⟨[tensorAt 2, tensorAt 3], rfl,
      ((unchanged_inference testEnv gridHeap (tensorAt 0) (.GPU 0) false
        [tensorAt 0, tensorAt 1] (tensorAt 1) (.int 0) (denseF32 .CPU [2])
        (denseF32 .CPU [3]) rfl rfl).2.1 [tensorAt 2, tensorAt 3] rfl).1⟩⟩

/-! ## Determinism of key resolution (C18) -/

/-- C21: in `momentum_impl`, for a gradient `grad` with implementation object `g`: one
lookup is made; its operation name is `"momentum_dense_param_sparse_grad"` if and only
if `g` is a `SelectedRows` (`grad.is_selected_rows()`) and `"momentum"` if and only if
it is not; its key is the highest-priority key of the key set parsed from `param`, and
the call with any other gradient `grad2` looks up the same key. -/
theorem momentum_kernel_name (env : Env) (h : Heap)
    (param grad grad2 velocity learning_rate : Tensor) (master_param : Option Tensor)
    (mu : Nat) (use_nesterov : Bool) (regularization_method : String)
    (regularization_coeff : Nat) (multi_precision : Bool) (rescale_grad : Nat)
    (g g2 : TensorImpl) (hg : h.obj? grad = some g) (hg2 : h.obj? grad2 = some g2) :
    lookups (Call.trace env h (.momentum param grad velocity learning_rate master_param mu
        use_nesterov regularization_method regularization_coeff multi_precision
        rescale_grad)) =
      [(if g.selected_rows = true then "momentum_dense_param_sparse_grad" else "momentum",
        env.GetHighestPriorityKernelKey (env.ParseKernelKeyByInputArgs h [.tensor param]))] ∧
    ((if g.selected_rows = true then "momentum_dense_param_sparse_grad" else "momentum") =
        "momentum_dense_param_sparse_grad" ↔ g.selected_rows = true) ∧
    ((if g.selected_rows = true then "momentum_dense_param_sparse_grad" else "momentum") =
        "momentum" ↔ g.selected_rows = false) ∧
    (lookups (Call.trace env h (.momentum param grad2 velocity learning_rate master_param mu
        use_nesterov regularization_method regularization_coeff multi_precision
        rescale_grad))).map Prod.snd =
      (lookups (Call.trace env h (.momentum param grad velocity learning_rate master_param mu
        use_nesterov regularization_method regularization_coeff multi_precision
        rescale_grad))).map Prod.snd := by
  rw [lookups_eq_lookupOf, lookups_eq_lookupOf]
  simp only [Call.lookupOf, hg, hg2, List.map_cons, List.map_nil, true_and]
  cases g.selected_rows <;> decide

/-- Witness of C21: with a sparse gradient the kernel looked up is
`"momentum_dense_param_sparse_grad"`, at the key the dense gradient gives. -/
theorem momentum_kernel_name_witness :
    lookups (Call.trace testEnv sparseGradHeap momentumCall) =
      [("momentum_dense_param_sparse_grad",
        { backend := .CPU, layout := .NCHW, dtype := .FLOAT32 })] ∧
    lookups (Call.trace testEnv momentumHeap momentumCall) =
      [("momentum", { backend := .CPU, layout := .NCHW, dtype := .FLOAT32 })] ∧
    (lookups (Call.trace testEnv sparseGradHeap (.momentum (tensorAt 0) (tensorAt 2)
        (tensorAt 2) (tensorAt 3) none 0 false "" 0 false 0))).map Prod.snd =
      (lookups (Call.trace testEnv sparseGradHeap (.momentum (tensorAt 0) (tensorAt 1)
        (tensorAt 2) (tensorAt 3) none 0 false "" 0 false 0))).map Prod.snd :=
  ⟨by decide, by decide,
    (momentum_kernel_name testEnv sparseGradHeap (tensorAt 0) (tensorAt 1) (tensorAt 2)
      (tensorAt 2) (tensorAt 3) none 0 false "" 0 false 0 _ _ rfl rfl).2.2.2⟩

/-! ## The unvalidated output count of `split_impl` (C22) -/

/-- A negative signed 64-bit value wraps to itself plus `2^64`. -/
theorem to_size_t_of_neg (k : Int) (h0 : k < 0) (h1 : -2 ^ 63 ≤ k) :
    k % 2 ^ 64 = k + 2 ^ 64 := by
  have h2 : (k + 2 ^ 64) % 2 ^ 64 = k + 2 ^ 64 :=
    Int.emod_eq_of_lt (by omega) (by omega)
  rw [← h2, Int.add_emod_self]

/-- C22: `split_impl` computes the output count from `num_or_sections` without
validating it.  For an empty `num_or_sections` the count is 0: every Output Binder,
meta-inference and kernel call is given 0 outputs, the Output Binder is called unless
the lookup or the preparation raised, `SplitInferMeta` is called with the empty output
list unless the call ended before, and a call that returns returns no tensor.  For a
single value `k < 0` (a signed 64-bit value) the count is `k mod 2^64`, which is
`k + 2^64`: every such call is given that many outputs and the Output Binder is
called with that count unless the lookup or the preparation raised. -/
theorem split_count_unvalidated (env : Env) (h : Heap) (x : Tensor) (axis : Scalar)
    (k : Int) (hk : k < 0) (hk2 : -2 ^ 63 ≤ k) :
    ((∀ n ∈ boundCounts (run (split_impl env x { GetData := [] } axis) h).2.trace ++
          inferCounts (run (split_impl env x { GetData := [] } axis) h).2.trace ++
          kernelCounts (run (split_impl env x { GetData := [] } axis) h).2.trace,
        n = 0) ∧
      (boundCounts (run (split_impl env x { GetData := [] } axis) h).2.trace = [0] ∨
        ∀ ev ∈ (run (split_impl env x { GetData := [] } axis) h).2.trace, ev.step ≤ 3) ∧
      (inferOutputs (run (split_impl env x { GetData := [] } axis) h).2.trace =
          [[.ptrs []]] ∨
        ∀ ev ∈ (run (split_impl env x { GetData := [] } axis) h).2.trace, ev.step ≤ 4) ∧
      ∀ out, (run (split_impl env x { GetData := [] } axis) h).1 = .ok out → out = []) ∧
    ((∀ n ∈ boundCounts (run (split_impl env x { GetData := [k] } axis) h).2.trace ++
          inferCounts (run (split_impl env x { GetData := [k] } axis) h).2.trace ++
          kernelCounts (run (split_impl env x { GetData := [k] } axis) h).2.trace,
        n = (k % 2 ^ 64).toNat) ∧
      (boundCounts (run (split_impl env x { GetData := [k] } axis) h).2.trace =
          [(k % 2 ^ 64).toNat] ∨
        ∀ ev ∈ (run (split_impl env x { GetData := [k] } axis) h).2.trace, ev.step ≤ 3) ∧
      k % 2 ^ 64 = k + 2 ^ 64) := by
  have hne : ¬ ([] : List Int).length = 1 := by decide
  refine ⟨?_, ?_⟩
  · simp only [run, split_impl, ParseKernelKeyByInputArgs_bind,
      GetHighestPriorityKernelKey_bind, SelectKernelOrThrowError_bind,
      GetDeviceContextByBackend_bind, PrepareData_bind, SetKernelOutputVector_bind,
      addrOf_bind, InferMeta_bind, kernel_fn_bind, pure_apply, pure_bind_apply,
      bind_assoc_apply, List.nil_append, List.append_assoc, List.cons_append, hne, if_false,
      viewsOf]
    repeat' split
    all_goals
      simp [boundCounts, inferCounts, kernelCounts, inferOutputs, Event.boundCount?,
        Event.inferCount?, Event.kernelCount?, Event.inferOutputs?, Event.step, outAddrs,
        OutArg.addrs]
  · refine ⟨?_, ?_, to_size_t_of_neg k hk hk2⟩
    all_goals
      simp only [run, split_impl, ParseKernelKeyByInputArgs_bind,
        GetHighestPriorityKernelKey_bind, SelectKernelOrThrowError_bind,
        GetDeviceContextByBackend_bind, PrepareData_bind, SetKernelOutputVector_bind,
        addrOf_bind, InferMeta_bind, kernel_fn_bind, pure_apply, pure_bind_apply,
        bind_assoc_apply, List.nil_append, List.append_assoc, List.cons_append,
        List.length_singleton, if_true, List.headD_cons, to_size_t, viewsOf]
      repeat' split
      all_goals
        simp [boundCounts, inferCounts, kernelCounts, Event.boundCount?,
          Event.inferCount?, Event.kernelCount?, Event.step, outAddrs, OutArg.addrs]

/-- Witness of C22: the split of the tensor of shape `[10]` with an empty
`num_or_sections` returns no tensor, after `SplitInferMeta` was called with the empty
output list; with `num_or_sections = [-1]` the count is `2^64 - 1`. -/
theorem split_count_unvalidated_witness :
    (run (split_impl testEnv (tensorAt 0) { GetData := [] } (.int 0)) vecHeap).1 = .ok [] ∧
    inferOutputs (run (split_impl testEnv (tensorAt 0) { GetData := [] } (.int 0))
      vecHeap).2.trace = [[.ptrs []]] ∧
    to_size_t (-1) = 18446744073709551615 ∧
    (-1 : Int) % 2 ^ 64 = -1 + 2 ^ 64 :=
  ⟨rfl, by decide, by decide,
    (split_count_unvalidated testEnv vecHeap (tensorAt 0) (.int 0) (-1) (by decide)
      (by decide)).2.2.2⟩

end Paddle
